import Mathlib

/-!
# opcua-client-ruby: a verification development

A shallow embedding of `ext/opcua_client/opcua_client.c` (the Ruby binding of
the open62541 OPC UA client) and of the parts of `tools/server/server.c` that
the properties below refer to.

Conventions of the embedding

* The C data model is LP64 (`int` 32 bits, `long`, `long long` and `VALUE`
  64 bits), the data model of the platforms the extension is built for.
  Machine integers are `Int`/`Nat` with explicit wrap-around where C converts.
* A Ruby `VALUE` is a term of `RValue`.  A Ruby exception raised with
  `rb_raise` (or by a conversion of the Ruby C API) ends the call: it is the
  `Outcome.raise` result.  Undefined behaviour of C is `Outcome.undefined`.
* The OPC UA stack (open62541) is a black box: a `UA_Client` is a record of
  the answers it gives to the requests the extension sends.  Every request
  sent is logged in the `calls` of the `Run`.
* Floating-point conversions, the calendar decomposition of a timestamp and
  the table of status names belong to the C library and to open62541; they
  are taken as parameters (`External`).
* Memory is abstracted: a Variant is described by the shape and the content
  of what its `data` pointer points to.  Allocation never fails, and
  `UA_malloc(0)` returns a non-null pointer, as `malloc(0)` does with the C
  libraries Ruby runs on (glibc, musl, macOS).
* The conversions of the Ruby C API (`NUM2INT`, `NUM2USHORT`, `Check_Type`,
  `StringValueCStr`, ...) and the accessors of open62541
  (`UA_Variant_hasScalarType`, `UA_NODEID_STRING`, ...) are not part of the
  repository; they are embedded from their definitions in Ruby (`numeric.c`,
  `bignum.c`, `include/ruby/internal/arithmetic/*.h`) and in `open62541.h`.
-/

namespace OpcuaClient

/-! ## Ruby values -/

/-- An IEEE-754 binary64 value (`double`, the payload of a Ruby `Float` and of
a `UA_Double`), identified by its bit pattern. -/
structure CDouble where
  bits : Nat
deriving DecidableEq, Repr

/-- An IEEE-754 binary32 value (`float`, the payload of a `UA_Float`),
identified by its bit pattern. -/
structure CFloat where
  bits : Nat
deriving DecidableEq, Repr

/-- A Ruby object as the extension sees it (`VALUE`).  Strings are byte
sequences: `str` is a String in an encoding whose characters have at least one
byte (UTF-8, US-ASCII, ASCII-8BIT, ...), `wideStr` a String in UTF-16
(`minlen` 2) or UTF-32 (`minlen` 4), the encodings whose characters have at
least `minlen` bytes.  `time` is a `Time` built by `Time.gm` with the seven
arguments shown, the seventh of which `Time.gm` takes as a number of
microseconds; `client` is the `OPCUAClient::Client` instance (`self`). -/
inductive RValue where
  | nil
  | true
  | false
  | int (n : Int)
  | float (d : CDouble)
  | str (bytes : List Nat)
  | wideStr (minlen : Nat) (bytes : List Nat)
  | ary (xs : List RValue)
  | time (year month day hour min sec usec : Nat)
  | client
deriving Repr

mutual
/-- Equality of Ruby values is decidable. -/
def RValue.decEq : (a b : RValue) → Decidable (a = b)
  | .nil, .nil => isTrue rfl
  | .true, .true => isTrue rfl
  | .false, .false => isTrue rfl
  | .client, .client => isTrue rfl
  | .int m, .int n =>
      if h : m = n then isTrue (by rw [h]) else isFalse (by intro e; cases e; exact h rfl)
  | .float m, .float n =>
      if h : m = n then isTrue (by rw [h]) else isFalse (by intro e; cases e; exact h rfl)
  | .str m, .str n =>
      if h : m = n then isTrue (by rw [h]) else isFalse (by intro e; cases e; exact h rfl)
  | .wideStr w m, .wideStr w2 n =>
      if h : w = w2 ∧ m = n then isTrue (by obtain ⟨h1, h2⟩ := h; subst h1 h2; rfl)
      else isFalse (by intro e; cases e; exact h ⟨rfl, rfl⟩)
  | .time a b c d e f g, .time a2 b2 c2 d2 e2 f2 g2 =>
      if h : a = a2 ∧ b = b2 ∧ c = c2 ∧ d = d2 ∧ e = e2 ∧ f = f2 ∧ g = g2 then
        isTrue (by obtain ⟨h1, h2, h3, h4, h5, h6, h7⟩ := h; subst h1 h2 h3 h4 h5 h6 h7; rfl)
      else isFalse (by intro e; cases e; exact h ⟨rfl, rfl, rfl, rfl, rfl, rfl, rfl⟩)
  | .ary xs, .ary ys =>
      match RValue.decEqList xs ys with
      | isTrue h => isTrue (by rw [h])
      | isFalse h => isFalse (by intro e; cases e; exact h rfl)
  | .nil, .true | .nil, .false | .nil, .int _ | .nil, .float _ | .nil, .str _
  | .nil, .wideStr .. | .nil, .ary _ | .nil, .time .. | .nil, .client =>
      isFalse (by intro e; cases e)
  | .true, .nil | .true, .false | .true, .int _ | .true, .float _ | .true, .str _
  | .true, .wideStr .. | .true, .ary _ | .true, .time .. | .true, .client =>
      isFalse (by intro e; cases e)
  | .false, .nil | .false, .true | .false, .int _ | .false, .float _ | .false, .str _
  | .false, .wideStr .. | .false, .ary _ | .false, .time .. | .false, .client =>
      isFalse (by intro e; cases e)
  | .int _, .nil | .int _, .true | .int _, .false | .int _, .float _ | .int _, .str _
  | .int _, .wideStr .. | .int _, .ary _ | .int _, .time .. | .int _, .client =>
      isFalse (by intro e; cases e)
  | .float _, .nil | .float _, .true | .float _, .false | .float _, .int _
  | .float _, .str _ | .float _, .wideStr .. | .float _, .ary _ | .float _, .time ..
  | .float _, .client => isFalse (by intro e; cases e)
  | .str _, .nil | .str _, .true | .str _, .false | .str _, .int _ | .str _, .float _
  | .str _, .wideStr .. | .str _, .ary _ | .str _, .time .. | .str _, .client =>
      isFalse (by intro e; cases e)
  | .wideStr .., .nil | .wideStr .., .true | .wideStr .., .false | .wideStr .., .int _
  | .wideStr .., .float _ | .wideStr .., .str _ | .wideStr .., .ary _
  | .wideStr .., .time .. | .wideStr .., .client => isFalse (by intro e; cases e)
  | .ary _, .nil | .ary _, .true | .ary _, .false | .ary _, .int _ | .ary _, .float _
  | .ary _, .str _ | .ary _, .wideStr .. | .ary _, .time .. | .ary _, .client =>
      isFalse (by intro e; cases e)
  | .time .., .nil | .time .., .true | .time .., .false | .time .., .int _
  | .time .., .float _ | .time .., .str _ | .time .., .wideStr .. | .time .., .ary _
  | .time .., .client => isFalse (by intro e; cases e)
  | .client, .nil | .client, .true | .client, .false | .client, .int _ | .client, .float _
  | .client, .str _ | .client, .wideStr .. | .client, .ary _ | .client, .time .. =>
      isFalse (by intro e; cases e)
/-- Equality of lists of Ruby values is decidable. -/
def RValue.decEqList : (as bs : List RValue) → Decidable (as = bs)
  | [], [] => isTrue rfl
  | [], _ :: _ => isFalse (by intro e; cases e)
  | _ :: _, [] => isFalse (by intro e; cases e)
  | a :: as, b :: bs =>
      match RValue.decEq a b, RValue.decEqList as bs with
      | isTrue h1, isTrue h2 => isTrue (by rw [h1, h2])
      | isFalse h1, _ => isFalse (by intro e; cases e; exact h1 rfl)
      | _, isFalse h2 => isFalse (by intro e; cases e; exact h2 rfl)
end

instance : DecidableEq RValue := RValue.decEq

/-- Exceptions the extension can end a call with.  `cError` is
`rb_raise(cError, msg)`; `cErrorStatus` is `rb_raise(cError, "%u: %s", status,
UA_StatusCode_name(status))`, kept structured; the other three are raised by
the Ruby C API itself (`Check_Type`, `NUM2INT`, `StringValueCStr`, ...). -/
inductive RbException where
  | cError (msg : String)
  | cErrorStatus (status : Nat) (name : String)
  | typeError
  | rangeError
  | argumentError
deriving DecidableEq, Repr

/-- How a call of the extension ends. -/
inductive Outcome (α : Type) where
  | ok (v : α)
  | raise (e : RbException)
  | undefined
deriving DecidableEq, Repr

/-- Sequencing of two steps: the second runs only when the first returned. -/
def Outcome.bind {α β : Type} (x : Outcome α) (f : α → Outcome β) : Outcome β :=
  match x with
  | .ok v => f v
  | .raise e => .raise e
  | .undefined => .undefined

/-! ## The parts of the C library and of open62541 taken as parameters -/

/-- Result of `UA_DateTime_toStruct` (open62541): the calendar decomposition of
a timestamp.  All fields are `UA_UInt16` except `year`, a `UA_Int16`. -/
structure UA_DateTimeStruct where
  nanoSec : Nat
  microSec : Nat
  milliSec : Nat
  sec : Nat
  min : Nat
  hour : Nat
  day : Nat
  month : Nat
  year : Int
deriving DecidableEq, Repr

/-- Functions of the C library, of Ruby and of open62541 whose arithmetic is
outside this development.
* `integerToDouble n`: the `double` nearest to the integer `n` (`(double)` of a
  `long`, `rb_big2dbl` of a Bignum);
* `doubleTruncate d`: the integer part of `d`, towards zero; `none` for a NaN
  or an infinity;
* `doubleToFloat`, `floatToDouble`: the C conversions between `double` and
  `float`;
* `Time_to_f`: Ruby's `Time#to_f`, on the seven arguments of `Time.gm`;
* `UA_DateTime_toStruct`, `UA_StatusCode_name`: the open62541 functions. -/
structure External where
  integerToDouble : Int → CDouble
  doubleTruncate : CDouble → Option Int
  doubleToFloat : CDouble → CFloat
  floatToDouble : CFloat → CDouble
  Time_to_f : Nat → Nat → Nat → Nat → Nat → Nat → Nat → CDouble
  UA_DateTime_toStruct : Int → UA_DateTimeStruct
  UA_StatusCode_name : Nat → String

/-! ## The Ruby C API -/

/-- Ruby's type tags (`T_FIXNUM`, ...), as far as the extension tells them
apart.  A `Time` and the client instance are `T_DATA`. -/
inductive RubyType where
  | T_NIL
  | T_TRUE
  | T_FALSE
  | T_FIXNUM
  | T_BIGNUM
  | T_FLOAT
  | T_STRING
  | T_ARRAY
  | T_DATA
deriving DecidableEq, Repr

/-- Least Fixnum of a 64-bit Ruby. -/
def FIXNUM_MIN : Int := -(2 ^ 62)

/-- Greatest Fixnum of a 64-bit Ruby. -/
def FIXNUM_MAX : Int := 2 ^ 62 - 1

/-- Ruby's `rb_type`: an Integer is a Fixnum when it fits in 63 bits and a
Bignum otherwise. -/
def rb_type : RValue → RubyType
  | .nil => .T_NIL
  | .true => .T_TRUE
  | .false => .T_FALSE
  | .int n => if FIXNUM_MIN ≤ n ∧ n ≤ FIXNUM_MAX then .T_FIXNUM else .T_BIGNUM
  | .float _ => .T_FLOAT
  | .str _ => .T_STRING
  | .wideStr .. => .T_STRING
  | .ary _ => .T_ARRAY
  | .time .. => .T_DATA
  | .client => .T_DATA

/-- Ruby's `RB_TYPE_P(v, t)`. -/
def RB_TYPE_P (v : RValue) (t : RubyType) : Bool := rb_type v == t

/-- Ruby's `Check_Type(v, t)`: raises `TypeError` unless `v` has type `t`. -/
def Check_Type (v : RValue) (t : RubyType) : Outcome Unit :=
  if rb_type v = t then .ok () else .raise .typeError

/-- Ruby's `RTEST(v)`: everything but `nil` and `false` is true. -/
def RTEST : RValue → Bool
  | .nil => false
  | .false => false
  | _ => true

/-- Ruby's `NIL_P(v)`. -/
def NIL_P : RValue → Bool
  | .nil => true
  | _ => false

/-- Value of `n` converted to an unsigned C integer of `w` bits. -/
def wrapUnsigned (w : Nat) (n : Int) : Nat := (n % 2 ^ w).toNat

/-- Value of `n` converted to a signed (two's complement) C integer of `w`
bits. -/
def wrapSigned (w : Nat) (n : Int) : Int := (n + 2 ^ (w - 1)) % 2 ^ w - 2 ^ (w - 1)

/-- Ruby's `rb_num2long` (`numeric.c`), also `rb_num2ll` (`NUM2LL`) since `long`
and `long long` are both 64 bits: an Integer must fit (`RangeError` from
`rb_big2long` otherwise), a Float is truncated when the result fits, `nil`
and every object without `to_int` raise `TypeError`. -/
def rb_num2long (ext : External) : RValue → Outcome Int
  | .int n => if -(2 ^ 63) ≤ n ∧ n ≤ 2 ^ 63 - 1 then .ok n else .raise .rangeError
  | .float d =>
      match ext.doubleTruncate d with
      | some n => if -(2 ^ 63) ≤ n ∧ n ≤ 2 ^ 63 - 1 then .ok n else .raise .rangeError
      | none => .raise .rangeError
  | _ => .raise .typeError

/-- Ruby's `rb_num2ulong_internal` (`numeric.c`): the value as an `unsigned
long` and the `wrap` flag (the value was negative).  An Integer is accepted
from `LONG_MIN` to `ULONG_MAX` (`rb_big2ulong`), negative ones wrap around. -/
def rb_num2ulong_internal (ext : External) : RValue → Outcome (Nat × Bool)
  | .int n =>
      if -(2 ^ 63) ≤ n ∧ n ≤ 2 ^ 64 - 1 then .ok (wrapUnsigned 64 n, decide (n < 0))
      else .raise .rangeError
  | .float d =>
      match ext.doubleTruncate d with
      | some n =>
          if -(2 ^ 63) ≤ n ∧ n ≤ 2 ^ 64 - 1 then .ok (wrapUnsigned 64 n, decide (n < 0))
          else .raise .rangeError
      | none => .raise .rangeError
  | _ => .raise .typeError

/-- Ruby's `NUM2INT` (and `FIX2INT`, which is the same function on a Fixnum):
`rb_num2long` followed by `check_int`. -/
def NUM2INT (ext : External) (v : RValue) : Outcome Int :=
  (rb_num2long ext v).bind fun n =>
    if -(2 ^ 31) ≤ n ∧ n ≤ 2 ^ 31 - 1 then .ok n else .raise .rangeError

/-- Ruby's `FIX2INT`. -/
def FIX2INT (ext : External) (v : RValue) : Outcome Int := NUM2INT ext v

/-- Ruby's `NUM2SHORT`: `rb_num2long` followed by `check_short`. -/
def NUM2SHORT (ext : External) (v : RValue) : Outcome Int :=
  (rb_num2long ext v).bind fun n =>
    if -(2 ^ 15) ≤ n ∧ n ≤ 2 ^ 15 - 1 then .ok n else .raise .rangeError

/-- Ruby's `NUM2USHORT`: `rb_num2ulong_internal` followed by `check_ushort`,
which accepts a negative value down to `SHRT_MIN` and a non-negative one up to
`USHRT_MAX`; the result is the value converted to `unsigned short`. -/
def NUM2USHORT (ext : External) (v : RValue) : Outcome Nat :=
  (rb_num2ulong_internal ext v).bind fun (num, wrap) =>
    if wrap then
      if num < 2 ^ 64 - 2 ^ 15 then .raise .rangeError else .ok (num % 2 ^ 16)
    else
      if 2 ^ 16 - 1 < num then .raise .rangeError else .ok (num % 2 ^ 16)

/-- Ruby's `NUM2UINT`: `rb_num2ulong_internal` followed by `check_uint`, which
accepts a negative value down to `INT_MIN` and a non-negative one up to
`UINT_MAX`; the result is the value converted to `unsigned int`. -/
def NUM2UINT (ext : External) (v : RValue) : Outcome Nat :=
  (rb_num2ulong_internal ext v).bind fun (num, wrap) =>
    if wrap then
      if num < 2 ^ 64 - 2 ^ 31 then .raise .rangeError else .ok (num % 2 ^ 32)
    else
      if 2 ^ 32 - 1 < num then .raise .rangeError else .ok (num % 2 ^ 32)

/-- Ruby's `NUM2LL`. -/
def NUM2LL (ext : External) (v : RValue) : Outcome Int := rb_num2long ext v

/-- Ruby's `NUM2ULL` (`rb_num2ull`): like `rb_num2ulong_internal`, without a
further check. -/
def NUM2ULL (ext : External) (v : RValue) : Outcome Nat :=
  (rb_num2ulong_internal ext v).bind fun (num, _) => .ok num

/-- Ruby's `NUM2CHR`: the first byte of a non-empty String, otherwise
`NUM2INT` converted to `char`.  The result is the `char` as its eight bits
(what the conversion to `UA_Byte` keeps). -/
def NUM2CHR (ext : External) (v : RValue) : Outcome Nat :=
  match v with
  | .str (b :: _) => .ok (wrapUnsigned 8 b)
  | .wideStr _ (b :: _) => .ok (wrapUnsigned 8 b)
  | _ => (NUM2INT ext v).bind fun n => .ok (wrapUnsigned 8 n)

/-- Ruby's `NUM2DBL` (`rb_num2dbl`): an Integer is converted, a Float gives its
value, a `Time` answers `to_f`; `nil`, `true`, `false`, a String and every
object without `to_f` raise `TypeError`. -/
def NUM2DBL (ext : External) : RValue → Outcome CDouble
  | .int n => .ok (ext.integerToDouble n)
  | .float d => .ok d
  | .time y mo d h mi s us => .ok (ext.Time_to_f y mo d h mi s us)
  | _ => .raise .typeError

/-- Ruby's `str_null_char` (`string.c`) for an encoding whose characters have at
least `minlen` bytes, `minlen` above 1: whether a character of the string
starts with `minlen` zero bytes.  The loop goes from character to character;
in UTF-32 every character has four bytes, and in UTF-16 the second half of a
character of four bytes is a low surrogate, which is not zero, so that a wide
NUL is found exactly when one of the groups of `minlen` bytes that the string
is made of is all zero (bytes after the last whole group are not looked at). -/
def str_null_char (minlen : Nat) (bytes : List Nat) : Bool :=
  (List.range (bytes.length / minlen)).any fun i =>
    ((bytes.drop (i * minlen)).take minlen).all (fun b => b == 0)

/-- Ruby's `StringValueCStr`, as the C string that starts at the pointer it
returns: the bytes before the first NUL byte.  `str_null_check` raises
`ArgumentError` for a String with a NUL byte when the characters of the
encoding have at least one byte (`memchr`), but only for a wide NUL
(`str_null_char`) when they have more, so a String in UTF-16 or UTF-32 with a
single zero byte is accepted and the C string ends at that byte.  An object
without `to_str` raises `TypeError`. -/
def StringValueCStr : RValue → Outcome (List Nat)
  | .str bytes => if 0 ∈ bytes then .raise .argumentError else .ok bytes
  | .wideStr minlen bytes =>
      if str_null_char minlen bytes then .raise .argumentError
      else .ok (bytes.takeWhile (fun b => b != 0))
  | _ => .raise .typeError

/-- Ruby's `INT2FIX`, `INT2NUM`, `UINT2NUM`, `LL2NUM` and `ULL2NUM`: the Integer
of the same value (every C integer of at most 32 bits is a Fixnum). -/
def INT2NUM (n : Int) : RValue := .int n

/-- Ruby's `DBL2NUM`. -/
def DBL2NUM (d : CDouble) : RValue := .float d

/-! ## open62541 data types -/

/-- Index of `UA_Boolean` in `UA_TYPES`. -/
def UA_TYPES_BOOLEAN : Nat := 0
/-- Index of `UA_SByte` in `UA_TYPES`. -/
def UA_TYPES_SBYTE : Nat := 1
/-- Index of `UA_Byte` in `UA_TYPES`. -/
def UA_TYPES_BYTE : Nat := 2
/-- Index of `UA_Int16` in `UA_TYPES`. -/
def UA_TYPES_INT16 : Nat := 3
/-- Index of `UA_UInt16` in `UA_TYPES`. -/
def UA_TYPES_UINT16 : Nat := 4
/-- Index of `UA_Int32` in `UA_TYPES`. -/
def UA_TYPES_INT32 : Nat := 5
/-- Index of `UA_UInt32` in `UA_TYPES`. -/
def UA_TYPES_UINT32 : Nat := 6
/-- Index of `UA_Int64` in `UA_TYPES`. -/
def UA_TYPES_INT64 : Nat := 7
/-- Index of `UA_UInt64` in `UA_TYPES`. -/
def UA_TYPES_UINT64 : Nat := 8
/-- Index of `UA_Float` in `UA_TYPES`. -/
def UA_TYPES_FLOAT : Nat := 9
/-- Index of `UA_Double` in `UA_TYPES`. -/
def UA_TYPES_DOUBLE : Nat := 10
/-- Index of `UA_String` in `UA_TYPES`. -/
def UA_TYPES_STRING : Nat := 11
/-- Index of `UA_DateTime` in `UA_TYPES`. -/
def UA_TYPES_DATETIME : Nat := 12

/-- Status code `UA_STATUSCODE_GOOD`. -/
def UA_STATUSCODE_GOOD : Nat := 0
/-- Status code `UA_STATUSCODE_BADUNEXPECTEDERROR`. -/
def UA_STATUSCODE_BADUNEXPECTEDERROR : Nat := 0x80010000

/-- A single value of one of the built-in types, with its type: what the
`data` pointer of a scalar `UA_Variant` points to.  `other k` is a value of the
type of index `13 + k` of `UA_TYPES`, which the extension never looks into. -/
inductive UA_Scalar where
  | boolean (b : Bool)
  | sbyte (i : Int)
  | byte (n : Nat)
  | int16 (i : Int)
  | uint16 (n : Nat)
  | int32 (i : Int)
  | uint32 (n : Nat)
  | int64 (i : Int)
  | uint64 (n : Nat)
  | float (f : CFloat)
  | double (d : CDouble)
  | string (bytes : List Nat)
  | dateTime (t : Int)
  | other (k : Nat)
deriving DecidableEq, Repr

/-- The elements of an array `UA_Variant`, all of one type. -/
inductive UA_Array where
  | boolean (xs : List Bool)
  | sbyte (xs : List Int)
  | byte (xs : List Nat)
  | int16 (xs : List Int)
  | uint16 (xs : List Nat)
  | int32 (xs : List Int)
  | uint32 (xs : List Nat)
  | int64 (xs : List Int)
  | uint64 (xs : List Nat)
  | float (xs : List CFloat)
  | double (xs : List CDouble)
  | string (xs : List (List Nat))
  | dateTime (xs : List Int)
  | other (k : Nat) (length : Nat)
deriving DecidableEq, Repr

/-- Index in `UA_TYPES` of the type of a scalar value. -/
def UA_Scalar.typeIndex : UA_Scalar → Nat
  | .boolean _ => UA_TYPES_BOOLEAN
  | .sbyte _ => UA_TYPES_SBYTE
  | .byte _ => UA_TYPES_BYTE
  | .int16 _ => UA_TYPES_INT16
  | .uint16 _ => UA_TYPES_UINT16
  | .int32 _ => UA_TYPES_INT32
  | .uint32 _ => UA_TYPES_UINT32
  | .int64 _ => UA_TYPES_INT64
  | .uint64 _ => UA_TYPES_UINT64
  | .float _ => UA_TYPES_FLOAT
  | .double _ => UA_TYPES_DOUBLE
  | .string _ => UA_TYPES_STRING
  | .dateTime _ => UA_TYPES_DATETIME
  | .other k => 13 + k

/-- Index in `UA_TYPES` of the element type of an array. -/
def UA_Array.typeIndex : UA_Array → Nat
  | .boolean _ => UA_TYPES_BOOLEAN
  | .sbyte _ => UA_TYPES_SBYTE
  | .byte _ => UA_TYPES_BYTE
  | .int16 _ => UA_TYPES_INT16
  | .uint16 _ => UA_TYPES_UINT16
  | .int32 _ => UA_TYPES_INT32
  | .uint32 _ => UA_TYPES_UINT32
  | .int64 _ => UA_TYPES_INT64
  | .uint64 _ => UA_TYPES_UINT64
  | .float _ => UA_TYPES_FLOAT
  | .double _ => UA_TYPES_DOUBLE
  | .string _ => UA_TYPES_STRING
  | .dateTime _ => UA_TYPES_DATETIME
  | .other k _ => 13 + k

/-- Number of elements of an array (`arrayLength`). -/
def UA_Array.length : UA_Array → Nat
  | .boolean xs => xs.length
  | .sbyte xs => xs.length
  | .byte xs => xs.length
  | .int16 xs => xs.length
  | .uint16 xs => xs.length
  | .int32 xs => xs.length
  | .uint32 xs => xs.length
  | .int64 xs => xs.length
  | .uint64 xs => xs.length
  | .float xs => xs.length
  | .double xs => xs.length
  | .string xs => xs.length
  | .dateTime xs => xs.length
  | .other _ n => n

/-- The `UA_Variant` of open62541 (`type`, `arrayLength`, `data`), in the four
shapes its fields can take:
* `empty`: `type == NULL` (the state after `UA_Variant_init`);
* `scalar s`: `arrayLength == 0` and `data` points to one value;
* `array a`: `data` points to `arrayLength` values, or is
  `UA_EMPTY_ARRAY_SENTINEL` when there is none (an empty array);
* `nullArray t`: `type` set, `arrayLength == 0` and `data == NULL`. -/
inductive UA_Variant where
  | empty
  | scalar (s : UA_Scalar)
  | array (a : UA_Array)
  | nullArray (t : Nat)
deriving DecidableEq, Repr

/-- Field `type` of a Variant, as an index in `UA_TYPES`; `none` is `NULL`. -/
def UA_Variant.type : UA_Variant → Option Nat
  | .empty => none
  | .scalar s => some s.typeIndex
  | .array a => some a.typeIndex
  | .nullArray t => some t

/-- Field `arrayLength` of a Variant. -/
def UA_Variant.arrayLength : UA_Variant → Nat
  | .array a => a.length
  | _ => 0

/-- open62541's `UA_Variant_isScalar`: `arrayLength == 0 && data >
UA_EMPTY_ARRAY_SENTINEL`. -/
def UA_Variant_isScalar : UA_Variant → Bool
  | .scalar _ => true
  | _ => false

/-- open62541's `UA_Variant_hasScalarType(v, &UA_TYPES[t])`. -/
def UA_Variant_hasScalarType (v : UA_Variant) (t : Nat) : Bool :=
  UA_Variant_isScalar v && v.type == some t

/-- A `UA_NodeId` with a string identifier. -/
structure UA_NodeId where
  namespaceIndex : Nat
  identifier : List Nat
deriving DecidableEq, Repr

/-- open62541's `UA_NODEID_STRING(nsIndex, chars)`: its first parameter is a
`UA_UInt16`, so the C argument is converted to 16 bits. -/
def UA_NODEID_STRING (nsIndex : Int) (chars : List Nat) : UA_NodeId :=
  { namespaceIndex := wrapUnsigned 16 nsIndex, identifier := chars }

/-- open62541's `UA_STRING_ALLOC(chars)` (`UA_String_fromChars`): a copy of the
C string that starts at `chars`.  Its length is `strlen(chars)`, so it holds
the bytes before the first NUL. -/
def UA_STRING_ALLOC (chars : List Nat) : List Nat :=
  chars.takeWhile (fun c => c != 0)

/-- The fields of a `UA_DataValue` that the extension reads. -/
structure UA_DataValue where
  value : UA_Variant
  sourceTimestamp : Int
  serverTimestamp : Int
  status : Nat
  hasValue : Bool
  hasStatus : Bool
  hasSourceTimestamp : Bool
  hasServerTimestamp : Bool
deriving DecidableEq, Repr

/-- A `UA_ReadResponse`: `resultsSize` is the length of `results`. -/
structure UA_ReadResponse where
  serviceResult : Nat
  results : List UA_DataValue
deriving DecidableEq, Repr

/-- A `UA_WriteResponse`: `resultsSize` is the length of `results`. -/
structure UA_WriteResponse where
  serviceResult : Nat
  results : List Nat
deriving DecidableEq, Repr

/-- The open62541 client, a black box: the answer it gives to each request of
the extension. -/
structure UA_Client where
  readValueAttribute : UA_NodeId → Nat × UA_Variant
  writeValueAttribute : UA_NodeId → UA_Variant → Nat
  Service_read : List UA_NodeId → UA_ReadResponse
  Service_write : List (UA_NodeId × UA_Variant) → UA_WriteResponse

/-- A request sent to the open62541 client. -/
inductive StackCall where
  | readValueAttribute (nodeId : UA_NodeId)
  | writeValueAttribute (nodeId : UA_NodeId) (value : UA_Variant)
  | Service_read (nodesToRead : List UA_NodeId)
  | Service_write (nodesToWrite : List (UA_NodeId × UA_Variant))
  | connect (endpointUrl : List Nat)
  | MonitoredItems_createDataChange (subscriptionId : Nat) (nodeId : UA_NodeId)
deriving DecidableEq, Repr

/-- A call of the extension: the requests it sent to the stack, in order, and
how it ended. -/
structure Run (α : Type) where
  calls : List StackCall
  outcome : Outcome α
deriving DecidableEq, Repr

/-- Function `raise_invalid_arguments_error`. -/
def raise_invalid_arguments_error {α : Type} : Outcome α :=
  .raise (.cError "Invalid arguments")

/-- Function `raise_ua_status_error`. -/
def raise_ua_status_error {α : Type} (ext : External) (status : Nat) : Outcome α :=
  .raise (.cErrorStatus status (ext.UA_StatusCode_name status))

/-! ## Callbacks of the stack -/

/-- Function `toRubyTime`: `Time.gm(year, month, day, hour, min, sec, millis)`
on the fields of `UA_DateTime_toStruct`, each through `UINT2NUM` (which
converts the signed `year` to `unsigned int`). -/
def toRubyTime (ext : External) (raw_date : Int) : RValue :=
  let dts := ext.UA_DateTime_toStruct raw_date
  .time (wrapUnsigned 32 dts.year) dts.month dts.day dts.hour dts.min dts.sec dts.milliSec

/-- The Ruby-side client object: the two instance variables the extension
reads with `rb_ivar_get`.  A variable holds `nil` (`none`) or a `Proc`,
identified by a number. -/
structure RubyClient where
  callback_after_session_created : Option Nat
  callback_after_data_changed : Option Nat
deriving DecidableEq, Repr

/-- One `rb_proc_call(callback, params)`. -/
structure ProcCall where
  callback : Nat
  params : List RValue
deriving DecidableEq, Repr

/-- Function `handler_dataChanged`: the procs it calls for one data-change
notification of monitored item `monId` of subscription `subId`. -/
def handler_dataChanged (ext : External) (self : RubyClient) (subId monId : Nat)
    (value : UA_DataValue) : List ProcCall :=
  match self.callback_after_data_changed with
  | none => []
  | some callback =>
    let v_serverTime :=
      if value.hasServerTimestamp then toRubyTime ext value.serverTimestamp else RValue.nil
    let v_sourceTime :=
      if value.hasSourceTimestamp then toRubyTime ext value.sourceTimestamp else RValue.nil
    let params := [INT2NUM subId, INT2NUM monId, v_serverTime, v_sourceTime]
    let v_newValue : RValue :=
      if UA_Variant_hasScalarType value.value UA_TYPES_DATETIME then
        match value.value with
        | .scalar (.dateTime raw_date) => toRubyTime ext raw_date
        | _ => .nil
      else if UA_Variant_hasScalarType value.value UA_TYPES_INT32 then
        match value.value with
        | .scalar (.int32 number) => INT2NUM number
        | _ => .nil
      else if UA_Variant_hasScalarType value.value UA_TYPES_INT16 then
        match value.value with
        | .scalar (.int16 number) => INT2NUM number
        | _ => .nil
      else if UA_Variant_hasScalarType value.value UA_TYPES_BOOLEAN then
        match value.value with
        | .scalar (.boolean b) => if b then .true else .false
        | _ => .nil
      else if UA_Variant_hasScalarType value.value UA_TYPES_FLOAT then
        match value.value with
        | .scalar (.float dbl) => DBL2NUM (ext.floatToDouble dbl)
        | _ => .nil
      else .nil
    [{ callback := callback, params := params ++ [v_newValue] }]

/-! ## Session state notifications (`stateCallback`) -/

/-- Session states of open62541, as exported by `defineStateContants`. -/
inductive UA_SessionState where
  | CLOSED
  | CREATE_REQUESTED
  | CREATED
  | ACTIVATE_REQUESTED
  | ACTIVATED
  | CLOSING
deriving DecidableEq, Repr

/-- Secure channel states that `stateCallback` switches on; every other value
of the C enum is `OTHER`. -/
inductive UA_SecureChannelState where
  | CLOSED
  | OPEN
  | CLOSING
  | OTHER (code : Nat)
deriving DecidableEq, Repr

/-- Function `stateCallback`: the procs it calls for one notification.  The
`switch` on the channel state has only empty cases. -/
def stateCallback (self : RubyClient) (channelState : UA_SecureChannelState)
    (sessionState : UA_SessionState) (_connectStatus : Nat) : List ProcCall :=
  let onSession : List ProcCall :=
    if sessionState = UA_SessionState.ACTIVATED then
      match self.callback_after_session_created with
      | some callback => [{ callback := callback, params := [RValue.client] }]
      | none => []
    else []
  let onChannel : List ProcCall :=
    match channelState with
    | .CLOSED => []
    | .OPEN => []
    | .CLOSING => []
    | .OTHER _ => []
  onSession ++ onChannel

/-- One notification of the stack: the three arguments of `stateCallback`. -/
structure StateNotification where
  channelState : UA_SecureChannelState
  sessionState : UA_SessionState
  connectStatus : Nat
deriving DecidableEq, Repr

/-- The stack delivers notifications one after the other; the procs called are
those of each `stateCallback`, in order. -/
def deliverStates (self : RubyClient) : List StateNotification → List ProcCall
  | [] => []
  | n :: rest =>
      stateCallback self n.channelState n.sessionState n.connectStatus ++ deliverStates self rest

/-- Number of transitions into `ACTIVATED` from another session state in a
sequence of notifications, `prev` being the session state before the first
one. -/
def activationTransitions (prev : UA_SessionState) : List StateNotification → Nat
  | [] => 0
  | n :: rest =>
      (if n.sessionState = UA_SessionState.ACTIVATED ∧ prev ≠ UA_SessionState.ACTIVATED then 1 else 0)
        + activationTransitions n.sessionState rest

/-- The sequence of session states of the activation scenario, on an open
channel with a good connect status. -/
def activationScenario : List StateNotification :=
  [UA_SessionState.CREATED, UA_SessionState.ACTIVATE_REQUESTED, UA_SessionState.ACTIVATED,
   UA_SessionState.ACTIVATED, UA_SessionState.CLOSING, UA_SessionState.ACTIVATED].map
    (fun s => { channelState := UA_SecureChannelState.OPEN, sessionState := s, connectStatus := 0 })

/-! ## Batched read and write -/

/-- Function `multiRead` on the `varsCount = nodeId.length` nodes of `nodeId`:
the request sent, the status returned and the content of `out` (left as
allocated by the caller, all empty, unless the status is good).  Reading
`response.results[0]` when the response has no result is undefined. -/
def multiRead (client : UA_Client) (nodeId : List UA_NodeId) :
    Run (Nat × List UA_Variant) :=
  let varsCount := nodeId.length
  let out := List.replicate varsCount UA_Variant.empty
  let response := client.Service_read nodeId
  let retval := response.serviceResult
  let first : Outcome Nat :=
    if retval = UA_STATUSCODE_GOOD then
      if response.results.length = varsCount then
        match response.results with
        | r :: _ => .ok r.status
        | [] => .undefined
      else .ok UA_STATUSCODE_BADUNEXPECTEDERROR
    else .ok retval
  { calls := [StackCall.Service_read nodeId]
    outcome := first.bind fun retval =>
      if retval ≠ UA_STATUSCODE_GOOD then .ok (retval, out)
      else
        let results := response.results
        if results.length ≠ varsCount then .ok (UA_STATUSCODE_BADUNEXPECTEDERROR, out)
        else if results.any
            (fun r => (r.hasStatus && r.status != UA_STATUSCODE_GOOD) || !r.hasValue) then
          .ok (UA_STATUSCODE_BADUNEXPECTEDERROR, out)
        else .ok (retval, results.map (fun r => r.value)) }

/-- The loop of `multiWrite` over the results: the first result that is not
good, `retval` when there is none. -/
def multiWrite.scan (retval : Nat) : List Nat → Nat
  | [] => retval
  | r :: rest => if r ≠ UA_STATUSCODE_GOOD then r else multiWrite.scan retval rest

/-- Function `multiWrite` on the `varsSize` pairs of a node and a value: the
request sent and the status returned.  Reading `wResp.results[0]` when the
response has no result is undefined. -/
def multiWrite (client : UA_Client) (nodesAndValues : List (UA_NodeId × UA_Variant)) :
    Run Nat :=
  let varsSize := nodesAndValues.length
  let wResp := client.Service_write nodesAndValues
  let retval := wResp.serviceResult
  { calls := [StackCall.Service_write nodesAndValues]
    outcome :=
      if retval = UA_STATUSCODE_GOOD then
        if wResp.results.length = varsSize then
          match wResp.results with
          | r :: _ => .ok (multiWrite.scan r wResp.results)
          | [] => .undefined
        else .ok UA_STATUSCODE_BADUNEXPECTEDERROR
      else .ok retval }

/-- First loop of `rb_readUaValues` (lines 413-422): the node of every name;
a name that is not a String ends the call. -/
def rb_readUaValues.nodes (nsIndex : Int) : List RValue → Outcome (List UA_NodeId)
  | [] => .ok []
  | v_name :: rest =>
      if RB_TYPE_P v_name .T_STRING != true then raise_invalid_arguments_error
      else
        (StringValueCStr v_name).bind fun name =>
          (rb_readUaValues.nodes nsIndex rest).bind fun nodes =>
            .ok (UA_NODEID_STRING nsIndex name :: nodes)

/-- Body of the second loop of `rb_readUaValues` (lines 436-458): the Ruby
value of one Variant read.  The second case of each inner `match` cannot be
reached: the type test before it fixes the shape of the Variant. -/
def rb_readUaValues.decode (ext : External) (readValue : UA_Variant) : RValue :=
  if UA_Variant_hasScalarType readValue UA_TYPES_INT16 then
    match readValue with
    | .scalar (.int16 val) => INT2NUM val
    | _ => .nil
  else if UA_Variant_hasScalarType readValue UA_TYPES_UINT16 then
    match readValue with
    | .scalar (.uint16 val) => INT2NUM val
    | _ => .nil
  else if UA_Variant_hasScalarType readValue UA_TYPES_INT32 then
    match readValue with
    | .scalar (.int32 val) => INT2NUM val
    | _ => .nil
  else if UA_Variant_hasScalarType readValue UA_TYPES_UINT32 then
    match readValue with
    | .scalar (.uint32 val) => INT2NUM val
    | _ => .nil
  else if UA_Variant_hasScalarType readValue UA_TYPES_BOOLEAN then
    match readValue with
    | .scalar (.boolean val) => if val then .true else .false
    | _ => .nil
  else if UA_Variant_hasScalarType readValue UA_TYPES_FLOAT then
    match readValue with
    | .scalar (.float val) => DBL2NUM (ext.floatToDouble val)
    | _ => .nil
  else .nil

/-- Function `rb_readUaValues` (Ruby's `multi_read`). -/
def rb_readUaValues (ext : External) (client : UA_Client) (v_nsIndex v_aryNames : RValue) :
    Run RValue :=
  if RB_TYPE_P v_nsIndex .T_FIXNUM != true then ⟨[], raise_invalid_arguments_error⟩
  else
    match v_aryNames with
    | .ary names =>
      match FIX2INT ext v_nsIndex with
      | .ok nsIndex =>
        match rb_readUaValues.nodes nsIndex names with
        | .ok nodes =>
          let r := multiRead client nodes
          { calls := r.calls
            outcome := r.outcome.bind fun (status, readValues) =>
              if status = UA_STATUSCODE_GOOD then
                .ok (.ary (readValues.map (rb_readUaValues.decode ext)))
              else raise_ua_status_error ext status }
        | .raise e => ⟨[], .raise e⟩
        | .undefined => ⟨[], .undefined⟩
      | .raise e => ⟨[], .raise e⟩
      | .undefined => ⟨[], .undefined⟩
    | _ => ⟨[], .raise .typeError⟩

/-- The chain on `uaType` in the loop of `rb_writeUaValues` (lines 521-591):
the Variant built for one new value. -/
def rb_writeUaValues.value (ext : External) (uaType : Nat) (v_newValue : RValue) :
    Outcome UA_Variant :=
  if uaType = UA_TYPES_BYTE then
    (Check_Type v_newValue .T_FIXNUM).bind fun _ =>
      (NUM2CHR ext v_newValue).bind fun newValue => .ok (.scalar (.byte newValue))
  else if uaType = UA_TYPES_SBYTE then
    (Check_Type v_newValue .T_FIXNUM).bind fun _ =>
      (NUM2INT ext v_newValue).bind fun newValue => .ok (.scalar (.sbyte (wrapSigned 8 newValue)))
  else if uaType = UA_TYPES_UINT16 then
    (Check_Type v_newValue .T_FIXNUM).bind fun _ =>
      (NUM2USHORT ext v_newValue).bind fun newValue => .ok (.scalar (.uint16 newValue))
  else if uaType = UA_TYPES_INT16 then
    (Check_Type v_newValue .T_FIXNUM).bind fun _ =>
      (NUM2SHORT ext v_newValue).bind fun newValue => .ok (.scalar (.int16 newValue))
  else if uaType = UA_TYPES_UINT32 then
    (Check_Type v_newValue .T_FIXNUM).bind fun _ =>
      (NUM2UINT ext v_newValue).bind fun newValue => .ok (.scalar (.uint32 newValue))
  else if uaType = UA_TYPES_INT32 then
    (Check_Type v_newValue .T_FIXNUM).bind fun _ =>
      (NUM2INT ext v_newValue).bind fun newValue => .ok (.scalar (.int32 newValue))
  else if uaType = UA_TYPES_INT64 then
    (Check_Type v_newValue .T_FIXNUM).bind fun _ =>
      (NUM2LL ext v_newValue).bind fun newValue => .ok (.scalar (.int64 newValue))
  else if uaType = UA_TYPES_UINT64 then
    (Check_Type v_newValue .T_FIXNUM).bind fun _ =>
      (NUM2ULL ext v_newValue).bind fun newValue => .ok (.scalar (.uint64 newValue))
  else if uaType = UA_TYPES_FLOAT then
    (Check_Type v_newValue .T_FLOAT).bind fun _ =>
      (NUM2DBL ext v_newValue).bind fun newValue =>
        .ok (.scalar (.float (ext.doubleToFloat newValue)))
  else if uaType = UA_TYPES_DOUBLE then
    (Check_Type v_newValue .T_FLOAT).bind fun _ =>
      (NUM2DBL ext v_newValue).bind fun newValue => .ok (.scalar (.double newValue))
  else if uaType = UA_TYPES_BOOLEAN then
    if RB_TYPE_P v_newValue .T_TRUE != true && RB_TYPE_P v_newValue .T_FALSE != true then
      raise_invalid_arguments_error
    else .ok (.scalar (.boolean (RTEST v_newValue)))
  else .raise (.cError "Unsupported type")

/-- The loop of `rb_writeUaValues` (lines 510-592) over the names and the new
values, which have the same length: the node and the Variant of every pair. -/
def rb_writeUaValues.items (ext : External) (nsIndex : Int) (uaType : Nat) :
    List RValue → List RValue → Outcome (List (UA_NodeId × UA_Variant))
  | v_name :: names, v_newValue :: newValues =>
      if RB_TYPE_P v_name .T_STRING != true then raise_invalid_arguments_error
      else
        (StringValueCStr v_name).bind fun name =>
          (rb_writeUaValues.value ext uaType v_newValue).bind fun value =>
            (rb_writeUaValues.items ext nsIndex uaType names newValues).bind fun rest =>
              .ok ((UA_NODEID_STRING nsIndex name, value) :: rest)
  | _, _ => .ok []

/-- Function `rb_writeUaValues` (Ruby's `multi_write_byte`, ...,
`multi_write_boolean`, one per `uaType`). -/
def rb_writeUaValues (ext : External) (client : UA_Client)
    (v_nsIndex v_aryNames v_aryNewValues : RValue) (uaType : Nat) : Run RValue :=
  if RB_TYPE_P v_nsIndex .T_FIXNUM != true then ⟨[], raise_invalid_arguments_error⟩
  else
    match v_aryNames, v_aryNewValues with
    | .ary names, .ary newValues =>
      if names.length ≠ newValues.length then ⟨[], raise_invalid_arguments_error⟩
      else
        match FIX2INT ext v_nsIndex with
        | .ok nsIndex =>
          match rb_writeUaValues.items ext nsIndex uaType names newValues with
          | .ok items =>
            let r := multiWrite client items
            { calls := r.calls
              outcome := r.outcome.bind fun status =>
                if status = UA_STATUSCODE_GOOD then .ok .nil
                else raise_ua_status_error ext status }
          | .raise e => ⟨[], .raise e⟩
          | .undefined => ⟨[], .undefined⟩
        | .raise e => ⟨[], .raise e⟩
        | .undefined => ⟨[], .undefined⟩
    | _, _ => ⟨[], .raise .typeError⟩

/-! ## Scalar write -/

/-- The chain on `uaType` of `rb_writeUaValue` (lines 642-705): the Variant
built for the new value. -/
def rb_writeUaValue.value (ext : External) (uaType : Nat) (v_newValue : RValue) :
    Outcome UA_Variant :=
  if uaType = UA_TYPES_BYTE then
    (NUM2CHR ext v_newValue).bind fun newValue => .ok (.scalar (.byte newValue))
  else if uaType = UA_TYPES_SBYTE then
    (NUM2INT ext v_newValue).bind fun newValue => .ok (.scalar (.sbyte (wrapSigned 8 newValue)))
  else if uaType = UA_TYPES_INT16 then
    (NUM2SHORT ext v_newValue).bind fun newValue => .ok (.scalar (.int16 newValue))
  else if uaType = UA_TYPES_UINT16 then
    (NUM2USHORT ext v_newValue).bind fun newValue => .ok (.scalar (.uint16 newValue))
  else if uaType = UA_TYPES_INT32 then
    (NUM2INT ext v_newValue).bind fun newValue => .ok (.scalar (.int32 newValue))
  else if uaType = UA_TYPES_UINT32 then
    (NUM2UINT ext v_newValue).bind fun newValue => .ok (.scalar (.uint32 newValue))
  else if uaType = UA_TYPES_INT64 then
    (NUM2LL ext v_newValue).bind fun newValue => .ok (.scalar (.int64 newValue))
  else if uaType = UA_TYPES_UINT64 then
    (NUM2ULL ext v_newValue).bind fun newValue => .ok (.scalar (.uint64 newValue))
  else if uaType = UA_TYPES_FLOAT then
    (NUM2DBL ext v_newValue).bind fun newValue =>
      .ok (.scalar (.float (ext.doubleToFloat newValue)))
  else if uaType = UA_TYPES_DOUBLE then
    (NUM2DBL ext v_newValue).bind fun newValue => .ok (.scalar (.double newValue))
  else if uaType = UA_TYPES_BOOLEAN then
    .ok (.scalar (.boolean (RTEST v_newValue)))
  else if uaType = UA_TYPES_STRING then
    (StringValueCStr v_newValue).bind fun str =>
      .ok (.scalar (.string (UA_STRING_ALLOC str)))
  else .raise (.cError "Unsupported type")

/-- Function `rb_writeUaValue` (Ruby's `write_byte`, ..., `write_string`, one
per `uaType`). -/
def rb_writeUaValue (ext : External) (client : UA_Client)
    (v_nsIndex v_name v_newValue : RValue) (uaType : Nat) : Run RValue :=
  if RB_TYPE_P v_name .T_STRING != true then ⟨[], raise_invalid_arguments_error⟩
  else if RB_TYPE_P v_nsIndex .T_FIXNUM != true then ⟨[], raise_invalid_arguments_error⟩
  else if uaType = UA_TYPES_INT16 ∧ RB_TYPE_P v_newValue .T_FIXNUM != true then
    ⟨[], raise_invalid_arguments_error⟩
  else
    match (StringValueCStr v_name).bind fun name =>
        (FIX2INT ext v_nsIndex).bind fun nsIndex =>
          (rb_writeUaValue.value ext uaType v_newValue).bind fun value =>
            .ok (UA_NODEID_STRING nsIndex name, value) with
    | .ok (nodeId, value) =>
      { calls := [StackCall.writeValueAttribute nodeId value]
        outcome :=
          if client.writeValueAttribute nodeId value = UA_STATUSCODE_GOOD then .ok .nil
          else raise_ua_status_error ext (client.writeValueAttribute nodeId value) }
    | .raise e => ⟨[], .raise e⟩
    | .undefined => ⟨[], .undefined⟩

/-! ## Array write -/

/-- The `for` loop of one branch of `rb_writeUaArrayValue`: every element of the
Ruby array converted with `conv`, in order; the first conversion that raises
ends the call. -/
def rb_writeUaArrayValue.loop {α : Type} (conv : RValue → Outcome α) :
    List RValue → Outcome (List α)
  | [] => .ok []
  | elem :: rest =>
      (conv elem).bind fun x =>
        (rb_writeUaArrayValue.loop conv rest).bind fun xs => .ok (x :: xs)

/-- The chain on `uaType` of `rb_writeUaArrayValue` (lines 742-845): the Variant
set by `UA_Variant_setArrayCopy`.  For an empty Ruby array the source array is
the result of `UA_malloc(0)`, a non-null pointer with the C libraries Ruby runs
on, and `UA_Array_copy` then makes `data` the empty-array sentinel. -/
def rb_writeUaArrayValue.value (ext : External) (uaType : Nat) (elems : List RValue) :
    Outcome UA_Variant :=
  if uaType = UA_TYPES_BYTE then
    (rb_writeUaArrayValue.loop (NUM2CHR ext) elems).bind fun array =>
      .ok (.array (.byte array))
  else if uaType = UA_TYPES_SBYTE then
    (rb_writeUaArrayValue.loop
      (fun elem => (NUM2INT ext elem).bind fun n => .ok (wrapSigned 8 n)) elems).bind
      fun array => .ok (.array (.sbyte array))
  else if uaType = UA_TYPES_INT16 then
    (rb_writeUaArrayValue.loop (NUM2SHORT ext) elems).bind fun array =>
      .ok (.array (.int16 array))
  else if uaType = UA_TYPES_UINT16 then
    (rb_writeUaArrayValue.loop (NUM2USHORT ext) elems).bind fun array =>
      .ok (.array (.uint16 array))
  else if uaType = UA_TYPES_INT32 then
    (rb_writeUaArrayValue.loop (NUM2INT ext) elems).bind fun array =>
      .ok (.array (.int32 array))
  else if uaType = UA_TYPES_UINT32 then
    (rb_writeUaArrayValue.loop (NUM2UINT ext) elems).bind fun array =>
      .ok (.array (.uint32 array))
  else if uaType = UA_TYPES_INT64 then
    (rb_writeUaArrayValue.loop (NUM2LL ext) elems).bind fun array =>
      .ok (.array (.int64 array))
  else if uaType = UA_TYPES_UINT64 then
    (rb_writeUaArrayValue.loop (NUM2ULL ext) elems).bind fun array =>
      .ok (.array (.uint64 array))
  else if uaType = UA_TYPES_FLOAT then
    (rb_writeUaArrayValue.loop
      (fun elem => (NUM2DBL ext elem).bind fun d => .ok (ext.doubleToFloat d)) elems).bind
      fun array => .ok (.array (.float array))
  else if uaType = UA_TYPES_DOUBLE then
    (rb_writeUaArrayValue.loop (NUM2DBL ext) elems).bind fun array =>
      .ok (.array (.double array))
  else if uaType = UA_TYPES_BOOLEAN then
    (rb_writeUaArrayValue.loop (fun elem => .ok (RTEST elem)) elems).bind fun array =>
      .ok (.array (.boolean array))
  else if uaType = UA_TYPES_STRING then
    (rb_writeUaArrayValue.loop
      (fun elem => (StringValueCStr elem).bind fun str => .ok (UA_STRING_ALLOC str))
      elems).bind fun array => .ok (.array (.string array))
  else .raise (.cError "Unsupported type")

/-- Function `rb_writeUaArrayValue` (Ruby's `write_byte_array`, ...,
`write_string_array`, one per `uaType`).  The namespace index is stored in a
`UA_Int16`. -/
def rb_writeUaArrayValue (ext : External) (client : UA_Client)
    (v_nsIndex v_name v_newArray : RValue) (uaType : Nat) : Run RValue :=
  match (NUM2INT ext v_nsIndex).bind fun n =>
      (StringValueCStr v_name).bind fun name =>
        (Check_Type v_newArray .T_ARRAY).bind fun _ =>
          match v_newArray with
          | .ary elems =>
              (rb_writeUaArrayValue.value ext uaType elems).bind fun value =>
                .ok (UA_NODEID_STRING (wrapSigned 16 n) name, value)
          | _ => .raise .typeError with
  | .ok (nodeId, value) =>
    { calls := [StackCall.writeValueAttribute nodeId value]
      outcome :=
        if client.writeValueAttribute nodeId value ≠ UA_STATUSCODE_GOOD then
          raise_ua_status_error ext (client.writeValueAttribute nodeId value)
        else .ok .nil }
  | .raise e => ⟨[], .raise e⟩
  | .undefined => ⟨[], .undefined⟩

/-! ## Scalar and array read -/

/-- The chain on `type` of `rb_readUaValue` (lines 1027-1070): the Ruby value of
the Variant read.  The second case of each inner `match` cannot be reached: the
type test before it fixes the shape of the Variant. -/
def rb_readUaValue.decode (ext : External) (type : Nat) (value : UA_Variant) :
    Outcome RValue :=
  if type = UA_TYPES_BYTE ∧ UA_Variant_hasScalarType value UA_TYPES_BYTE then
    match value with
    | .scalar (.byte val) => .ok (INT2NUM val)
    | _ => .undefined
  else if type = UA_TYPES_SBYTE ∧ UA_Variant_hasScalarType value UA_TYPES_SBYTE then
    match value with
    | .scalar (.sbyte val) => .ok (INT2NUM val)
    | _ => .undefined
  else if type = UA_TYPES_INT16 ∧ UA_Variant_hasScalarType value UA_TYPES_INT16 then
    match value with
    | .scalar (.int16 val) => .ok (INT2NUM val)
    | _ => .undefined
  else if type = UA_TYPES_UINT16 ∧ UA_Variant_hasScalarType value UA_TYPES_UINT16 then
    match value with
    | .scalar (.uint16 val) => .ok (INT2NUM val)
    | _ => .undefined
  else if type = UA_TYPES_INT32 ∧ UA_Variant_hasScalarType value UA_TYPES_INT32 then
    match value with
    | .scalar (.int32 val) => .ok (INT2NUM val)
    | _ => .undefined
  else if type = UA_TYPES_UINT32 ∧ UA_Variant_hasScalarType value UA_TYPES_UINT32 then
    match value with
    | .scalar (.uint32 val) => .ok (INT2NUM val)
    | _ => .undefined
  else if type = UA_TYPES_INT64 ∧ UA_Variant_hasScalarType value UA_TYPES_INT64 then
    match value with
    | .scalar (.int64 val) => .ok (INT2NUM val)
    | _ => .undefined
  else if type = UA_TYPES_UINT64 ∧ UA_Variant_hasScalarType value UA_TYPES_UINT64 then
    match value with
    | .scalar (.uint64 val) => .ok (INT2NUM val)
    | _ => .undefined
  else if type = UA_TYPES_BOOLEAN ∧ UA_Variant_hasScalarType value UA_TYPES_BOOLEAN then
    match value with
    | .scalar (.boolean val) => .ok (if val then .true else .false)
    | _ => .undefined
  else if type = UA_TYPES_FLOAT ∧ UA_Variant_hasScalarType value UA_TYPES_FLOAT then
    match value with
    | .scalar (.float val) => .ok (DBL2NUM (ext.floatToDouble val))
    | _ => .undefined
  else if type = UA_TYPES_DOUBLE ∧ UA_Variant_hasScalarType value UA_TYPES_DOUBLE then
    match value with
    | .scalar (.double val) => .ok (DBL2NUM val)
    | _ => .undefined
  else if type = UA_TYPES_STRING ∧ UA_Variant_hasScalarType value UA_TYPES_STRING then
    match value with
    | .scalar (.string val) => .ok (.str val)
    | _ => .undefined
  else .raise (.cError "UA type mismatch")

/-- Function `rb_readUaValue` (Ruby's `read_byte`, ..., `read_string`, one per
`type`). -/
def rb_readUaValue (ext : External) (client : UA_Client) (v_nsIndex v_name : RValue)
    (type : Nat) : Run RValue :=
  if RB_TYPE_P v_name .T_STRING != true then ⟨[], raise_invalid_arguments_error⟩
  else if RB_TYPE_P v_nsIndex .T_FIXNUM != true then ⟨[], raise_invalid_arguments_error⟩
  else
    match (StringValueCStr v_name).bind fun name =>
        (FIX2INT ext v_nsIndex).bind fun nsIndex => .ok (UA_NODEID_STRING nsIndex name) with
    | .ok nodeId =>
      let (status, value) := client.readValueAttribute nodeId
      { calls := [StackCall.readValueAttribute nodeId]
        outcome :=
          if status = UA_STATUSCODE_GOOD then rb_readUaValue.decode ext type value
          else raise_ua_status_error ext status }
    | .raise e => ⟨[], .raise e⟩
    | .undefined => ⟨[], .undefined⟩

/-- The chain on `type` of `rb_readUaArrayValue` (lines 1099-1177): the Ruby
array of the Variant read, when it is not a scalar.  The last case of each
inner `match` cannot be reached: the type test before it fixes the element
type, and a Variant with no element gives an empty array. -/
def rb_readUaArrayValue.decode (ext : External) (type : Nat) (value : UA_Variant) :
    Outcome RValue :=
  if !UA_Variant_isScalar value then
    if type = UA_TYPES_BYTE ∧ value.type = some UA_TYPES_BYTE then
      match value with
      | .array (.byte array) => .ok (.ary (array.map fun x => INT2NUM (Int.ofNat x)))
      | .nullArray _ => .ok (.ary [])
      | _ => .undefined
    else if type = UA_TYPES_SBYTE ∧ value.type = some UA_TYPES_SBYTE then
      match value with
      | .array (.sbyte array) => .ok (.ary (array.map fun x => INT2NUM x))
      | .nullArray _ => .ok (.ary [])
      | _ => .undefined
    else if type = UA_TYPES_INT16 ∧ value.type = some UA_TYPES_INT16 then
      match value with
      | .array (.int16 array) => .ok (.ary (array.map fun x => INT2NUM x))
      | .nullArray _ => .ok (.ary [])
      | _ => .undefined
    else if type = UA_TYPES_UINT16 ∧ value.type = some UA_TYPES_UINT16 then
      match value with
      | .array (.uint16 array) => .ok (.ary (array.map fun x => INT2NUM (Int.ofNat x)))
      | .nullArray _ => .ok (.ary [])
      | _ => .undefined
    else if type = UA_TYPES_INT32 ∧ value.type = some UA_TYPES_INT32 then
      match value with
      | .array (.int32 array) => .ok (.ary (array.map fun x => INT2NUM x))
      | .nullArray _ => .ok (.ary [])
      | _ => .undefined
    else if type = UA_TYPES_UINT32 ∧ value.type = some UA_TYPES_UINT32 then
      match value with
      | .array (.uint32 array) => .ok (.ary (array.map fun x => INT2NUM (Int.ofNat x)))
      | .nullArray _ => .ok (.ary [])
      | _ => .undefined
    else if type = UA_TYPES_INT64 ∧ value.type = some UA_TYPES_INT64 then
      match value with
      | .array (.int64 array) => .ok (.ary (array.map fun x => INT2NUM x))
      | .nullArray _ => .ok (.ary [])
      | _ => .undefined
    else if type = UA_TYPES_UINT64 ∧ value.type = some UA_TYPES_UINT64 then
      match value with
      | .array (.uint64 array) => .ok (.ary (array.map fun x => INT2NUM (Int.ofNat x)))
      | .nullArray _ => .ok (.ary [])
      | _ => .undefined
    else if type = UA_TYPES_BOOLEAN ∧ value.type = some UA_TYPES_BOOLEAN then
      match value with
      | .array (.boolean array) =>
          .ok (.ary (array.map fun x => if x then RValue.true else RValue.false))
      | .nullArray _ => .ok (.ary [])
      | _ => .undefined
    else if type = UA_TYPES_FLOAT ∧ value.type = some UA_TYPES_FLOAT then
      match value with
      | .array (.float array) => .ok (.ary (array.map fun x => DBL2NUM (ext.floatToDouble x)))
      | .nullArray _ => .ok (.ary [])
      | _ => .undefined
    else if type = UA_TYPES_DOUBLE ∧ value.type = some UA_TYPES_DOUBLE then
      match value with
      | .array (.double array) => .ok (.ary (array.map fun x => DBL2NUM x))
      | .nullArray _ => .ok (.ary [])
      | _ => .undefined
    else if type = UA_TYPES_STRING ∧ value.type = some UA_TYPES_STRING then
      match value with
      | .array (.string array) => .ok (.ary (array.map fun x => RValue.str x))
      | .nullArray _ => .ok (.ary [])
      | _ => .undefined
    else .raise (.cError "UA type mismatch")
  else .raise (.cError "Expected array but got scalar value")

/-- Function `rb_readUaArrayValue` (Ruby's `read_byte_array`, ...,
`read_string_array`, one per `type`).  The namespace index is stored in a
`UA_Int16`. -/
def rb_readUaArrayValue (ext : External) (client : UA_Client) (v_nsIndex v_name : RValue)
    (type : Nat) : Run RValue :=
  match (NUM2INT ext v_nsIndex).bind fun n =>
      (StringValueCStr v_name).bind fun name =>
        .ok (UA_NODEID_STRING (wrapSigned 16 n) name) with
  | .ok nodeId =>
    let (retval, value) := client.readValueAttribute nodeId
    { calls := [StackCall.readValueAttribute nodeId]
      outcome :=
        if retval ≠ UA_STATUSCODE_GOOD then .raise (.cError "Could not read node")
        else rb_readUaArrayValue.decode ext type value }
  | .raise e => ⟨[], .raise e⟩
  | .undefined => ⟨[], .undefined⟩

/-! ## Connecting -/

/-- Function `rb_connect` (Ruby's `connect`); `UA_Client_connect` is the answer
of the stack to a connection request for an endpoint URL. -/
def rb_connect (ext : External) (UA_Client_connect : List Nat → Nat)
    (v_connectionString : RValue) : Run RValue :=
  if RB_TYPE_P v_connectionString .T_STRING != true then ⟨[], raise_invalid_arguments_error⟩
  else
    match StringValueCStr v_connectionString with
    | .ok connectionString =>
      { calls := [StackCall.connect connectionString]
        outcome :=
          if UA_Client_connect connectionString = UA_STATUSCODE_GOOD then .ok .nil
          else raise_ua_status_error ext (UA_Client_connect connectionString) }
    | .raise e => ⟨[], .raise e⟩
    | .undefined => ⟨[], .undefined⟩

/-! ## Monitored items -/

/-- Function `rb_addMonitoredItem` (Ruby's `add_monitored_item`);
`UA_Client_MonitoredItems_createDataChange` is the answer of the stack to the
request to monitor a node in a subscription: the status code and the id of
the monitored item. -/
def rb_addMonitoredItem (ext : External)
    (UA_Client_MonitoredItems_createDataChange : Nat → UA_NodeId → Nat × Nat)
    (v_subscriptionId v_monNsIndex v_monNsName : RValue) : Run RValue :=
  match (NUM2UINT ext v_subscriptionId).bind fun subscriptionId =>
      (NUM2USHORT ext v_monNsIndex).bind fun monNsIndex =>
        (StringValueCStr v_monNsName).bind fun monNsName =>
          .ok (subscriptionId, UA_NODEID_STRING monNsIndex monNsName) with
  | .ok (subscriptionId, nodeId) =>
    let (statusCode, monitoredItemId) :=
      UA_Client_MonitoredItems_createDataChange subscriptionId nodeId
    { calls := [StackCall.MonitoredItems_createDataChange subscriptionId nodeId]
      outcome :=
        if statusCode = UA_STATUSCODE_GOOD then .ok (INT2NUM monitoredItemId) else .ok .nil }
  | .raise e => ⟨[], .raise e⟩
  | .undefined => ⟨[], .undefined⟩

/-! ## Destruction of the handle -/

/-- What `UA_Client_free` releases: the callback context (`xfree(ctx)`), the
connection object (`UA_Client_delete(uclient->client)`) and the handle itself
(`xfree(self)`). -/
inductive Released where
  | context
  | connection
  | handle
deriving DecidableEq, Repr

/-- Function `UA_Client_free` on a handle whose `client` field is set
(`initialized`) or null: what it releases, in order. -/
def UA_Client_free (initialized : Bool) : List Released :=
  (if initialized then [Released.context, Released.connection] else []) ++ [Released.handle]

/-! ## Native memory of the batched operations -/

/-- A block of native memory that the batched operations allocate themselves:
`nodes` (`UA_calloc`, lines 410 and 507), `readValues` or `values`
(`UA_calloc`, lines 411 and 508), `values[i].data` (`UA_malloc` in the loop of
`rb_writeUaValues`), and the request array `rValues` of `multiRead` or
`wValues` of `multiWrite`. -/
inductive Block where
  | nodes
  | variants
  | payload (i : Nat)
  | request
deriving DecidableEq, Repr

/-- An allocation (`UA_calloc`, `UA_malloc`) or a release (`UA_free`,
`UA_Variant_clear`) of a block. -/
inductive MemEvent where
  | alloc (block : Block)
  | release (block : Block)
deriving DecidableEq, Repr

/-- The allocations and releases of `multiRead`: `rValues` is allocated on
entry and released before every `return`. -/
def multiRead.memory : List MemEvent := [.alloc .request, .release .request]

/-- The allocations and releases of `multiWrite`: `wValues` is allocated on
entry and released before the `return`. -/
def multiWrite.memory : List MemEvent := [.alloc .request, .release .request]

/-- The allocations and releases of `rb_readUaValues`, in order, up to the
point where the call returns or raises.  The Variants that `multiRead` moves
out of the response are the stack's allocations and are not listed. -/
def rb_readUaValues.memory (ext : External) (v_nsIndex v_aryNames : RValue) :
    List MemEvent :=
  if RB_TYPE_P v_nsIndex .T_FIXNUM != true then []
  else
    match v_aryNames with
    | .ary names =>
      match FIX2INT ext v_nsIndex with
      | .ok nsIndex =>
        [.alloc .nodes, .alloc .variants] ++
          match rb_readUaValues.nodes nsIndex names with
          | .ok _ => multiRead.memory ++ [.release .nodes, .release .variants]
          | _ => []
      | _ => []
    | _ => []

/-- The payloads allocated by the loop of `rb_writeUaValues` (lines 510-592),
from index `i` on, and whether the loop ran to its end: `values[i].data` is
allocated once the name and the new value of the pair have been accepted. -/
def rb_writeUaValues.payloads (ext : External) (uaType : Nat) (i : Nat) :
    List RValue → List RValue → List MemEvent × Bool
  | v_name :: names, v_newValue :: newValues =>
      if RB_TYPE_P v_name .T_STRING != true then ([], false)
      else
        match StringValueCStr v_name with
        | .ok _ =>
          match rb_writeUaValues.value ext uaType v_newValue with
          | .ok _ =>
            let (events, completed) :=
              rb_writeUaValues.payloads ext uaType (i + 1) names newValues
            (.alloc (.payload i) :: events, completed)
          | _ => ([], false)
        | _ => ([], false)
  | _, _ => ([], true)

/-- The allocations and releases of `rb_writeUaValues`, in order, up to the
point where the call returns or raises.  After `multiWrite` both branches
clear every `values[i]` and release `nodes` and `values`. -/
def rb_writeUaValues.memory (ext : External) (v_nsIndex v_aryNames v_aryNewValues : RValue)
    (uaType : Nat) : List MemEvent :=
  if RB_TYPE_P v_nsIndex .T_FIXNUM != true then []
  else
    match v_aryNames, v_aryNewValues with
    | .ary names, .ary newValues =>
      if names.length ≠ newValues.length then []
      else
        match FIX2INT ext v_nsIndex with
        | .ok _ =>
          let (events, completed) := rb_writeUaValues.payloads ext uaType 0 names newValues
          [.alloc .nodes, .alloc .variants] ++ events ++
            if completed then
              multiWrite.memory ++
                (List.range names.length).map (fun i => MemEvent.release (.payload i)) ++
                [.release .nodes, .release .variants]
            else []
        | _ => []
    | _, _ => []

/-- The blocks allocated and not released by a sequence of events. -/
def leaked : List MemEvent → List Block
  | [] => []
  | .alloc b :: rest =>
      if MemEvent.release b ∈ rest then leaked rest else b :: leaked rest
  | .release _ :: rest => leaked rest

/-! ## Delivery of data-change notifications -/

/-- One data-change notification of the stack: the arguments of
`handler_dataChanged`, with the Ruby client object as it is when the
notification is delivered. -/
structure DataChange where
  self : RubyClient
  subId : Nat
  monId : Nat
  value : UA_DataValue
deriving DecidableEq, Repr

/-- The stack delivers data-change notifications one after the other.
`handler_dataChanged` writes to no variable that outlives the call, so the
procs called are those of each call, in order. -/
def deliverDataChanges (ext : External) : List DataChange → List ProcCall
  | [] => []
  | n :: rest =>
      handler_dataChanged ext n.self n.subId n.monId n.value ++ deliverDataChanges ext rest

/-! ## The kinds of the host-facing operations -/

/-- The twelve kinds with a typed read and write (`read_byte`, ...,
`read_string`), as indices in `UA_TYPES`. -/
def readableKinds : List Nat :=
  [UA_TYPES_BYTE, UA_TYPES_SBYTE, UA_TYPES_INT16, UA_TYPES_UINT16, UA_TYPES_INT32,
   UA_TYPES_UINT32, UA_TYPES_INT64, UA_TYPES_UINT64, UA_TYPES_FLOAT, UA_TYPES_DOUBLE,
   UA_TYPES_BOOLEAN, UA_TYPES_STRING]

/-- The eight integer kinds. -/
def integerKinds : List Nat :=
  [UA_TYPES_BYTE, UA_TYPES_SBYTE, UA_TYPES_INT16, UA_TYPES_UINT16, UA_TYPES_INT32,
   UA_TYPES_UINT32, UA_TYPES_INT64, UA_TYPES_UINT64]

/-- Least value of an integer kind (0 for a kind that is not one). -/
def kindMin (K : Nat) : Int :=
  if K = UA_TYPES_SBYTE then -(2 ^ 7)
  else if K = UA_TYPES_INT16 then -(2 ^ 15)
  else if K = UA_TYPES_INT32 then -(2 ^ 31)
  else if K = UA_TYPES_INT64 then -(2 ^ 63)
  else 0

/-- Greatest value of an integer kind (0 for a kind that is not one). -/
def kindMax (K : Nat) : Int :=
  if K = UA_TYPES_BYTE then 2 ^ 8 - 1
  else if K = UA_TYPES_SBYTE then 2 ^ 7 - 1
  else if K = UA_TYPES_INT16 then 2 ^ 15 - 1
  else if K = UA_TYPES_UINT16 then 2 ^ 16 - 1
  else if K = UA_TYPES_INT32 then 2 ^ 31 - 1
  else if K = UA_TYPES_UINT32 then 2 ^ 32 - 1
  else if K = UA_TYPES_INT64 then 2 ^ 63 - 1
  else if K = UA_TYPES_UINT64 then 2 ^ 64 - 1
  else 0

/-! ## The reference server (`tools/server/server.c`) -/

/-- Bytes of a C string literal (ASCII). -/
def cstr (s : String) : List Nat := s.toList.map Char.toNat

/-- A variable node of the reference server: its NodeId and its value. -/
structure ServerVariable where
  nodeId : UA_NodeId
  value : UA_Variant
deriving DecidableEq, Repr

/-- The four bytes of a `UA_Int32` in memory, least significant first (the
platforms are little-endian). -/
def int32Bytes (v : Int) : List Nat :=
  [wrapUnsigned 32 v % 256, wrapUnsigned 32 v / 256 % 256, wrapUnsigned 32 v / 65536 % 256,
   wrapUnsigned 32 v / 16777216]

/-- The unsigned integer with the given bytes, least significant first. -/
def littleEndian : List Nat → Nat
  | [] => 0
  | b :: rest => b + 256 * littleEndian rest

/-- Function `addVariableUnder` (lines 21-73), called by `addVariable` with the
objects folder as parent: the node added, if any.  `defaultValue` is the object
that the pointer `defaultValue` points to, as its bytes; each branch reads it
through a pointer of the type asked for, so it reads the first bytes of the
object as a value of that type (a floating-point number is identified by its
bit pattern), and reading more bytes than the object has is undefined.  The
String branch reads a C string there, which ends at the first zero byte.  A
type without a branch adds nothing. -/
def addVariableUnder (nsId : Int) (type : Nat) (nodeIdString : List Nat)
    (defaultValue : List Nat) : Outcome (Option ServerVariable) :=
  let read (size : Nat) (scalar : Nat → UA_Scalar) : Outcome (Option ServerVariable) :=
    if size ≤ defaultValue.length then
      .ok (some ⟨UA_NODEID_STRING nsId nodeIdString,
        .scalar (scalar (littleEndian (defaultValue.take size)))⟩)
    else .undefined
  if type = UA_TYPES_BYTE then read 1 (fun u => .byte u)
  else if type = UA_TYPES_INT32 then read 4 (fun u => .int32 (wrapSigned 32 u))
  else if type = UA_TYPES_INT16 then read 2 (fun u => .int16 (wrapSigned 16 u))
  else if type = UA_TYPES_UINT16 then read 2 (fun u => .uint16 u)
  else if type = UA_TYPES_UINT32 then read 4 (fun u => .uint32 u)
  else if type = UA_TYPES_FLOAT then read 4 (fun u => .float ⟨u⟩)
  else if type = UA_TYPES_DOUBLE then read 8 (fun u => .double ⟨u⟩)
  else if type = UA_TYPES_BOOLEAN then read 1 (fun u => .boolean (u != 0))
  else if type = UA_TYPES_STRING then
    if 0 ∈ defaultValue then
      .ok (some ⟨UA_NODEID_STRING nsId nodeIdString,
        .scalar (.string (UA_STRING_ALLOC defaultValue))⟩)
    else .undefined
  else .ok none

/-- Function `addVariableV2` (lines 80-99), through `addVariable`: the node id
string is a copy of the variable name, and the default value handed to
`addVariableUnder` is the address of the `UA_Int32` parameter, an object of
four bytes. -/
def addVariableV2 (nsId : Int) (type : Nat) (varName : String) (defaultValue : Int) :
    Outcome (Option ServerVariable) :=
  addVariableUnder nsId type (cstr varName) (int32Bytes defaultValue)

/-- Function `addVariables`, lines 241-248: the variables of namespace 5 added
with `addVariableV2`. -/
def addVariables : List (Outcome (Option ServerVariable)) :=
  [addVariableV2 5 UA_TYPES_UINT32 "uint32a" 0,
   addVariableV2 5 UA_TYPES_UINT32 "uint32b" 1000,
   addVariableV2 5 UA_TYPES_UINT32 "uint32c" 2000,
   addVariableV2 5 UA_TYPES_UINT16 "uint16a" 0,
   addVariableV2 5 UA_TYPES_UINT16 "uint16b" 100,
   addVariableV2 5 UA_TYPES_UINT16 "uint16c" 200,
   addVariableV2 5 UA_TYPES_BOOLEAN "true_var" 1,
   addVariableV2 5 UA_TYPES_BOOLEAN "false_var" 0]

/-! ## Concrete runs -/

/-- One instance of the external functions, used to run the embedding on
concrete inputs.  The three status names are those of open62541; the other
functions are never reached by the runs shown (no Float, no timestamp). -/
def sampleExternal : External where
  integerToDouble := fun _ => ⟨0⟩
  doubleTruncate := fun _ => none
  doubleToFloat := fun _ => ⟨0⟩
  floatToDouble := fun _ => ⟨0⟩
  Time_to_f := fun _ _ _ _ _ _ _ => ⟨0⟩
  UA_DateTime_toStruct := fun _ => ⟨0, 0, 0, 0, 0, 0, 1, 1, 1970⟩
  UA_StatusCode_name := fun status =>
    if status = 0 then "Good"
    else if status = 0x80010000 then "BadUnexpectedError"
    else if status = 0x80340000 then "BadNodeIdUnknown"
    else "Unknown StatusCode"

/-- A stack that gives the same answer to every request of each kind. -/
def constantClient (read : Nat × UA_Variant) (write : Nat) (readResponse : UA_ReadResponse)
    (writeResponse : UA_WriteResponse) : UA_Client where
  readValueAttribute := fun _ => read
  writeValueAttribute := fun _ _ => write
  Service_read := fun _ => readResponse
  Service_write := fun _ => writeResponse

/-- A stack whose single reads return the Variant `value` with a good status
and whose writes succeed. -/
def goodClient (value : UA_Variant) : UA_Client :=
  constantClient (UA_STATUSCODE_GOOD, value) UA_STATUSCODE_GOOD
    ⟨UA_STATUSCODE_GOOD, []⟩ ⟨UA_STATUSCODE_GOOD, []⟩

/-- A `UA_DataValue` holding `value` with the status `status`, without
timestamps. -/
def dataValue (value : UA_Variant) (status : Nat) : UA_DataValue where
  value := value
  sourceTimestamp := 0
  serverTimestamp := 0
  status := status
  hasValue := true
  hasStatus := true
  hasSourceTimestamp := false
  hasServerTimestamp := false

/-- The external functions of `sampleExternal`, except that the integer part of
the `double` 5.0 (bit pattern 0x4014000000000000) is known to be 5. -/
def fiveExternal : External :=
  { sampleExternal with
    doubleTruncate := fun d => if d.bits = 0x4014000000000000 then some 5 else none }

/-- The external functions of `sampleExternal`, except that the calendar
decomposition of the timestamp 5000000 is known.  A `UA_DateTime` counts
intervals of 100 ns from 1601-01-01 00:00:00 UTC, so 5000000 is half a second
after that instant: 1601-01-01 00:00:00 and 500 ms. -/
def halfSecondExternal : External :=
  { sampleExternal with
    UA_DateTime_toStruct := fun t =>
      if t = 5000000 then ⟨0, 0, 500, 0, 0, 0, 1, 1, 1601⟩
      else ⟨0, 0, 0, 0, 0, 0, 1, 1, 1970⟩ }

/-! ## Notions of the specification -/

/-- The "first discovered error status" of a batched read response, in the
words of the specification: the service result when that is not good,
otherwise the status of the first item, in request order, whose status is not
good; `none` when there is no error status. -/
def firstDiscoveredErrorStatus (response : UA_ReadResponse) : Option Nat :=
  if response.serviceResult ≠ UA_STATUSCODE_GOOD then some response.serviceResult
  else (response.results.find? (fun r => r.status != UA_STATUSCODE_GOOD)).map (fun r => r.status)

/-- Least host integer accepted by the Ruby conversion that the write paths use
for the integer kind `K`: `NUM2CHR` (Byte) and `NUM2INT` (SByte, Int32) accept
the range of a C `int`, `NUM2SHORT` that of a `short`, `NUM2LL` that of a
`long long`, and the unsigned conversions `NUM2USHORT`, `NUM2UINT` and `NUM2ULL`
accept negative integers down to the minimum of the signed type of the same
width. -/
def conversionMin (K : Nat) : Int :=
  if K = UA_TYPES_BYTE ∨ K = UA_TYPES_SBYTE ∨ K = UA_TYPES_INT32 ∨ K = UA_TYPES_UINT32 then
    -(2 ^ 31)
  else if K = UA_TYPES_INT16 ∨ K = UA_TYPES_UINT16 then -(2 ^ 15)
  else if K = UA_TYPES_INT64 ∨ K = UA_TYPES_UINT64 then -(2 ^ 63)
  else 0

/-- Greatest host integer accepted by the Ruby conversion that the write paths
use for the integer kind `K`: the maximum of `K`, except for Byte and SByte,
converted through a C `int`. -/
def conversionMax (K : Nat) : Int :=
  if K = UA_TYPES_BYTE ∨ K = UA_TYPES_SBYTE then 2 ^ 31 - 1 else kindMax K

/-- The host time of a calendar decomposition in the words of the
specification: the UTC instant `year-month-day hour:min:sec` plus `milliSec`
milliseconds, that is `1000 * milliSec` microseconds. -/
def instantOfDecomposition (dts : UA_DateTimeStruct) : RValue :=
  .time dts.year.toNat dts.month dts.day dts.hour dts.min dts.sec (1000 * dts.milliSec)

/-! ## Properties -/

/-! ### Auxiliary facts about the conversions -/

theorem hasScalarType_scalar (s : UA_Scalar) (t : Nat) :
    UA_Variant_hasScalarType (.scalar s) t = (s.typeIndex == t) := by
  simp [UA_Variant_hasScalarType, UA_Variant_isScalar, UA_Variant.type]

theorem rb_num2long_int (ext : External) (n : Int) (h : -(2 ^ 63) ≤ n ∧ n ≤ 2 ^ 63 - 1) :
    rb_num2long ext (.int n) = .ok n := by
  show (if _ then _ else _) = _
  rw [if_pos h]

theorem NUM2INT_int (ext : External) (n : Int) (h : -(2 ^ 31) ≤ n ∧ n ≤ 2 ^ 31 - 1) :
    NUM2INT ext (.int n) = .ok n := by
  unfold NUM2INT
  rw [rb_num2long_int ext n (by constructor <;> omega)]
  show (if _ then _ else _) = _
  rw [if_pos h]

theorem rb_type_fixnum (n : Int) (h : -(2 ^ 62) ≤ n ∧ n ≤ 2 ^ 62 - 1) :
    rb_type (.int n) = .T_FIXNUM := by
  exact if_pos h

theorem StringValueCStr_str (name : List Nat) (h : 0 ∉ name) :
    StringValueCStr (.str name) = .ok name := by
  show (if _ then _ else _) = _
  rw [if_neg h]

theorem rb_readUaValue_run (ext : External) (client : UA_Client) (n : Int) (name : List Nat)
    (type : Nat) (hn : -(2 ^ 31) ≤ n ∧ n ≤ 2 ^ 31 - 1) (hname : 0 ∉ name) :
    rb_readUaValue ext client (.int n) (.str name) type =
      { calls := [StackCall.readValueAttribute (UA_NODEID_STRING n name)]
        outcome :=
          if (client.readValueAttribute (UA_NODEID_STRING n name)).1 = UA_STATUSCODE_GOOD then
            rb_readUaValue.decode ext type (client.readValueAttribute (UA_NODEID_STRING n name)).2
          else raise_ua_status_error ext (client.readValueAttribute (UA_NODEID_STRING n name)).1 } := by
  have hfix : rb_type (.int n) = .T_FIXNUM := rb_type_fixnum n (by constructor <;> omega)
  unfold rb_readUaValue
  simp only [RB_TYPE_P, hfix, StringValueCStr_str name hname, FIX2INT,
    NUM2INT_int ext n hn, Outcome.bind]
  rfl

theorem decode_scalar_mismatch (ext : External) (K : Nat) (s : UA_Scalar)
    (hne : s.typeIndex ≠ K) :
    rb_readUaValue.decode ext K (.scalar s) = .raise (.cError "UA type mismatch") := by
  unfold rb_readUaValue.decode
  have hc : ∀ c : Nat, ¬ (K = c ∧ s.typeIndex = c) := fun c h => hne (h.2.trans h.1.symm)
  simp only [hasScalarType_scalar, beq_iff_eq, hc, if_false]


/-- C1 (evaluation of the code at the failing input): with an observer
registered, the six notifications `[Created, ActivateRequested, Activated,
Activated, Closing, Activated]` contain two transitions into Activated, yet
`stateCallback` calls the observer three times. -/
theorem C1_activation_scenario_fires_three_times :
    activationTransitions UA_SessionState.CLOSED activationScenario = 2 ∧
    (deliverStates { callback_after_session_created := some 7,
                     callback_after_data_changed := none } activationScenario).length = 3 := by
  constructor <;> decide



/-! ### C2: a typed read rejects a Variant of another kind -/

/-- C2: for every two distinct kinds `K` and `K'` (in particular among the
twelve readable kinds) and every scalar Variant `s` tagged `K'`, the typed
scalar read for `K`, called with a valid namespace index and name on a node
whose read returns `s` with a good status, ends with the error "UA type
mismatch" and returns no value. -/
theorem C2_typed_read_rejects_other_kind (ext : External) (client : UA_Client)
    (n : Int) (name : List Nat) (K K' : Nat) (s : UA_Scalar)
    (hn : -(2 ^ 31) ≤ n ∧ n ≤ 2 ^ 31 - 1) (hname : 0 ∉ name)
    (hs : s.typeIndex = K') (hne : K ≠ K')
    (hread : client.readValueAttribute (UA_NODEID_STRING n name)
      = (UA_STATUSCODE_GOOD, UA_Variant.scalar s)) :
    (rb_readUaValue ext client (.int n) (.str name) K).outcome
      = .raise (.cError "UA type mismatch") := by
  subst hs
  rw [rb_readUaValue_run ext client n name K hn hname, hread]
  simp only [if_true]
  exact decode_scalar_mismatch ext K s (fun h => hne h.symm)

/-- C2, a concrete run: reading an Int32 Variant with the Boolean accessor
(`read_boolean`) fails with "UA type mismatch". -/
theorem C2_typed_read_rejects_other_kind_witness :
    UA_TYPES_BOOLEAN ∈ readableKinds ∧ UA_TYPES_INT32 ∈ readableKinds ∧
    (rb_readUaValue sampleExternal (goodClient (.scalar (.int32 7))) (.int 5)
        (.str (cstr "int32a")) UA_TYPES_BOOLEAN).outcome
      = .raise (.cError "UA type mismatch") :=
  ⟨by decide, by decide,
    C2_typed_read_rejects_other_kind sampleExternal (goodClient (.scalar (.int32 7))) 5
      (cstr "int32a") UA_TYPES_BOOLEAN UA_TYPES_INT32 (.int32 7) (by norm_num) (by decide) rfl
      (by decide) rfl⟩

/-! ### Auxiliary facts about the batched read -/

theorem multiRead_calls (client : UA_Client) (nodes : List UA_NodeId) :
    (multiRead client nodes).calls = [StackCall.Service_read nodes] := rfl

/-- The outcome of `multiRead`, by cases on the response. -/
theorem multiRead_outcome (client : UA_Client) (nodes : List UA_NodeId) :
    (multiRead client nodes).outcome =
      if (client.Service_read nodes).serviceResult ≠ UA_STATUSCODE_GOOD then
        .ok ((client.Service_read nodes).serviceResult,
          List.replicate nodes.length UA_Variant.empty)
      else if (client.Service_read nodes).results.length ≠ nodes.length then
        .ok (UA_STATUSCODE_BADUNEXPECTEDERROR, List.replicate nodes.length UA_Variant.empty)
      else
        match (client.Service_read nodes).results with
        | [] => .undefined
        | r :: rest =>
          if r.status ≠ UA_STATUSCODE_GOOD then
            .ok (r.status, List.replicate nodes.length UA_Variant.empty)
          else if (r :: rest).any
              (fun r => (r.hasStatus && r.status != UA_STATUSCODE_GOOD) || !r.hasValue) then
            .ok (UA_STATUSCODE_BADUNEXPECTEDERROR,
              List.replicate nodes.length UA_Variant.empty)
          else .ok (UA_STATUSCODE_GOOD, (r :: rest).map (fun r => r.value)) := by
  unfold multiRead
  simp only []
  by_cases hs : (client.Service_read nodes).serviceResult = UA_STATUSCODE_GOOD
  · by_cases hl : (client.Service_read nodes).results.length = nodes.length
    · simp only [hs, hl, if_true, ne_eq, not_true_eq_false, if_false]
      cases hres : (client.Service_read nodes).results with
      | nil => simp [Outcome.bind]
      | cons r rest =>
        have hl2 : (r :: rest).length = nodes.length := by rw [← hres]; exact hl
        by_cases hr : r.status = UA_STATUSCODE_GOOD
        · simp [Outcome.bind, hr, UA_STATUSCODE_BADUNEXPECTEDERROR, UA_STATUSCODE_GOOD]
        · simp [Outcome.bind, hr]
    · simp [hs, hl, Outcome.bind, UA_STATUSCODE_BADUNEXPECTEDERROR, UA_STATUSCODE_GOOD]
  · simp [hs, Outcome.bind]

theorem Outcome.bind_ne_undefined {α β : Type} (x : Outcome α) (f : α → Outcome β)
    (hx : x ≠ .undefined) (hf : ∀ a, f a ≠ .undefined) : x.bind f ≠ .undefined := by
  cases x with
  | ok v => exact hf v
  | raise e => simp [Outcome.bind]
  | undefined => exact absurd rfl hx

theorem rb_num2long_ne_undefined (ext : External) (v : RValue) :
    rb_num2long ext v ≠ .undefined := by
  unfold rb_num2long
  split
  · split <;> simp
  · split
    · split <;> simp
    · simp
  · simp

theorem NUM2INT_ne_undefined (ext : External) (v : RValue) : NUM2INT ext v ≠ .undefined := by
  unfold NUM2INT
  apply Outcome.bind_ne_undefined _ _ (rb_num2long_ne_undefined ext v)
  intro n
  split <;> simp

theorem StringValueCStr_ne_undefined (v : RValue) : StringValueCStr v ≠ .undefined := by
  unfold StringValueCStr
  split
  · split <;> simp
  · split <;> simp
  · simp

theorem rb_readUaValues_nodes_ne_undefined (nsIndex : Int) (names : List RValue) :
    rb_readUaValues.nodes nsIndex names ≠ .undefined := by
  induction names with
  | nil => simp [rb_readUaValues.nodes]
  | cons v rest ih =>
    unfold rb_readUaValues.nodes
    split
    · simp [raise_invalid_arguments_error]
    · apply Outcome.bind_ne_undefined _ _ (StringValueCStr_ne_undefined v)
      intro name
      apply Outcome.bind_ne_undefined _ _ ih
      intro nodes
      simp

theorem rb_readUaValues_nodes_length (nsIndex : Int) (names : List RValue)
    (nodes : List UA_NodeId) (h : rb_readUaValues.nodes nsIndex names = .ok nodes) :
    nodes.length = names.length := by
  induction names generalizing nodes with
  | nil =>
    simp only [rb_readUaValues.nodes] at h
    cases h
    rfl
  | cons v rest ih =>
    unfold rb_readUaValues.nodes at h
    split at h
    · cases h
    · cases h1 : StringValueCStr v with
      | ok name =>
        cases h2 : rb_readUaValues.nodes nsIndex rest with
        | ok ns =>
          simp only [h1, h2, Outcome.bind] at h
          cases h
          simp [ih ns h2]
        | raise e => simp [h1, h2, Outcome.bind] at h
        | undefined => simp [h1, h2, Outcome.bind] at h
      | raise e => simp [h1, Outcome.bind] at h
      | undefined => simp [h1, Outcome.bind] at h

/-- A call of `rb_readUaValues` either raises before any request is sent, or
sends one batched read request for as many nodes as there are names and
continues with the status and the values of `multiRead`. -/
theorem rb_readUaValues_run (ext : External) (client : UA_Client) (v_nsIndex v_aryNames : RValue) :
    (∃ e, rb_readUaValues ext client v_nsIndex v_aryNames = ⟨[], .raise e⟩) ∨
    (∃ names nodes, v_aryNames = .ary names ∧ nodes.length = names.length ∧
      rb_readUaValues ext client v_nsIndex v_aryNames =
        { calls := [StackCall.Service_read nodes]
          outcome := (multiRead client nodes).outcome.bind fun (status, readValues) =>
            if status = UA_STATUSCODE_GOOD then
              .ok (.ary (readValues.map (rb_readUaValues.decode ext)))
            else raise_ua_status_error ext status }) := by
  unfold rb_readUaValues
  split
  · exact Or.inl ⟨_, rfl⟩
  · cases v_aryNames with
    | ary names =>
      simp only []
      cases h1 : FIX2INT ext v_nsIndex with
      | ok nsIndex =>
        simp only []
        cases h2 : rb_readUaValues.nodes nsIndex names with
        | ok nodes =>
          exact Or.inr ⟨names, nodes, rfl, rb_readUaValues_nodes_length nsIndex names nodes h2, rfl⟩
        | raise e => exact Or.inl ⟨e, rfl⟩
        | undefined => exact absurd h2 (rb_readUaValues_nodes_ne_undefined nsIndex names)
      | raise e => exact Or.inl ⟨e, rfl⟩
      | undefined => exact absurd h1 (NUM2INT_ne_undefined ext v_nsIndex)
    | _ => exact Or.inl ⟨_, rfl⟩
theorem multiRead_good (client : UA_Client) (nodes : List UA_NodeId) (vals : List UA_Variant)
    (h : (multiRead client nodes).outcome = .ok (UA_STATUSCODE_GOOD, vals)) :
    (client.Service_read nodes).serviceResult = UA_STATUSCODE_GOOD ∧
    (client.Service_read nodes).results.length = nodes.length ∧
    (∀ r ∈ (client.Service_read nodes).results, r.hasStatus = true → r.status = UA_STATUSCODE_GOOD) ∧
    (∀ r ∈ (client.Service_read nodes).results, r.hasValue = true) ∧
    vals = (client.Service_read nodes).results.map (fun r => r.value) := by
  rw [multiRead_outcome] at h
  by_cases hs : (client.Service_read nodes).serviceResult = UA_STATUSCODE_GOOD
  · by_cases hl : (client.Service_read nodes).results.length = nodes.length
    · simp only [hs, hl, ne_eq, not_true_eq_false, if_false] at h
      cases hres : (client.Service_read nodes).results with
      | nil => simp [hres] at h
      | cons r rest =>
        simp only [hres] at h
        by_cases hr : r.status = UA_STATUSCODE_GOOD
        · simp only [hr, ne_eq, not_true_eq_false, if_false] at h
          split at h
          · simp [UA_STATUSCODE_BADUNEXPECTEDERROR, UA_STATUSCODE_GOOD] at h
          · rename_i hany
            simp only [Outcome.ok.injEq, Prod.mk.injEq, true_and] at h
            refine ⟨hs, hres ▸ hl, ?_, ?_, h.symm⟩
            · intro x hx hst
              simp only [List.any_eq_true, not_exists, not_and, Bool.or_eq_true,
                Bool.and_eq_true, bne_iff_ne, ne_eq, Bool.not_eq_true', not_or,
                Bool.not_eq_false] at hany
              exact not_not.mp ((hany x hx).1 hst)
            · intro x hx
              simp only [List.any_eq_true, not_exists, not_and, Bool.or_eq_true,
                Bool.and_eq_true, bne_iff_ne, ne_eq, Bool.not_eq_true', not_or,
                Bool.not_eq_false] at hany
              exact (hany x hx).2
        · simp only [hr, ne_eq, not_false_eq_true, if_true, Outcome.ok.injEq,
            Prod.mk.injEq] at h
          exact h.1.elim
    · simp [hs, hl, UA_STATUSCODE_BADUNEXPECTEDERROR, UA_STATUSCODE_GOOD] at h
  · simp only [ne_eq, hs, not_false_eq_true, if_true, Outcome.ok.injEq, Prod.mk.injEq] at h
    exact h.1.elim

theorem multiRead_bad_item (client : UA_Client) (nodes : List UA_NodeId)
    (hbad : ∃ r ∈ (client.Service_read nodes).results,
      r.hasStatus = true ∧ r.status ≠ UA_STATUSCODE_GOOD) :
    ∃ status vals, status ≠ UA_STATUSCODE_GOOD ∧
      (multiRead client nodes).outcome = .ok (status, vals) := by
  rw [multiRead_outcome]
  obtain ⟨x, hx, hst, hne⟩ := hbad
  by_cases hs : (client.Service_read nodes).serviceResult = UA_STATUSCODE_GOOD
  · by_cases hl : (client.Service_read nodes).results.length = nodes.length
    · simp only [hs, hl, ne_eq, not_true_eq_false, if_false]
      cases hres : (client.Service_read nodes).results with
      | nil => rw [hres] at hx; cases hx
      | cons r rest =>
        simp only []
        by_cases hr : r.status = UA_STATUSCODE_GOOD
        · have hany : (r :: rest).any
              (fun r => (r.hasStatus && r.status != UA_STATUSCODE_GOOD) || !r.hasValue) = true := by
            rw [List.any_eq_true]
            refine ⟨x, hres ▸ hx, ?_⟩
            simp [hst, hne]
          simp only [hr, ne_eq, not_true_eq_false, if_false, hany, if_true]
          exact ⟨_, _, by decide, rfl⟩
        · simp only [hr, ne_eq, not_false_eq_true, if_true]
          exact ⟨_, _, hr, rfl⟩
    · simp only [hs, hl, ne_eq, not_true_eq_false, if_false, not_false_eq_true, if_true]
      exact ⟨_, _, by decide, rfl⟩
  · simp only [ne_eq, hs, not_false_eq_true, if_true]
    exact ⟨_, _, hs, rfl⟩

/-! ### C3: the batched read is all or nothing -/

/-- C3: `multi_read` (`rb_readUaValues`) returns a result only if the service
result of the batched response is good, the number of results equals the
number of names requested and no item carries a status that is not good (an
item without a status field has the good status).  Conversely, whenever the
response to the request sent has an item with a bad status, the whole call
ends with a status error and returns no array, partial or otherwise. -/
theorem C3_multi_read_all_or_nothing (ext : External) (client : UA_Client)
    (v_nsIndex v_aryNames : RValue) :
    (∀ result, (rb_readUaValues ext client v_nsIndex v_aryNames).outcome = .ok result →
      ∃ names nodes, v_aryNames = .ary names ∧
        (rb_readUaValues ext client v_nsIndex v_aryNames).calls
          = [StackCall.Service_read nodes] ∧
        (client.Service_read nodes).serviceResult = UA_STATUSCODE_GOOD ∧
        (client.Service_read nodes).results.length = names.length ∧
        ∀ r ∈ (client.Service_read nodes).results,
          r.hasStatus = true → r.status = UA_STATUSCODE_GOOD) ∧
    (∀ nodes, (rb_readUaValues ext client v_nsIndex v_aryNames).calls
          = [StackCall.Service_read nodes] →
      (∃ r ∈ (client.Service_read nodes).results,
        r.hasStatus = true ∧ r.status ≠ UA_STATUSCODE_GOOD) →
      ∃ status, status ≠ UA_STATUSCODE_GOOD ∧
        (rb_readUaValues ext client v_nsIndex v_aryNames).outcome
          = .raise (.cErrorStatus status (ext.UA_StatusCode_name status))) := by
  rcases rb_readUaValues_run ext client v_nsIndex v_aryNames with ⟨e, he⟩ | ⟨names, nodes, hary, hlen, hrun⟩
  · rw [he]
    constructor
    · intro result h
      cases h
    · intro nodes h
      cases h
  · rw [hrun]
    constructor
    · intro result h
      simp only [] at h
      cases hm : (multiRead client nodes).outcome with
      | ok p =>
        obtain ⟨status, vals⟩ := p
        rw [hm] at h
        simp only [Outcome.bind] at h
        by_cases hst : status = UA_STATUSCODE_GOOD
        · subst hst
          obtain ⟨h1, h2, h3, _, _⟩ := multiRead_good client nodes vals hm
          exact ⟨names, nodes, hary, rfl, h1, h2.trans hlen, h3⟩
        · simp [hst, raise_ua_status_error] at h
      | raise e => rw [hm] at h; simp [Outcome.bind] at h
      | undefined => rw [hm] at h; simp [Outcome.bind] at h
    · intro nodes2 hcalls hbad
      simp only [List.cons.injEq, StackCall.Service_read.injEq, and_true] at hcalls
      subst hcalls
      obtain ⟨status, vals, hne, hm⟩ := multiRead_bad_item client nodes hbad
      refine ⟨status, hne, ?_⟩
      simp only [hm, Outcome.bind, hne, if_false, raise_ua_status_error]
/-- C3, two concrete runs.  With a fully good response for the names
`["uint32b", "uint16a"]` the call returns, and the three conditions hold.  With
the names `["a", "b", "c"]` and a response whose item "b" has the status
BadNodeIdUnknown, the call raises a status error. -/
theorem C3_multi_read_all_or_nothing_witness :
    (∃ names nodes, RValue.ary [.str (cstr "uint32b"), .str (cstr "uint16a")] = .ary names ∧
        (rb_readUaValues sampleExternal
          (constantClient (0, .empty) 0
            ⟨0, [dataValue (.scalar (.uint32 4242)) 0, dataValue (.scalar (.uint16 0)) 0]⟩ ⟨0, []⟩)
          (.int 5) (.ary [.str (cstr "uint32b"), .str (cstr "uint16a")])).calls
          = [StackCall.Service_read nodes] ∧
        ((constantClient (0, .empty) 0
            ⟨0, [dataValue (.scalar (.uint32 4242)) 0, dataValue (.scalar (.uint16 0)) 0]⟩
            ⟨0, []⟩).Service_read nodes).serviceResult = UA_STATUSCODE_GOOD ∧
        ((constantClient (0, .empty) 0
            ⟨0, [dataValue (.scalar (.uint32 4242)) 0, dataValue (.scalar (.uint16 0)) 0]⟩
            ⟨0, []⟩).Service_read nodes).results.length = names.length ∧
        ∀ r ∈ ((constantClient (0, .empty) 0
            ⟨0, [dataValue (.scalar (.uint32 4242)) 0, dataValue (.scalar (.uint16 0)) 0]⟩
            ⟨0, []⟩).Service_read nodes).results,
          r.hasStatus = true → r.status = UA_STATUSCODE_GOOD) ∧
    (∃ status, status ≠ UA_STATUSCODE_GOOD ∧
      (rb_readUaValues sampleExternal
        (constantClient (0, .empty) 0
          ⟨0, [dataValue (.scalar (.uint32 1)) 0, dataValue .empty 0x80340000,
               dataValue (.scalar (.uint32 3)) 0]⟩ ⟨0, []⟩)
        (.int 5) (.ary [.str (cstr "a"), .str (cstr "b"), .str (cstr "c")])).outcome
        = .raise (.cErrorStatus status (sampleExternal.UA_StatusCode_name status))) :=
  ⟨(C3_multi_read_all_or_nothing sampleExternal _ (.int 5)
      (.ary [.str (cstr "uint32b"), .str (cstr "uint16a")])).1 (.ary [.int 4242, .int 0])
      (by decide),
   (C3_multi_read_all_or_nothing sampleExternal _ (.int 5)
      (.ary [.str (cstr "a"), .str (cstr "b"), .str (cstr "c")])).2
      [⟨5, cstr "a"⟩, ⟨5, cstr "b"⟩, ⟨5, cstr "c"⟩] (by decide)
      ⟨dataValue .empty 0x80340000, by decide, by decide, by decide⟩⟩

/-! ### C4: the status reported by a failed batched read -/

/-- C4 (evaluation of the code at the failing input): for the names `["a", "b"]`
and a response with a good service result, a good first item and a second item
of status BadNodeIdUnknown (0x80340000), the first discovered error status is
BadNodeIdUnknown, but `multi_read` reports BadUnexpectedError (0x80010000).
With the same bad status in the first item `multi_read` does report
BadNodeIdUnknown, and for per-item results of the same shape the batched write
(`multiWrite`) returns BadNodeIdUnknown. -/
theorem C4_later_bad_item_reported_as_unexpected_error :
    firstDiscoveredErrorStatus
        ⟨0, [dataValue (.scalar (.uint32 1)) 0, dataValue .empty 0x80340000]⟩
      = some 0x80340000 ∧
    (rb_readUaValues sampleExternal
        (constantClient (0, .empty) 0
          ⟨0, [dataValue (.scalar (.uint32 1)) 0, dataValue .empty 0x80340000]⟩ ⟨0, []⟩)
        (.int 5) (.ary [.str (cstr "a"), .str (cstr "b")])).outcome
      = .raise (.cErrorStatus 0x80010000 "BadUnexpectedError") ∧
    (rb_readUaValues sampleExternal
        (constantClient (0, .empty) 0
          ⟨0, [dataValue .empty 0x80340000, dataValue (.scalar (.uint32 1)) 0]⟩ ⟨0, []⟩)
        (.int 5) (.ary [.str (cstr "a"), .str (cstr "b")])).outcome
      = .raise (.cErrorStatus 0x80340000 "BadNodeIdUnknown") ∧
    (multiWrite (constantClient (0, .empty) 0 ⟨0, []⟩ ⟨0, [0, 0x80340000]⟩)
        [(⟨5, cstr "a"⟩, .scalar (.uint32 1)), (⟨5, cstr "b"⟩, .scalar (.uint32 2))]).outcome
      = .ok 0x80340000 := by
  refine ⟨by decide, by decide, by decide, by decide⟩

/-- The status that `multi_read` reports in every case: whenever it has sent its
request and fails, it fails with a status error whose status is not good and
is: the service result when that is not good; otherwise BadUnexpectedError when
the number of results differs from the number of nodes requested; otherwise the
status field of the first item when that is not good; otherwise
BadUnexpectedError (a later item has a bad status, or an item has no value). -/
theorem multi_read_reported_status (ext : External) (client : UA_Client)
    (v_nsIndex v_aryNames : RValue) (nodes : List UA_NodeId) (e : RbException)
    (hcalls : (rb_readUaValues ext client v_nsIndex v_aryNames).calls
      = [StackCall.Service_read nodes])
    (hfail : (rb_readUaValues ext client v_nsIndex v_aryNames).outcome = .raise e) :
    ∃ status, e = .cErrorStatus status (ext.UA_StatusCode_name status) ∧
      status ≠ UA_STATUSCODE_GOOD ∧
      ((client.Service_read nodes).serviceResult ≠ UA_STATUSCODE_GOOD →
        status = (client.Service_read nodes).serviceResult) ∧
      ((client.Service_read nodes).serviceResult = UA_STATUSCODE_GOOD →
        (client.Service_read nodes).results.length ≠ nodes.length →
        status = UA_STATUSCODE_BADUNEXPECTEDERROR) ∧
      ((client.Service_read nodes).serviceResult = UA_STATUSCODE_GOOD →
        (client.Service_read nodes).results.length = nodes.length →
        ∀ r rest, (client.Service_read nodes).results = r :: rest →
          (r.status ≠ UA_STATUSCODE_GOOD → status = r.status) ∧
          (r.status = UA_STATUSCODE_GOOD → status = UA_STATUSCODE_BADUNEXPECTEDERROR)) := by
  rcases rb_readUaValues_run ext client v_nsIndex v_aryNames with
    ⟨e', he⟩ | ⟨names, nodes', hary, hlen, hrun⟩
  · rw [he] at hcalls
    cases hcalls
  · rw [hrun] at hcalls hfail
    simp only [List.cons.injEq, StackCall.Service_read.injEq, and_true] at hcalls
    subst hcalls
    simp only [] at hfail
    rw [multiRead_outcome] at hfail
    have hbad : UA_STATUSCODE_BADUNEXPECTEDERROR ≠ UA_STATUSCODE_GOOD := by decide
    by_cases hs : (client.Service_read nodes').serviceResult = UA_STATUSCODE_GOOD
    · by_cases hl : (client.Service_read nodes').results.length = nodes'.length
      · simp only [hs, hl, ne_eq, not_true_eq_false, if_false] at hfail
        cases hres : (client.Service_read nodes').results with
        | nil => simp [hres, Outcome.bind] at hfail
        | cons r rest =>
          simp only [hres] at hfail
          by_cases hr : r.status = UA_STATUSCODE_GOOD
          · simp only [hr, ne_eq, not_true_eq_false, if_false] at hfail
            split at hfail
            · simp only [Outcome.bind, hbad, if_false, raise_ua_status_error,
                Outcome.raise.injEq] at hfail
              refine ⟨_, hfail.symm, hbad, fun h => absurd hs h, fun _ h => absurd (by rw [← hres]; exact hl) h, ?_⟩
              intro _ _ r2 rest2 h2
              cases h2
              exact ⟨fun h => absurd hr h, fun _ => rfl⟩
            · simp [Outcome.bind] at hfail
          · simp only [hr, ne_eq, not_false_eq_true, if_true, Outcome.bind, if_false,
              raise_ua_status_error, Outcome.raise.injEq] at hfail
            refine ⟨_, hfail.symm, hr, fun h => absurd hs h, fun _ h => absurd (by rw [← hres]; exact hl) h, ?_⟩
            intro _ _ r2 rest2 h2
            cases h2
            exact ⟨fun _ => rfl, fun h => absurd h hr⟩
      · simp only [hs, hl, ne_eq, not_true_eq_false, if_false, not_false_eq_true, if_true,
          Outcome.bind, hbad, raise_ua_status_error, Outcome.raise.injEq] at hfail
        exact ⟨_, hfail.symm, hbad, fun h => absurd hs h, fun _ _ => rfl,
          fun _ h => absurd h hl⟩
    · simp only [ne_eq, hs, not_false_eq_true, if_true, Outcome.bind, if_false,
        raise_ua_status_error, Outcome.raise.injEq] at hfail
      exact ⟨_, hfail.symm, hs, fun _ => rfl, fun h => absurd h hs, fun h => absurd h hs⟩

/-! ### Auxiliary facts: the conversions on an Integer -/

theorem NUM2INT_int_eq (ext : External) (n : Int) :
    NUM2INT ext (.int n) =
      if -(2 ^ 31) ≤ n ∧ n ≤ 2 ^ 31 - 1 then .ok n else .raise .rangeError := by
  by_cases h : -(2 ^ 31) ≤ n ∧ n ≤ 2 ^ 31 - 1
  · rw [if_pos h, NUM2INT_int ext n h]
  · rw [if_neg h]
    unfold NUM2INT
    by_cases hl : -(2 ^ 63) ≤ n ∧ n ≤ 2 ^ 63 - 1
    · rw [rb_num2long_int ext n hl]
      exact if_neg h
    · have : rb_num2long ext (.int n) = .raise .rangeError := if_neg hl
      rw [this]
      rfl

theorem NUM2SHORT_int_eq (ext : External) (n : Int) :
    NUM2SHORT ext (.int n) =
      if -(2 ^ 15) ≤ n ∧ n ≤ 2 ^ 15 - 1 then .ok n else .raise .rangeError := by
  unfold NUM2SHORT
  by_cases hl : -(2 ^ 63) ≤ n ∧ n ≤ 2 ^ 63 - 1
  · rw [rb_num2long_int ext n hl]
    rfl
  · have : rb_num2long ext (.int n) = .raise .rangeError := if_neg hl
    rw [this]
    have h : ¬ (-(2 ^ 15) ≤ n ∧ n ≤ 2 ^ 15 - 1) := by omega
    rw [if_neg h]
    rfl

theorem NUM2LL_int_eq (ext : External) (n : Int) :
    NUM2LL ext (.int n) =
      if -(2 ^ 63) ≤ n ∧ n ≤ 2 ^ 63 - 1 then .ok n else .raise .rangeError := rfl

theorem rb_num2ulong_internal_int_eq (ext : External) (n : Int) :
    rb_num2ulong_internal ext (.int n) =
      if -(2 ^ 63) ≤ n ∧ n ≤ 2 ^ 64 - 1 then .ok (wrapUnsigned 64 n, decide (n < 0))
      else .raise .rangeError := rfl

theorem NUM2ULL_int_eq (ext : External) (n : Int) :
    NUM2ULL ext (.int n) =
      if -(2 ^ 63) ≤ n ∧ n ≤ 2 ^ 64 - 1 then .ok (wrapUnsigned 64 n) else .raise .rangeError := by
  unfold NUM2ULL
  rw [rb_num2ulong_internal_int_eq]
  split <;> rfl

theorem NUM2USHORT_int_eq (ext : External) (n : Int) :
    NUM2USHORT ext (.int n) =
      if -(2 ^ 15) ≤ n ∧ n ≤ 2 ^ 16 - 1 then .ok (wrapUnsigned 16 n) else .raise .rangeError := by
  unfold NUM2USHORT
  rw [rb_num2ulong_internal_int_eq]
  by_cases hl : -(2 ^ 63) ≤ n ∧ n ≤ 2 ^ 64 - 1
  · rw [if_pos hl]
    simp only [Outcome.bind, wrapUnsigned]
    by_cases hneg : n < 0
    · simp only [hneg, decide_True, if_true]
      by_cases h : -(2 ^ 15) ≤ n ∧ n ≤ 2 ^ 16 - 1
      · rw [if_pos h, if_neg (by omega)]
        congr 1
        omega
      · rw [if_neg h, if_pos (by omega)]
    · simp only [hneg, decide_False, Bool.false_eq_true, if_false]
      by_cases h : -(2 ^ 15) ≤ n ∧ n ≤ 2 ^ 16 - 1
      · rw [if_pos h, if_neg (by omega)]
        congr 1
        omega
      · rw [if_neg h, if_pos (by omega)]
  · rw [if_neg hl, if_neg (by omega)]
    rfl

theorem NUM2UINT_int_eq (ext : External) (n : Int) :
    NUM2UINT ext (.int n) =
      if -(2 ^ 31) ≤ n ∧ n ≤ 2 ^ 32 - 1 then .ok (wrapUnsigned 32 n) else .raise .rangeError := by
  unfold NUM2UINT
  rw [rb_num2ulong_internal_int_eq]
  by_cases hl : -(2 ^ 63) ≤ n ∧ n ≤ 2 ^ 64 - 1
  · rw [if_pos hl]
    simp only [Outcome.bind, wrapUnsigned]
    by_cases hneg : n < 0
    · simp only [hneg, decide_True, if_true]
      by_cases h : -(2 ^ 31) ≤ n ∧ n ≤ 2 ^ 32 - 1
      · rw [if_pos h, if_neg (by omega)]
        congr 1
        omega
      · rw [if_neg h, if_pos (by omega)]
    · simp only [hneg, decide_False, Bool.false_eq_true, if_false]
      by_cases h : -(2 ^ 31) ≤ n ∧ n ≤ 2 ^ 32 - 1
      · rw [if_pos h, if_neg (by omega)]
        congr 1
        omega
      · rw [if_neg h, if_pos (by omega)]
  · rw [if_neg hl, if_neg (by omega)]
    rfl

theorem NUM2CHR_int_eq (ext : External) (n : Int) :
    NUM2CHR ext (.int n) =
      if -(2 ^ 31) ≤ n ∧ n ≤ 2 ^ 31 - 1 then .ok (wrapUnsigned 8 n) else .raise .rangeError := by
  show (NUM2INT ext (.int n)).bind _ = _
  rw [NUM2INT_int_eq]
  split <;> rfl
/-! ### Auxiliary facts: no conversion has an undefined outcome -/

theorem rb_num2ulong_internal_ne_undefined (ext : External) (v : RValue) :
    rb_num2ulong_internal ext v ≠ .undefined := by
  unfold rb_num2ulong_internal
  split
  · split <;> simp
  · split
    · split <;> simp
    · simp
  · simp

theorem NUM2SHORT_ne_undefined (ext : External) (v : RValue) : NUM2SHORT ext v ≠ .undefined := by
  unfold NUM2SHORT
  apply Outcome.bind_ne_undefined _ _ (rb_num2long_ne_undefined ext v)
  intro n
  split <;> simp

theorem NUM2USHORT_ne_undefined (ext : External) (v : RValue) :
    NUM2USHORT ext v ≠ .undefined := by
  unfold NUM2USHORT
  apply Outcome.bind_ne_undefined _ _ (rb_num2ulong_internal_ne_undefined ext v)
  intro p
  dsimp only
  split <;> split <;> simp

theorem NUM2UINT_ne_undefined (ext : External) (v : RValue) : NUM2UINT ext v ≠ .undefined := by
  unfold NUM2UINT
  apply Outcome.bind_ne_undefined _ _ (rb_num2ulong_internal_ne_undefined ext v)
  intro p
  dsimp only
  split <;> split <;> simp

theorem NUM2LL_ne_undefined (ext : External) (v : RValue) : NUM2LL ext v ≠ .undefined :=
  rb_num2long_ne_undefined ext v

theorem NUM2ULL_ne_undefined (ext : External) (v : RValue) : NUM2ULL ext v ≠ .undefined := by
  unfold NUM2ULL
  apply Outcome.bind_ne_undefined _ _ (rb_num2ulong_internal_ne_undefined ext v)
  intro p
  simp

theorem NUM2CHR_ne_undefined (ext : External) (v : RValue) : NUM2CHR ext v ≠ .undefined := by
  unfold NUM2CHR
  split
  · simp
  · simp
  · apply Outcome.bind_ne_undefined _ _ (NUM2INT_ne_undefined ext v)
    intro n
    simp

theorem NUM2DBL_ne_undefined (ext : External) (v : RValue) : NUM2DBL ext v ≠ .undefined := by
  unfold NUM2DBL
  split <;> simp

theorem Check_Type_ne_undefined (v : RValue) (t : RubyType) : Check_Type v t ≠ .undefined := by
  unfold Check_Type
  split <;> simp

theorem Outcome.ite_ne_undefined {α : Type} (c : Prop) [Decidable c] (a b : Outcome α)
    (ha : a ≠ .undefined) (hb : b ≠ .undefined) : (if c then a else b) ≠ .undefined := by
  split <;> assumption

theorem rb_writeUaValue_value_ne_undefined (ext : External) (uaType : Nat) (v : RValue) :
    rb_writeUaValue.value ext uaType v ≠ .undefined := by
  unfold rb_writeUaValue.value
  repeat' apply Outcome.ite_ne_undefined
  all_goals first
    | (apply Outcome.bind_ne_undefined
       · first
         | exact NUM2CHR_ne_undefined ext v | exact NUM2INT_ne_undefined ext v
         | exact NUM2SHORT_ne_undefined ext v | exact NUM2USHORT_ne_undefined ext v
         | exact NUM2UINT_ne_undefined ext v | exact NUM2LL_ne_undefined ext v
         | exact NUM2ULL_ne_undefined ext v | exact NUM2DBL_ne_undefined ext v
         | exact StringValueCStr_ne_undefined v
       · intro a; simp)
    | simp

theorem rb_writeUaValues_value_ne_undefined (ext : External) (uaType : Nat) (v : RValue) :
    rb_writeUaValues.value ext uaType v ≠ .undefined := by
  unfold rb_writeUaValues.value
  repeat' apply Outcome.ite_ne_undefined
  all_goals first
    | (apply Outcome.bind_ne_undefined _ _ (Check_Type_ne_undefined v _)
       intro _
       apply Outcome.bind_ne_undefined
       · first
         | exact NUM2CHR_ne_undefined ext v | exact NUM2INT_ne_undefined ext v
         | exact NUM2SHORT_ne_undefined ext v | exact NUM2USHORT_ne_undefined ext v
         | exact NUM2UINT_ne_undefined ext v | exact NUM2LL_ne_undefined ext v
         | exact NUM2ULL_ne_undefined ext v | exact NUM2DBL_ne_undefined ext v
       · intro a; simp)
    | simp [raise_invalid_arguments_error]

theorem rb_writeUaArrayValue_loop_ne_undefined {α : Type} (conv : RValue → Outcome α)
    (hconv : ∀ v, conv v ≠ .undefined) (elems : List RValue) :
    rb_writeUaArrayValue.loop conv elems ≠ .undefined := by
  induction elems with
  | nil => simp [rb_writeUaArrayValue.loop]
  | cons x rest ih =>
    unfold rb_writeUaArrayValue.loop
    apply Outcome.bind_ne_undefined _ _ (hconv x)
    intro a
    apply Outcome.bind_ne_undefined _ _ ih
    intro b
    simp

/-- A sequence of steps that cannot be undefined and whose last step raises
ends with an exception. -/
theorem Outcome.bind_raises {α β : Type} (x : Outcome α) (f : α → Outcome β)
    (hx : x ≠ .undefined) (hf : ∀ a, ∃ e, f a = .raise e) : ∃ e, x.bind f = .raise e := by
  cases x with
  | ok v => exact hf v
  | raise e => exact ⟨e, rfl⟩
  | undefined => exact absurd rfl hx

theorem rb_writeUaArrayValue_loop_raises {α : Type} (conv : RValue → Outcome α)
    (hconv : ∀ v, conv v ≠ .undefined) (elems : List RValue) (x : RValue)
    (hx : x ∈ elems) (hraise : ∃ e, conv x = .raise e) :
    ∃ e, rb_writeUaArrayValue.loop conv elems = .raise e := by
  induction elems with
  | nil => cases hx
  | cons y rest ih =>
    unfold rb_writeUaArrayValue.loop
    rcases List.mem_cons.mp hx with rfl | hmem
    · obtain ⟨e, he⟩ := hraise
      exact ⟨e, by rw [he]; rfl⟩
    · apply Outcome.bind_raises _ _ (hconv y)
      intro a
      obtain ⟨e, he⟩ := ih hmem
      exact ⟨e, by rw [he]; rfl⟩
/-! ### Auxiliary facts: a host integer outside the accepted range -/

theorem rb_writeUaValue_value_out_of_range (ext : External) (K : Nat) (v : Int)
    (hK : K ∈ integerKinds) (hv : ¬ (conversionMin K ≤ v ∧ v ≤ conversionMax K)) :
    rb_writeUaValue.value ext K (.int v) = .raise .rangeError := by
  simp only [integerKinds, List.mem_cons, List.mem_singleton, List.not_mem_nil, or_false] at hK
  rcases hK with rfl | rfl | rfl | rfl | rfl | rfl | rfl | rfl
  · have h1 : conversionMin UA_TYPES_BYTE = -(2 ^ 31) := by decide
    have h2 : conversionMax UA_TYPES_BYTE = 2 ^ 31 - 1 := by decide
    rw [h1, h2] at hv
    show (NUM2CHR ext (.int v)).bind _ = _
    rw [NUM2CHR_int_eq, if_neg hv]; rfl
  · have h1 : conversionMin UA_TYPES_SBYTE = -(2 ^ 31) := by decide
    have h2 : conversionMax UA_TYPES_SBYTE = 2 ^ 31 - 1 := by decide
    rw [h1, h2] at hv
    show (NUM2INT ext (.int v)).bind _ = _
    rw [NUM2INT_int_eq, if_neg hv]; rfl
  · have h1 : conversionMin UA_TYPES_INT16 = -(2 ^ 15) := by decide
    have h2 : conversionMax UA_TYPES_INT16 = 2 ^ 15 - 1 := by decide
    rw [h1, h2] at hv
    show (NUM2SHORT ext (.int v)).bind _ = _
    rw [NUM2SHORT_int_eq, if_neg hv]; rfl
  · have h1 : conversionMin UA_TYPES_UINT16 = -(2 ^ 15) := by decide
    have h2 : conversionMax UA_TYPES_UINT16 = 2 ^ 16 - 1 := by decide
    rw [h1, h2] at hv
    show (NUM2USHORT ext (.int v)).bind _ = _
    rw [NUM2USHORT_int_eq, if_neg hv]; rfl
  · have h1 : conversionMin UA_TYPES_INT32 = -(2 ^ 31) := by decide
    have h2 : conversionMax UA_TYPES_INT32 = 2 ^ 31 - 1 := by decide
    rw [h1, h2] at hv
    show (NUM2INT ext (.int v)).bind _ = _
    rw [NUM2INT_int_eq, if_neg hv]; rfl
  · have h1 : conversionMin UA_TYPES_UINT32 = -(2 ^ 31) := by decide
    have h2 : conversionMax UA_TYPES_UINT32 = 2 ^ 32 - 1 := by decide
    rw [h1, h2] at hv
    show (NUM2UINT ext (.int v)).bind _ = _
    rw [NUM2UINT_int_eq, if_neg hv]; rfl
  · have h1 : conversionMin UA_TYPES_INT64 = -(2 ^ 63) := by decide
    have h2 : conversionMax UA_TYPES_INT64 = 2 ^ 63 - 1 := by decide
    rw [h1, h2] at hv
    show (NUM2LL ext (.int v)).bind _ = _
    rw [NUM2LL_int_eq, if_neg hv]; rfl
  · have h1 : conversionMin UA_TYPES_UINT64 = -(2 ^ 63) := by decide
    have h2 : conversionMax UA_TYPES_UINT64 = 2 ^ 64 - 1 := by decide
    rw [h1, h2] at hv
    show (NUM2ULL ext (.int v)).bind _ = _
    rw [NUM2ULL_int_eq, if_neg hv]; rfl

theorem Check_Type_bind_raises {β : Type} (v : RValue) (t : RubyType) (x : Outcome β)
    (hx : ∃ e, x = .raise e) : ∃ e, (Check_Type v t).bind (fun _ => x) = .raise e :=
  Outcome.bind_raises _ _ (Check_Type_ne_undefined v t) (fun _ => hx)

theorem rb_writeUaValues_value_out_of_range (ext : External) (K : Nat) (v : Int)
    (hK : K ∈ integerKinds) (hv : ¬ (conversionMin K ≤ v ∧ v ≤ conversionMax K)) :
    ∃ e, rb_writeUaValues.value ext K (.int v) = .raise e := by
  simp only [integerKinds, List.mem_cons, List.mem_singleton, List.not_mem_nil, or_false] at hK
  rcases hK with rfl | rfl | rfl | rfl | rfl | rfl | rfl | rfl
  · have h1 : conversionMin UA_TYPES_BYTE = -(2 ^ 31) := by decide
    have h2 : conversionMax UA_TYPES_BYTE = 2 ^ 31 - 1 := by decide
    rw [h1, h2] at hv
    show ∃ e, (Check_Type _ _).bind (fun _ => (NUM2CHR ext (.int v)).bind _) = _
    apply Check_Type_bind_raises
    rw [NUM2CHR_int_eq, if_neg hv]; exact ⟨_, rfl⟩
  · have h1 : conversionMin UA_TYPES_SBYTE = -(2 ^ 31) := by decide
    have h2 : conversionMax UA_TYPES_SBYTE = 2 ^ 31 - 1 := by decide
    rw [h1, h2] at hv
    show ∃ e, (Check_Type _ _).bind (fun _ => (NUM2INT ext (.int v)).bind _) = _
    apply Check_Type_bind_raises
    rw [NUM2INT_int_eq, if_neg hv]; exact ⟨_, rfl⟩
  · have h1 : conversionMin UA_TYPES_INT16 = -(2 ^ 15) := by decide
    have h2 : conversionMax UA_TYPES_INT16 = 2 ^ 15 - 1 := by decide
    rw [h1, h2] at hv
    show ∃ e, (Check_Type _ _).bind (fun _ => (NUM2SHORT ext (.int v)).bind _) = _
    apply Check_Type_bind_raises
    rw [NUM2SHORT_int_eq, if_neg hv]; exact ⟨_, rfl⟩
  · have h1 : conversionMin UA_TYPES_UINT16 = -(2 ^ 15) := by decide
    have h2 : conversionMax UA_TYPES_UINT16 = 2 ^ 16 - 1 := by decide
    rw [h1, h2] at hv
    show ∃ e, (Check_Type _ _).bind (fun _ => (NUM2USHORT ext (.int v)).bind _) = _
    apply Check_Type_bind_raises
    rw [NUM2USHORT_int_eq, if_neg hv]; exact ⟨_, rfl⟩
  · have h1 : conversionMin UA_TYPES_INT32 = -(2 ^ 31) := by decide
    have h2 : conversionMax UA_TYPES_INT32 = 2 ^ 31 - 1 := by decide
    rw [h1, h2] at hv
    show ∃ e, (Check_Type _ _).bind (fun _ => (NUM2INT ext (.int v)).bind _) = _
    apply Check_Type_bind_raises
    rw [NUM2INT_int_eq, if_neg hv]; exact ⟨_, rfl⟩
  · have h1 : conversionMin UA_TYPES_UINT32 = -(2 ^ 31) := by decide
    have h2 : conversionMax UA_TYPES_UINT32 = 2 ^ 32 - 1 := by decide
    rw [h1, h2] at hv
    show ∃ e, (Check_Type _ _).bind (fun _ => (NUM2UINT ext (.int v)).bind _) = _
    apply Check_Type_bind_raises
    rw [NUM2UINT_int_eq, if_neg hv]; exact ⟨_, rfl⟩
  · have h1 : conversionMin UA_TYPES_INT64 = -(2 ^ 63) := by decide
    have h2 : conversionMax UA_TYPES_INT64 = 2 ^ 63 - 1 := by decide
    rw [h1, h2] at hv
    show ∃ e, (Check_Type _ _).bind (fun _ => (NUM2LL ext (.int v)).bind _) = _
    apply Check_Type_bind_raises
    rw [NUM2LL_int_eq, if_neg hv]; exact ⟨_, rfl⟩
  · have h1 : conversionMin UA_TYPES_UINT64 = -(2 ^ 63) := by decide
    have h2 : conversionMax UA_TYPES_UINT64 = 2 ^ 64 - 1 := by decide
    rw [h1, h2] at hv
    show ∃ e, (Check_Type _ _).bind (fun _ => (NUM2ULL ext (.int v)).bind _) = _
    apply Check_Type_bind_raises
    rw [NUM2ULL_int_eq, if_neg hv]; exact ⟨_, rfl⟩

theorem rb_writeUaArrayValue_value_out_of_range (ext : External) (K : Nat) (v : Int)
    (elems : List RValue) (hmem : RValue.int v ∈ elems)
    (hK : K ∈ integerKinds) (hv : ¬ (conversionMin K ≤ v ∧ v ≤ conversionMax K)) :
    ∃ e, rb_writeUaArrayValue.value ext K elems = .raise e := by
  simp only [integerKinds, List.mem_cons, List.mem_singleton, List.not_mem_nil, or_false] at hK
  rcases hK with rfl | rfl | rfl | rfl | rfl | rfl | rfl | rfl
  · have h1 : conversionMin UA_TYPES_BYTE = -(2 ^ 31) := by decide
    have h2 : conversionMax UA_TYPES_BYTE = 2 ^ 31 - 1 := by decide
    rw [h1, h2] at hv
    obtain ⟨e, he⟩ := rb_writeUaArrayValue_loop_raises (NUM2CHR ext) (NUM2CHR_ne_undefined ext)
      elems (.int v) hmem ⟨_, by rw [NUM2CHR_int_eq, if_neg hv]⟩
    exact ⟨e, by show (rb_writeUaArrayValue.loop (NUM2CHR ext) elems).bind _ = _; rw [he]; rfl⟩
  · have h1 : conversionMin UA_TYPES_SBYTE = -(2 ^ 31) := by decide
    have h2 : conversionMax UA_TYPES_SBYTE = 2 ^ 31 - 1 := by decide
    rw [h1, h2] at hv
    obtain ⟨e, he⟩ := rb_writeUaArrayValue_loop_raises
      (fun elem => (NUM2INT ext elem).bind fun n => .ok (wrapSigned 8 n))
      (fun x => Outcome.bind_ne_undefined _ _ (NUM2INT_ne_undefined ext x) (fun _ => by simp))
      elems (.int v) hmem ⟨_, by simp only [NUM2INT_int_eq, if_neg hv]; rfl⟩
    exact ⟨e, by
      show (rb_writeUaArrayValue.loop
        (fun elem => (NUM2INT ext elem).bind fun n => .ok (wrapSigned 8 n)) elems).bind _ = _
      rw [he]; rfl⟩
  · have h1 : conversionMin UA_TYPES_INT16 = -(2 ^ 15) := by decide
    have h2 : conversionMax UA_TYPES_INT16 = 2 ^ 15 - 1 := by decide
    rw [h1, h2] at hv
    obtain ⟨e, he⟩ := rb_writeUaArrayValue_loop_raises (NUM2SHORT ext)
      (NUM2SHORT_ne_undefined ext) elems (.int v) hmem ⟨_, by rw [NUM2SHORT_int_eq, if_neg hv]⟩
    exact ⟨e, by show (rb_writeUaArrayValue.loop (NUM2SHORT ext) elems).bind _ = _; rw [he]; rfl⟩
  · have h1 : conversionMin UA_TYPES_UINT16 = -(2 ^ 15) := by decide
    have h2 : conversionMax UA_TYPES_UINT16 = 2 ^ 16 - 1 := by decide
    rw [h1, h2] at hv
    obtain ⟨e, he⟩ := rb_writeUaArrayValue_loop_raises (NUM2USHORT ext)
      (NUM2USHORT_ne_undefined ext) elems (.int v) hmem ⟨_, by rw [NUM2USHORT_int_eq, if_neg hv]⟩
    exact ⟨e, by show (rb_writeUaArrayValue.loop (NUM2USHORT ext) elems).bind _ = _; rw [he]; rfl⟩
  · have h1 : conversionMin UA_TYPES_INT32 = -(2 ^ 31) := by decide
    have h2 : conversionMax UA_TYPES_INT32 = 2 ^ 31 - 1 := by decide
    rw [h1, h2] at hv
    obtain ⟨e, he⟩ := rb_writeUaArrayValue_loop_raises (NUM2INT ext)
      (NUM2INT_ne_undefined ext) elems (.int v) hmem ⟨_, by rw [NUM2INT_int_eq, if_neg hv]⟩
    exact ⟨e, by show (rb_writeUaArrayValue.loop (NUM2INT ext) elems).bind _ = _; rw [he]; rfl⟩
  · have h1 : conversionMin UA_TYPES_UINT32 = -(2 ^ 31) := by decide
    have h2 : conversionMax UA_TYPES_UINT32 = 2 ^ 32 - 1 := by decide
    rw [h1, h2] at hv
    obtain ⟨e, he⟩ := rb_writeUaArrayValue_loop_raises (NUM2UINT ext)
      (NUM2UINT_ne_undefined ext) elems (.int v) hmem ⟨_, by rw [NUM2UINT_int_eq, if_neg hv]⟩
    exact ⟨e, by show (rb_writeUaArrayValue.loop (NUM2UINT ext) elems).bind _ = _; rw [he]; rfl⟩
  · have h1 : conversionMin UA_TYPES_INT64 = -(2 ^ 63) := by decide
    have h2 : conversionMax UA_TYPES_INT64 = 2 ^ 63 - 1 := by decide
    rw [h1, h2] at hv
    obtain ⟨e, he⟩ := rb_writeUaArrayValue_loop_raises (NUM2LL ext)
      (NUM2LL_ne_undefined ext) elems (.int v) hmem ⟨_, by rw [NUM2LL_int_eq, if_neg hv]⟩
    exact ⟨e, by show (rb_writeUaArrayValue.loop (NUM2LL ext) elems).bind _ = _; rw [he]; rfl⟩
  · have h1 : conversionMin UA_TYPES_UINT64 = -(2 ^ 63) := by decide
    have h2 : conversionMax UA_TYPES_UINT64 = 2 ^ 64 - 1 := by decide
    rw [h1, h2] at hv
    obtain ⟨e, he⟩ := rb_writeUaArrayValue_loop_raises (NUM2ULL ext)
      (NUM2ULL_ne_undefined ext) elems (.int v) hmem ⟨_, by rw [NUM2ULL_int_eq, if_neg hv]⟩
    exact ⟨e, by show (rb_writeUaArrayValue.loop (NUM2ULL ext) elems).bind _ = _; rw [he]; rfl⟩

/-- A scalar write whose Variant cannot be built raises before any request. -/
theorem rb_writeUaValue_raises_of_value (ext : External) (client : UA_Client)
    (v_nsIndex v_name v_newValue : RValue) (uaType : Nat)
    (h : ∃ e, rb_writeUaValue.value ext uaType v_newValue = .raise e) :
    ∃ e, rb_writeUaValue ext client v_nsIndex v_name v_newValue uaType = ⟨[], .raise e⟩ := by
  unfold rb_writeUaValue
  split
  · exact ⟨_, rfl⟩
  · split
    · exact ⟨_, rfl⟩
    · split
      · exact ⟨_, rfl⟩
      · have hchain : ∃ e, ((StringValueCStr v_name).bind fun name =>
            (FIX2INT ext v_nsIndex).bind fun nsIndex =>
              (rb_writeUaValue.value ext uaType v_newValue).bind fun value =>
                Outcome.ok (UA_NODEID_STRING nsIndex name, value)) = .raise e := by
          apply Outcome.bind_raises _ _ (StringValueCStr_ne_undefined v_name)
          intro name
          apply Outcome.bind_raises _ _ (NUM2INT_ne_undefined ext v_nsIndex)
          intro nsIndex
          obtain ⟨e, he⟩ := h
          exact ⟨e, by rw [he]; rfl⟩
        obtain ⟨e, he⟩ := hchain
        rw [he]
        exact ⟨e, rfl⟩

/-- An array write whose Variant cannot be built raises before any request. -/
theorem rb_writeUaArrayValue_raises_of_value (ext : External) (client : UA_Client)
    (v_nsIndex v_name : RValue) (elems : List RValue) (uaType : Nat)
    (h : ∃ e, rb_writeUaArrayValue.value ext uaType elems = .raise e) :
    ∃ e, rb_writeUaArrayValue ext client v_nsIndex v_name (.ary elems) uaType
      = ⟨[], .raise e⟩ := by
  unfold rb_writeUaArrayValue
  have hchain : ∃ e, ((NUM2INT ext v_nsIndex).bind fun n =>
      (StringValueCStr v_name).bind fun name =>
        (Check_Type (.ary elems) .T_ARRAY).bind fun _ =>
          match RValue.ary elems with
          | .ary elems =>
              (rb_writeUaArrayValue.value ext uaType elems).bind fun value =>
                Outcome.ok (UA_NODEID_STRING (wrapSigned 16 n) name, value)
          | _ => .raise .typeError) = .raise e := by
    apply Outcome.bind_raises _ _ (NUM2INT_ne_undefined ext v_nsIndex)
    intro n
    apply Outcome.bind_raises _ _ (StringValueCStr_ne_undefined v_name)
    intro name
    apply Outcome.bind_raises _ _ (Check_Type_ne_undefined _ _)
    intro _
    obtain ⟨e, he⟩ := h
    exact ⟨e, by simp only [he]; rfl⟩
  obtain ⟨e, he⟩ := hchain
  rw [he]
  exact ⟨e, rfl⟩

theorem rb_writeUaValues_items_ne_undefined (ext : External) (nsIndex : Int) (uaType : Nat)
    (names newValues : List RValue) :
    rb_writeUaValues.items ext nsIndex uaType names newValues ≠ .undefined := by
  induction names generalizing newValues with
  | nil => simp [rb_writeUaValues.items]
  | cons n rest ih =>
    cases newValues with
    | nil => simp [rb_writeUaValues.items]
    | cons x xs =>
      unfold rb_writeUaValues.items
      apply Outcome.ite_ne_undefined
      · simp [raise_invalid_arguments_error]
      · apply Outcome.bind_ne_undefined _ _ (StringValueCStr_ne_undefined n)
        intro name
        apply Outcome.bind_ne_undefined _ _ (rb_writeUaValues_value_ne_undefined ext uaType x)
        intro value
        apply Outcome.bind_ne_undefined _ _ (ih xs)
        intro r
        simp

theorem rb_writeUaValues_items_raises (ext : External) (nsIndex : Int) (uaType : Nat)
    (names newValues : List RValue) (x : RValue) (hlen : names.length = newValues.length)
    (hx : x ∈ newValues) (hraise : ∃ e, rb_writeUaValues.value ext uaType x = .raise e) :
    ∃ e, rb_writeUaValues.items ext nsIndex uaType names newValues = .raise e := by
  induction names generalizing newValues with
  | nil =>
    cases newValues with
    | nil => cases hx
    | cons y ys => simp at hlen
  | cons n rest ih =>
    cases newValues with
    | nil => cases hx
    | cons y ys =>
      unfold rb_writeUaValues.items
      split
      · exact ⟨_, rfl⟩
      · apply Outcome.bind_raises _ _ (StringValueCStr_ne_undefined n)
        intro name
        rcases List.mem_cons.mp hx with rfl | hmem
        · obtain ⟨e, he⟩ := hraise
          exact ⟨e, by rw [he]; rfl⟩
        · apply Outcome.bind_raises _ _ (rb_writeUaValues_value_ne_undefined ext uaType y)
          intro value
          obtain ⟨e, he⟩ := ih ys (by simpa using hlen) hmem
          exact ⟨e, by rw [he]; rfl⟩

/-- A batched write one of whose Variants cannot be built raises before any
request. -/
theorem rb_writeUaValues_raises_of_value (ext : External) (client : UA_Client)
    (v_nsIndex v_aryNames : RValue) (newValues : List RValue) (uaType : Nat) (x : RValue)
    (hx : x ∈ newValues) (hraise : ∃ e, rb_writeUaValues.value ext uaType x = .raise e) :
    ∃ e, rb_writeUaValues ext client v_nsIndex v_aryNames (.ary newValues) uaType
      = ⟨[], .raise e⟩ := by
  unfold rb_writeUaValues
  split
  · exact ⟨_, rfl⟩
  · cases v_aryNames with
    | ary names =>
      simp only []
      split
      · exact ⟨_, rfl⟩
      · rename_i hlen
        cases h1 : FIX2INT ext v_nsIndex with
        | ok nsIndex =>
          simp only []
          obtain ⟨e, he⟩ := rb_writeUaValues_items_raises ext nsIndex uaType names newValues x
            (not_not.mp hlen) hx hraise
          rw [he]
          exact ⟨e, rfl⟩
        | raise e => exact ⟨e, rfl⟩
        | undefined => exact absurd h1 (NUM2INT_ne_undefined ext v_nsIndex)
    | _ => exact ⟨_, rfl⟩

/-! ### C5: host integers outside the range of the kind -/

/-- C5 (evaluation of the code at the failing inputs): -1 is outside the range
of UInt16, yet `write_uint16` of -1 does not fail: it sends a write request
carrying the wrapped value 65535 and returns.  Likewise `write_byte` of 300
sends 44 and `write_sbyte` of 200 sends -56.  The same chain does refuse a
value outside the range of the kind in its other branches: `write_int16` of
40000 and `write_uint16` of 70000 raise `RangeError` and send nothing. -/
theorem C5_uint16_write_of_minus_one_wraps :
    UA_TYPES_UINT16 ∈ integerKinds ∧
    ¬ (kindMin UA_TYPES_UINT16 ≤ (-1 : Int) ∧ (-1 : Int) ≤ kindMax UA_TYPES_UINT16) ∧
    rb_writeUaValue sampleExternal (goodClient .empty) (.int 5) (.str (cstr "uint16a"))
        (.int (-1)) UA_TYPES_UINT16
      = ⟨[StackCall.writeValueAttribute ⟨5, cstr "uint16a"⟩ (.scalar (.uint16 65535))],
          .ok .nil⟩ ∧
    ¬ (kindMin UA_TYPES_BYTE ≤ (300 : Int) ∧ (300 : Int) ≤ kindMax UA_TYPES_BYTE) ∧
    rb_writeUaValue sampleExternal (goodClient .empty) (.int 5) (.str (cstr "byte_test"))
        (.int 300) UA_TYPES_BYTE
      = ⟨[StackCall.writeValueAttribute ⟨5, cstr "byte_test"⟩ (.scalar (.byte 44))],
          .ok .nil⟩ ∧
    ¬ (kindMin UA_TYPES_SBYTE ≤ (200 : Int) ∧ (200 : Int) ≤ kindMax UA_TYPES_SBYTE) ∧
    rb_writeUaValue sampleExternal (goodClient .empty) (.int 5) (.str (cstr "sbyte_test"))
        (.int 200) UA_TYPES_SBYTE
      = ⟨[StackCall.writeValueAttribute ⟨5, cstr "sbyte_test"⟩ (.scalar (.sbyte (-56)))],
          .ok .nil⟩ ∧
    rb_writeUaValue sampleExternal (goodClient .empty) (.int 5) (.str (cstr "int16a"))
        (.int 40000) UA_TYPES_INT16 = ⟨[], .raise .rangeError⟩ ∧
    rb_writeUaValue sampleExternal (goodClient .empty) (.int 5) (.str (cstr "uint16a"))
        (.int 70000) UA_TYPES_UINT16 = ⟨[], .raise .rangeError⟩ := by
  refine ⟨by decide, by decide, by decide, by decide, by decide, by decide, by decide,
    by decide, by decide⟩

/-- What the write paths do refuse: for every integer kind `K` and every host
integer `v` outside the range accepted by the Ruby conversion used for `K`
(`conversionMin K` to `conversionMax K`), the scalar write, the batched write
(whatever the position of `v` among the new values) and the array write
(whatever its position among the elements) raise before any request is sent,
so nothing is stored.  For Int16, Int32 and Int64 the accepted range is exactly
the range of the kind. -/
theorem write_fails_outside_conversion_range (ext : External) (client : UA_Client)
    (K : Nat) (v : Int) (hK : K ∈ integerKinds)
    (hv : ¬ (conversionMin K ≤ v ∧ v ≤ conversionMax K)) :
    (∀ v_nsIndex v_name,
      ∃ e, rb_writeUaValue ext client v_nsIndex v_name (.int v) K = ⟨[], .raise e⟩) ∧
    (∀ v_nsIndex v_aryNames newValues, RValue.int v ∈ newValues →
      ∃ e, rb_writeUaValues ext client v_nsIndex v_aryNames (.ary newValues) K
        = ⟨[], .raise e⟩) ∧
    (∀ v_nsIndex v_name elems, RValue.int v ∈ elems →
      ∃ e, rb_writeUaArrayValue ext client v_nsIndex v_name (.ary elems) K
        = ⟨[], .raise e⟩) ∧
    (K = UA_TYPES_INT16 ∨ K = UA_TYPES_INT32 ∨ K = UA_TYPES_INT64 →
      conversionMin K = kindMin K ∧ conversionMax K = kindMax K) := by
  refine ⟨?_, ?_, ?_, ?_⟩
  · intro v_nsIndex v_name
    exact rb_writeUaValue_raises_of_value ext client v_nsIndex v_name (.int v) K
      ⟨_, rb_writeUaValue_value_out_of_range ext K v hK hv⟩
  · intro v_nsIndex v_aryNames newValues hmem
    exact rb_writeUaValues_raises_of_value ext client v_nsIndex v_aryNames newValues K (.int v)
      hmem (rb_writeUaValues_value_out_of_range ext K v hK hv)
  · intro v_nsIndex v_name elems hmem
    exact rb_writeUaArrayValue_raises_of_value ext client v_nsIndex v_name elems K
      (rb_writeUaArrayValue_value_out_of_range ext K v elems hmem hK hv)
  · rintro (rfl | rfl | rfl) <;> constructor <;> decide

/-! ### C6: host values of the wrong dynamic type -/

/-- C6 (evaluation of the code at failing inputs): `write_boolean` of the
Integer 5, which is neither `true` nor `false`, is not rejected: it sends a
write request carrying the Boolean `true` and returns.  Likewise
`write_boolean_array` of `[5, nil]` sends the array `[true, false]`, and
`write_int32` of the String "7" fails with a `TypeError` of the conversion, not
with the "Invalid arguments" error that the same call raises for Int16. -/
theorem C6_scalar_boolean_write_accepts_an_integer :
    rb_writeUaValue sampleExternal (goodClient .empty) (.int 5) (.str (cstr "true_var"))
        (.int 5) UA_TYPES_BOOLEAN
      = ⟨[StackCall.writeValueAttribute ⟨5, cstr "true_var"⟩ (.scalar (.boolean true))],
          .ok .nil⟩ ∧
    rb_writeUaArrayValue sampleExternal (goodClient .empty) (.int 5) (.str (cstr "bool_array"))
        (.ary [.int 5, .nil]) UA_TYPES_BOOLEAN
      = ⟨[StackCall.writeValueAttribute ⟨5, cstr "bool_array"⟩
            (.array (.boolean [true, false]))], .ok .nil⟩ ∧
    rb_writeUaValue sampleExternal (goodClient .empty) (.int 5) (.str (cstr "int32a"))
        (.str (cstr "7")) UA_TYPES_INT32 = ⟨[], .raise .typeError⟩ ∧
    rb_writeUaValue sampleExternal (goodClient .empty) (.int 5) (.str (cstr "int16a"))
        (.str (cstr "7")) UA_TYPES_INT16 = ⟨[], .raise (.cError "Invalid arguments")⟩ ∧
    rb_writeUaValues sampleExternal (goodClient .empty) (.int 5)
        (.ary [.str (cstr "true_var")]) (.ary [.int 5]) UA_TYPES_BOOLEAN
      = ⟨[], .raise (.cError "Invalid arguments")⟩ := by
  refine ⟨by decide, by decide, by decide, by decide, by decide⟩

/-! ### Auxiliary facts: runs of the scalar write and wrap-around in range -/

theorem wrapUnsigned_of_range (w : Nat) (v : Int) (h : 0 ≤ v ∧ v ≤ 2 ^ w - 1) :
    ((wrapUnsigned w v : Nat) : Int) = v := by
  unfold wrapUnsigned
  have h1 : v % 2 ^ w = v := Int.emod_eq_of_lt h.1 (by omega)
  rw [h1]
  exact Int.toNat_of_nonneg h.1

theorem wrapSigned_eight_of_range (v : Int) (h : -(2 ^ 7) ≤ v ∧ v ≤ 2 ^ 7 - 1) :
    wrapSigned 8 v = v := by
  unfold wrapSigned
  omega

/-- A scalar write with a valid namespace index and name, whose Variant can be
built, sends exactly one write request carrying that Variant. -/
theorem rb_writeUaValue_run (ext : External) (client : UA_Client) (n : Int) (name : List Nat)
    (v_newValue : RValue) (uaType : Nat) (value : UA_Variant)
    (hn : -(2 ^ 31) ≤ n ∧ n ≤ 2 ^ 31 - 1) (hname : 0 ∉ name)
    (hfix : uaType = UA_TYPES_INT16 → rb_type v_newValue = .T_FIXNUM)
    (hvalue : rb_writeUaValue.value ext uaType v_newValue = .ok value) :
    rb_writeUaValue ext client (.int n) (.str name) v_newValue uaType =
      { calls := [StackCall.writeValueAttribute (UA_NODEID_STRING n name) value]
        outcome :=
          if client.writeValueAttribute (UA_NODEID_STRING n name) value = UA_STATUSCODE_GOOD then
            .ok .nil
          else raise_ua_status_error ext
            (client.writeValueAttribute (UA_NODEID_STRING n name) value) } := by
  have hfixn : rb_type (.int n) = .T_FIXNUM := rb_type_fixnum n (by constructor <;> omega)
  have h3 : ¬ (uaType = UA_TYPES_INT16 ∧ (RB_TYPE_P v_newValue .T_FIXNUM != true) = true) := by
    rintro ⟨h, h'⟩
    simp [RB_TYPE_P, hfix h] at h'
  unfold rb_writeUaValue
  rw [if_neg (by simp [RB_TYPE_P, rb_type]), if_neg (by simp [RB_TYPE_P, hfixn]), if_neg h3]
  simp only [StringValueCStr_str name hname, FIX2INT, NUM2INT_int ext n hn, hvalue, Outcome.bind]

/-! ### C7: a scalar written is read back unchanged -/

/-- C7: for every integer kind `K` and every host integer `v` in the range of
`K` (bounds included), and for Boolean with `true` or `false`, the scalar write
(called with a valid namespace index and name) sends one write request whose
Variant is a scalar tagged `K`, and the typed read for `K` of a node whose read
returns that Variant gives back exactly the host value written. -/
theorem C7_scalar_write_then_read (ext : External) (client : UA_Client) (n : Int)
    (name : List Nat) (K : Nat) (host : RValue)
    (hn : -(2 ^ 31) ≤ n ∧ n ≤ 2 ^ 31 - 1) (hname : 0 ∉ name)
    (hhost : (K ∈ integerKinds ∧ ∃ v : Int, host = .int v ∧ kindMin K ≤ v ∧ v ≤ kindMax K) ∨
      (K = UA_TYPES_BOOLEAN ∧ (host = .true ∨ host = .false))) :
    ∃ value,
      (rb_writeUaValue ext client (.int n) (.str name) host K).calls
        = [StackCall.writeValueAttribute (UA_NODEID_STRING n name) value] ∧
      UA_Variant_hasScalarType value K = true ∧
      (client.readValueAttribute (UA_NODEID_STRING n name) = (UA_STATUSCODE_GOOD, value) →
        (rb_readUaValue ext client (.int n) (.str name) K).outcome = .ok host) := by
  have key : ∀ value, (K = UA_TYPES_INT16 → rb_type host = .T_FIXNUM) →
      rb_writeUaValue.value ext K host = .ok value →
      UA_Variant_hasScalarType value K = true →
      rb_readUaValue.decode ext K value = .ok host →
      ∃ value,
        (rb_writeUaValue ext client (.int n) (.str name) host K).calls
          = [StackCall.writeValueAttribute (UA_NODEID_STRING n name) value] ∧
        UA_Variant_hasScalarType value K = true ∧
        (client.readValueAttribute (UA_NODEID_STRING n name) = (UA_STATUSCODE_GOOD, value) →
          (rb_readUaValue ext client (.int n) (.str name) K).outcome = .ok host) := by
    intro value hfix hvalue htype hdecode
    refine ⟨value, ?_, htype, ?_⟩
    · rw [rb_writeUaValue_run ext client n name host K value hn hname hfix hvalue]
    · intro hread
      rw [rb_readUaValue_run ext client n name K hn hname, hread]
      simpa using hdecode
  rcases hhost with ⟨hK, v, rfl, hv⟩ | ⟨rfl, rfl | rfl⟩
  · simp only [integerKinds, List.mem_cons, List.mem_singleton, List.not_mem_nil, or_false] at hK
    rcases hK with rfl | rfl | rfl | rfl | rfl | rfl | rfl | rfl
    · have h1 : kindMin UA_TYPES_BYTE = 0 := by decide
      have h2 : kindMax UA_TYPES_BYTE = 2 ^ 8 - 1 := by decide
      rw [h1, h2] at hv
      refine key (.scalar (.byte (wrapUnsigned 8 v))) (fun h => absurd h (by decide)) ?_ rfl ?_
      · show (NUM2CHR ext (.int v)).bind _ = _
        rw [NUM2CHR_int_eq, if_pos (by omega)]; rfl
      · show Outcome.ok (INT2NUM (wrapUnsigned 8 v)) = _
        rw [INT2NUM, wrapUnsigned_of_range 8 v hv]
    · have h1 : kindMin UA_TYPES_SBYTE = -(2 ^ 7) := by decide
      have h2 : kindMax UA_TYPES_SBYTE = 2 ^ 7 - 1 := by decide
      rw [h1, h2] at hv
      refine key (.scalar (.sbyte (wrapSigned 8 v))) (fun h => absurd h (by decide)) ?_ rfl ?_
      · show (NUM2INT ext (.int v)).bind _ = _
        rw [NUM2INT_int_eq, if_pos (by omega)]; rfl
      · show Outcome.ok (INT2NUM (wrapSigned 8 v)) = _
        rw [INT2NUM, wrapSigned_eight_of_range v hv]
    · have h1 : kindMin UA_TYPES_INT16 = -(2 ^ 15) := by decide
      have h2 : kindMax UA_TYPES_INT16 = 2 ^ 15 - 1 := by decide
      rw [h1, h2] at hv
      refine key (.scalar (.int16 v)) (fun _ => rb_type_fixnum v (by omega)) ?_ rfl rfl
      show (NUM2SHORT ext (.int v)).bind _ = _
      rw [NUM2SHORT_int_eq, if_pos hv]; rfl
    · have h1 : kindMin UA_TYPES_UINT16 = 0 := by decide
      have h2 : kindMax UA_TYPES_UINT16 = 2 ^ 16 - 1 := by decide
      rw [h1, h2] at hv
      refine key (.scalar (.uint16 (wrapUnsigned 16 v))) (fun h => absurd h (by decide)) ?_ rfl ?_
      · show (NUM2USHORT ext (.int v)).bind _ = _
        rw [NUM2USHORT_int_eq, if_pos (by omega)]; rfl
      · show Outcome.ok (INT2NUM (wrapUnsigned 16 v)) = _
        rw [INT2NUM, wrapUnsigned_of_range 16 v hv]
    · have h1 : kindMin UA_TYPES_INT32 = -(2 ^ 31) := by decide
      have h2 : kindMax UA_TYPES_INT32 = 2 ^ 31 - 1 := by decide
      rw [h1, h2] at hv
      refine key (.scalar (.int32 v)) (fun h => absurd h (by decide)) ?_ rfl rfl
      show (NUM2INT ext (.int v)).bind _ = _
      rw [NUM2INT_int_eq, if_pos hv]; rfl
    · have h1 : kindMin UA_TYPES_UINT32 = 0 := by decide
      have h2 : kindMax UA_TYPES_UINT32 = 2 ^ 32 - 1 := by decide
      rw [h1, h2] at hv
      refine key (.scalar (.uint32 (wrapUnsigned 32 v))) (fun h => absurd h (by decide)) ?_ rfl ?_
      · show (NUM2UINT ext (.int v)).bind _ = _
        rw [NUM2UINT_int_eq, if_pos (by omega)]; rfl
      · show Outcome.ok (INT2NUM (wrapUnsigned 32 v)) = _
        rw [INT2NUM, wrapUnsigned_of_range 32 v hv]
    · have h1 : kindMin UA_TYPES_INT64 = -(2 ^ 63) := by decide
      have h2 : kindMax UA_TYPES_INT64 = 2 ^ 63 - 1 := by decide
      rw [h1, h2] at hv
      refine key (.scalar (.int64 v)) (fun h => absurd h (by decide)) ?_ rfl rfl
      show (NUM2LL ext (.int v)).bind _ = _
      rw [NUM2LL_int_eq, if_pos hv]; rfl
    · have h1 : kindMin UA_TYPES_UINT64 = 0 := by decide
      have h2 : kindMax UA_TYPES_UINT64 = 2 ^ 64 - 1 := by decide
      rw [h1, h2] at hv
      refine key (.scalar (.uint64 (wrapUnsigned 64 v))) (fun h => absurd h (by decide)) ?_ rfl ?_
      · show (NUM2ULL ext (.int v)).bind _ = _
        rw [NUM2ULL_int_eq, if_pos (by omega)]; rfl
      · show Outcome.ok (INT2NUM (wrapUnsigned 64 v)) = _
        rw [INT2NUM, wrapUnsigned_of_range 64 v hv]
  · exact key (.scalar (.boolean true)) (fun h => absurd h (by decide)) rfl rfl rfl
  · exact key (.scalar (.boolean false)) (fun h => absurd h (by decide)) rfl rfl rfl

/-- C7, concrete runs at the bounds: the greatest UInt64 (written, and read
back by evaluation), the least SByte and the Boolean `false`. -/
theorem C7_scalar_write_then_read_witness :
    (∃ value,
      (rb_writeUaValue sampleExternal (goodClient (.scalar (.uint64 18446744073709551615)))
          (.int 5) (.str (cstr "uint64a")) (.int 18446744073709551615) UA_TYPES_UINT64).calls
        = [StackCall.writeValueAttribute (UA_NODEID_STRING 5 (cstr "uint64a")) value] ∧
      UA_Variant_hasScalarType value UA_TYPES_UINT64 = true ∧
      ((goodClient (.scalar (.uint64 18446744073709551615))).readValueAttribute
          (UA_NODEID_STRING 5 (cstr "uint64a")) = (UA_STATUSCODE_GOOD, value) →
        (rb_readUaValue sampleExternal (goodClient (.scalar (.uint64 18446744073709551615)))
          (.int 5) (.str (cstr "uint64a")) UA_TYPES_UINT64).outcome
          = .ok (.int 18446744073709551615))) ∧
    (rb_readUaValue sampleExternal (goodClient (.scalar (.uint64 18446744073709551615)))
        (.int 5) (.str (cstr "uint64a")) UA_TYPES_UINT64).outcome
      = .ok (.int 18446744073709551615) ∧
    (∃ value,
      (rb_writeUaValue sampleExternal (goodClient (.scalar (.sbyte (-128))))
          (.int 5) (.str (cstr "sbyte_min")) (.int (-128)) UA_TYPES_SBYTE).calls
        = [StackCall.writeValueAttribute (UA_NODEID_STRING 5 (cstr "sbyte_min")) value] ∧
      UA_Variant_hasScalarType value UA_TYPES_SBYTE = true ∧
      ((goodClient (.scalar (.sbyte (-128)))).readValueAttribute
          (UA_NODEID_STRING 5 (cstr "sbyte_min")) = (UA_STATUSCODE_GOOD, value) →
        (rb_readUaValue sampleExternal (goodClient (.scalar (.sbyte (-128))))
          (.int 5) (.str (cstr "sbyte_min")) UA_TYPES_SBYTE).outcome = .ok (.int (-128)))) ∧
    (∃ value,
      (rb_writeUaValue sampleExternal (goodClient (.scalar (.boolean false)))
          (.int 5) (.str (cstr "false_var")) .false UA_TYPES_BOOLEAN).calls
        = [StackCall.writeValueAttribute (UA_NODEID_STRING 5 (cstr "false_var")) value] ∧
      UA_Variant_hasScalarType value UA_TYPES_BOOLEAN = true ∧
      ((goodClient (.scalar (.boolean false))).readValueAttribute
          (UA_NODEID_STRING 5 (cstr "false_var")) = (UA_STATUSCODE_GOOD, value) →
        (rb_readUaValue sampleExternal (goodClient (.scalar (.boolean false)))
          (.int 5) (.str (cstr "false_var")) UA_TYPES_BOOLEAN).outcome = .ok .false)) :=
  ⟨C7_scalar_write_then_read sampleExternal _ 5 (cstr "uint64a") UA_TYPES_UINT64
      (.int 18446744073709551615) (by norm_num) (by decide)
      (Or.inl ⟨by decide, 18446744073709551615, rfl, by decide, by decide⟩),
   by decide,
   C7_scalar_write_then_read sampleExternal _ 5 (cstr "sbyte_min") UA_TYPES_SBYTE
      (.int (-128)) (by norm_num) (by decide)
      (Or.inl ⟨by decide, -128, rfl, by decide, by decide⟩),
   C7_scalar_write_then_read sampleExternal _ 5 (cstr "false_var") UA_TYPES_BOOLEAN
      .false (by norm_num) (by decide) (Or.inr ⟨rfl, Or.inr rfl⟩)⟩
/-! ### Auxiliary facts: runs of the array write and of the array read -/

/-- When every element converts to a payload that reads back as the element,
the loop of an array write returns payloads that read back as the elements. -/
theorem rb_writeUaArrayValue_loop_reads_back {α : Type} (conv : RValue → Outcome α)
    (back : α → RValue) (elems : List RValue)
    (h : ∀ x ∈ elems, ∃ y, conv x = .ok y ∧ back y = x) :
    ∃ ys, rb_writeUaArrayValue.loop conv elems = .ok ys ∧ ys.map back = elems ∧
      ys.length = elems.length := by
  induction elems with
  | nil => exact ⟨[], rfl, rfl, rfl⟩
  | cons x rest ih =>
    obtain ⟨y, hy, hback⟩ := h x (List.mem_cons_self x rest)
    obtain ⟨ys, hys, hmap, hlen⟩ := ih (fun z hz => h z (List.mem_cons_of_mem x hz))
    refine ⟨y :: ys, ?_, ?_, ?_⟩
    · unfold rb_writeUaArrayValue.loop
      rw [hy, hys]
      rfl
    · simp [hback, hmap]
    · simp [hlen]

/-- An array write with a valid namespace index and name, whose Variant can be
built, sends exactly one write request carrying that Variant. -/
theorem rb_writeUaArrayValue_run (ext : External) (client : UA_Client) (n : Int)
    (name : List Nat) (elems : List RValue) (uaType : Nat) (value : UA_Variant)
    (hn : -(2 ^ 31) ≤ n ∧ n ≤ 2 ^ 31 - 1) (hname : 0 ∉ name)
    (hvalue : rb_writeUaArrayValue.value ext uaType elems = .ok value) :
    rb_writeUaArrayValue ext client (.int n) (.str name) (.ary elems) uaType =
      { calls := [StackCall.writeValueAttribute (UA_NODEID_STRING (wrapSigned 16 n) name) value]
        outcome :=
          if client.writeValueAttribute (UA_NODEID_STRING (wrapSigned 16 n) name) value
              ≠ UA_STATUSCODE_GOOD then
            raise_ua_status_error ext
              (client.writeValueAttribute (UA_NODEID_STRING (wrapSigned 16 n) name) value)
          else .ok .nil } := by
  unfold rb_writeUaArrayValue
  have hct : Check_Type (.ary elems) .T_ARRAY = .ok () := rfl
  simp only [NUM2INT_int ext n hn, StringValueCStr_str name hname, hct, hvalue, Outcome.bind]

/-- An array read with a valid namespace index and name sends one read request
and decodes the Variant returned with a good status. -/
theorem rb_readUaArrayValue_run (ext : External) (client : UA_Client) (n : Int)
    (name : List Nat) (type : Nat) (hn : -(2 ^ 31) ≤ n ∧ n ≤ 2 ^ 31 - 1) (hname : 0 ∉ name) :
    rb_readUaArrayValue ext client (.int n) (.str name) type =
      { calls := [StackCall.readValueAttribute (UA_NODEID_STRING (wrapSigned 16 n) name)]
        outcome :=
          if (client.readValueAttribute (UA_NODEID_STRING (wrapSigned 16 n) name)).1
              ≠ UA_STATUSCODE_GOOD then .raise (.cError "Could not read node")
          else rb_readUaArrayValue.decode ext type
            (client.readValueAttribute (UA_NODEID_STRING (wrapSigned 16 n) name)).2 } := by
  unfold rb_readUaArrayValue
  simp only [NUM2INT_int ext n hn, StringValueCStr_str name hname, Outcome.bind]

/-! ### C8: an array written is read back unchanged -/

/-- C8: for every integer kind or Boolean `K` and every list `hosts` of host
values in the range of `K` (integers of the range, or `true`/`false`), the
empty list included, the array write (called with a valid namespace index and
name) sends one write request whose Variant is an array of element kind `K`
with as many elements as `hosts` (for the empty list an empty array whose data
is the empty-array sentinel: the Variant is neither the null array nor the
empty Variant), and the array read for `K` of a node whose read returns that
Variant gives back a sequence equal to `hosts`, in the same order. -/
theorem C8_array_write_then_read (ext : External) (client : UA_Client) (n : Int)
    (name : List Nat) (K : Nat) (hosts : List RValue)
    (hn : -(2 ^ 31) ≤ n ∧ n ≤ 2 ^ 31 - 1) (hname : 0 ∉ name)
    (hhosts : (K ∈ integerKinds ∧
        ∀ h ∈ hosts, ∃ v : Int, h = .int v ∧ kindMin K ≤ v ∧ v ≤ kindMax K) ∨
      (K = UA_TYPES_BOOLEAN ∧ ∀ h ∈ hosts, h = .true ∨ h = .false)) :
    ∃ a : UA_Array,
      (rb_writeUaArrayValue ext client (.int n) (.str name) (.ary hosts) K).calls
        = [StackCall.writeValueAttribute (UA_NODEID_STRING (wrapSigned 16 n) name) (.array a)] ∧
      a.typeIndex = K ∧ a.length = hosts.length ∧
      (client.readValueAttribute (UA_NODEID_STRING (wrapSigned 16 n) name)
          = (UA_STATUSCODE_GOOD, .array a) →
        (rb_readUaArrayValue ext client (.int n) (.str name) K).outcome = .ok (.ary hosts)) := by
  have key : ∀ a : UA_Array, rb_writeUaArrayValue.value ext K hosts = .ok (.array a) →
      a.typeIndex = K → a.length = hosts.length →
      rb_readUaArrayValue.decode ext K (.array a) = .ok (.ary hosts) →
      ∃ a : UA_Array,
        (rb_writeUaArrayValue ext client (.int n) (.str name) (.ary hosts) K).calls
          = [StackCall.writeValueAttribute (UA_NODEID_STRING (wrapSigned 16 n) name)
              (.array a)] ∧
        a.typeIndex = K ∧ a.length = hosts.length ∧
        (client.readValueAttribute (UA_NODEID_STRING (wrapSigned 16 n) name)
            = (UA_STATUSCODE_GOOD, .array a) →
          (rb_readUaArrayValue ext client (.int n) (.str name) K).outcome
            = .ok (.ary hosts)) := by
    intro a hvalue htype hlen hdecode
    refine ⟨a, ?_, htype, hlen, ?_⟩
    · rw [rb_writeUaArrayValue_run ext client n name hosts K _ hn hname hvalue]
    · intro hread
      rw [rb_readUaArrayValue_run ext client n name K hn hname, hread]
      simpa [UA_STATUSCODE_GOOD] using hdecode
  rcases hhosts with ⟨hK, hv⟩ | ⟨rfl, hv⟩
  · simp only [integerKinds, List.mem_cons, List.mem_singleton, List.not_mem_nil, or_false] at hK
    rcases hK with rfl | rfl | rfl | rfl | rfl | rfl | rfl | rfl
    · have h1 : kindMin UA_TYPES_BYTE = 0 := by decide
      have h2 : kindMax UA_TYPES_BYTE = 2 ^ 8 - 1 := by decide
      rw [h1, h2] at hv
      obtain ⟨ys, hys, hmap, hlen⟩ := rb_writeUaArrayValue_loop_reads_back (NUM2CHR ext)
        (fun x : Nat => INT2NUM (Int.ofNat x)) hosts (by
          intro x hx
          obtain ⟨v, rfl, hr⟩ := hv x hx
          exact ⟨wrapUnsigned 8 v, by rw [NUM2CHR_int_eq, if_pos (by omega)],
            congrArg RValue.int (wrapUnsigned_of_range 8 v hr)⟩)
      refine key (.byte ys) ?_ rfl hlen ?_
      · show (rb_writeUaArrayValue.loop (NUM2CHR ext) hosts).bind _ = _
        rw [hys]; rfl
      · show Outcome.ok (RValue.ary (ys.map fun x => INT2NUM (Int.ofNat x))) = _
        rw [hmap]
    · have h1 : kindMin UA_TYPES_SBYTE = -(2 ^ 7) := by decide
      have h2 : kindMax UA_TYPES_SBYTE = 2 ^ 7 - 1 := by decide
      rw [h1, h2] at hv
      obtain ⟨ys, hys, hmap, hlen⟩ := rb_writeUaArrayValue_loop_reads_back
        (fun elem => (NUM2INT ext elem).bind fun n => .ok (wrapSigned 8 n))
        (fun x : Int => INT2NUM x) hosts (by
          intro x hx
          obtain ⟨v, rfl, hr⟩ := hv x hx
          refine ⟨v, ?_, rfl⟩
          simp only [NUM2INT_int_eq]
          rw [if_pos (by omega)]
          show Outcome.ok (wrapSigned 8 v) = _
          rw [wrapSigned_eight_of_range v hr])
      refine key (.sbyte ys) ?_ rfl hlen ?_
      · show (rb_writeUaArrayValue.loop
          (fun elem => (NUM2INT ext elem).bind fun n => .ok (wrapSigned 8 n)) hosts).bind _ = _
        rw [hys]; rfl
      · show Outcome.ok (RValue.ary (ys.map fun x => INT2NUM x)) = _
        rw [hmap]
    · have h1 : kindMin UA_TYPES_INT16 = -(2 ^ 15) := by decide
      have h2 : kindMax UA_TYPES_INT16 = 2 ^ 15 - 1 := by decide
      rw [h1, h2] at hv
      obtain ⟨ys, hys, hmap, hlen⟩ := rb_writeUaArrayValue_loop_reads_back (NUM2SHORT ext)
        (fun x : Int => INT2NUM x) hosts (by
          intro x hx
          obtain ⟨v, rfl, hr⟩ := hv x hx
          exact ⟨v, by rw [NUM2SHORT_int_eq, if_pos (by omega)], rfl⟩)
      refine key (.int16 ys) ?_ rfl hlen ?_
      · show (rb_writeUaArrayValue.loop (NUM2SHORT ext) hosts).bind _ = _
        rw [hys]; rfl
      · show Outcome.ok (RValue.ary (ys.map fun x => INT2NUM x)) = _
        rw [hmap]
    · have h1 : kindMin UA_TYPES_UINT16 = 0 := by decide
      have h2 : kindMax UA_TYPES_UINT16 = 2 ^ 16 - 1 := by decide
      rw [h1, h2] at hv
      obtain ⟨ys, hys, hmap, hlen⟩ := rb_writeUaArrayValue_loop_reads_back (NUM2USHORT ext)
        (fun x : Nat => INT2NUM (Int.ofNat x)) hosts (by
          intro x hx
          obtain ⟨v, rfl, hr⟩ := hv x hx
          exact ⟨wrapUnsigned 16 v, by rw [NUM2USHORT_int_eq, if_pos (by omega)],
            congrArg RValue.int (wrapUnsigned_of_range 16 v hr)⟩)
      refine key (.uint16 ys) ?_ rfl hlen ?_
      · show (rb_writeUaArrayValue.loop (NUM2USHORT ext) hosts).bind _ = _
        rw [hys]; rfl
      · show Outcome.ok (RValue.ary (ys.map fun x => INT2NUM (Int.ofNat x))) = _
        rw [hmap]
    · have h1 : kindMin UA_TYPES_INT32 = -(2 ^ 31) := by decide
      have h2 : kindMax UA_TYPES_INT32 = 2 ^ 31 - 1 := by decide
      rw [h1, h2] at hv
      obtain ⟨ys, hys, hmap, hlen⟩ := rb_writeUaArrayValue_loop_reads_back (NUM2INT ext)
        (fun x : Int => INT2NUM x) hosts (by
          intro x hx
          obtain ⟨v, rfl, hr⟩ := hv x hx
          exact ⟨v, by rw [NUM2INT_int_eq, if_pos (by omega)], rfl⟩)
      refine key (.int32 ys) ?_ rfl hlen ?_
      · show (rb_writeUaArrayValue.loop (NUM2INT ext) hosts).bind _ = _
        rw [hys]; rfl
      · show Outcome.ok (RValue.ary (ys.map fun x => INT2NUM x)) = _
        rw [hmap]
    · have h1 : kindMin UA_TYPES_UINT32 = 0 := by decide
      have h2 : kindMax UA_TYPES_UINT32 = 2 ^ 32 - 1 := by decide
      rw [h1, h2] at hv
      obtain ⟨ys, hys, hmap, hlen⟩ := rb_writeUaArrayValue_loop_reads_back (NUM2UINT ext)
        (fun x : Nat => INT2NUM (Int.ofNat x)) hosts (by
          intro x hx
          obtain ⟨v, rfl, hr⟩ := hv x hx
          exact ⟨wrapUnsigned 32 v, by rw [NUM2UINT_int_eq, if_pos (by omega)],
            congrArg RValue.int (wrapUnsigned_of_range 32 v hr)⟩)
      refine key (.uint32 ys) ?_ rfl hlen ?_
      · show (rb_writeUaArrayValue.loop (NUM2UINT ext) hosts).bind _ = _
        rw [hys]; rfl
      · show Outcome.ok (RValue.ary (ys.map fun x => INT2NUM (Int.ofNat x))) = _
        rw [hmap]
    · have h1 : kindMin UA_TYPES_INT64 = -(2 ^ 63) := by decide
      have h2 : kindMax UA_TYPES_INT64 = 2 ^ 63 - 1 := by decide
      rw [h1, h2] at hv
      obtain ⟨ys, hys, hmap, hlen⟩ := rb_writeUaArrayValue_loop_reads_back (NUM2LL ext)
        (fun x : Int => INT2NUM x) hosts (by
          intro x hx
          obtain ⟨v, rfl, hr⟩ := hv x hx
          exact ⟨v, by rw [NUM2LL_int_eq, if_pos (by omega)], rfl⟩)
      refine key (.int64 ys) ?_ rfl hlen ?_
      · show (rb_writeUaArrayValue.loop (NUM2LL ext) hosts).bind _ = _
        rw [hys]; rfl
      · show Outcome.ok (RValue.ary (ys.map fun x => INT2NUM x)) = _
        rw [hmap]
    · have h1 : kindMin UA_TYPES_UINT64 = 0 := by decide
      have h2 : kindMax UA_TYPES_UINT64 = 2 ^ 64 - 1 := by decide
      rw [h1, h2] at hv
      obtain ⟨ys, hys, hmap, hlen⟩ := rb_writeUaArrayValue_loop_reads_back (NUM2ULL ext)
        (fun x : Nat => INT2NUM (Int.ofNat x)) hosts (by
          intro x hx
          obtain ⟨v, rfl, hr⟩ := hv x hx
          exact ⟨wrapUnsigned 64 v, by rw [NUM2ULL_int_eq, if_pos (by omega)],
            congrArg RValue.int (wrapUnsigned_of_range 64 v hr)⟩)
      refine key (.uint64 ys) ?_ rfl hlen ?_
      · show (rb_writeUaArrayValue.loop (NUM2ULL ext) hosts).bind _ = _
        rw [hys]; rfl
      · show Outcome.ok (RValue.ary (ys.map fun x => INT2NUM (Int.ofNat x))) = _
        rw [hmap]
  · obtain ⟨ys, hys, hmap, hlen⟩ := rb_writeUaArrayValue_loop_reads_back
      (fun elem => Outcome.ok (RTEST elem))
      (fun x : Bool => if x then RValue.true else RValue.false) hosts (by
        intro x hx
        rcases hv x hx with rfl | rfl
        · exact ⟨true, rfl, rfl⟩
        · exact ⟨false, rfl, rfl⟩)
    refine key (.boolean ys) ?_ rfl hlen ?_
    · show (rb_writeUaArrayValue.loop (fun elem => Outcome.ok (RTEST elem)) hosts).bind _ = _
      rw [hys]; rfl
    · show Outcome.ok (RValue.ary (ys.map fun x => if x then RValue.true else RValue.false)) = _
      rw [hmap]

/-- C8, concrete runs: the empty list as an Int32 array (the Variant sent is
the empty array, which reads back as an empty sequence) and the two bounds of
UInt32 as a UInt32 array. -/
theorem C8_array_write_then_read_witness :
    (∃ a : UA_Array,
      (rb_writeUaArrayValue sampleExternal (goodClient (.array (.int32 []))) (.int 5)
          (.str (cstr "int32_array_empty")) (.ary []) UA_TYPES_INT32).calls
        = [StackCall.writeValueAttribute
            (UA_NODEID_STRING (wrapSigned 16 5) (cstr "int32_array_empty")) (.array a)] ∧
      a.typeIndex = UA_TYPES_INT32 ∧ a.length = ([] : List RValue).length ∧
      ((goodClient (.array (.int32 []))).readValueAttribute
          (UA_NODEID_STRING (wrapSigned 16 5) (cstr "int32_array_empty"))
          = (UA_STATUSCODE_GOOD, .array a) →
        (rb_readUaArrayValue sampleExternal (goodClient (.array (.int32 []))) (.int 5)
          (.str (cstr "int32_array_empty")) UA_TYPES_INT32).outcome = .ok (.ary []))) ∧
    rb_writeUaArrayValue sampleExternal (goodClient (.array (.int32 []))) (.int 5)
        (.str (cstr "int32_array_empty")) (.ary []) UA_TYPES_INT32
      = ⟨[StackCall.writeValueAttribute ⟨5, cstr "int32_array_empty"⟩ (.array (.int32 []))],
          .ok .nil⟩ ∧
    (rb_readUaArrayValue sampleExternal (goodClient (.array (.int32 []))) (.int 5)
        (.str (cstr "int32_array_empty")) UA_TYPES_INT32).outcome = .ok (.ary []) ∧
    (∃ a : UA_Array,
      (rb_writeUaArrayValue sampleExternal (goodClient (.array (.uint32 [0, 4294967295])))
          (.int 5) (.str (cstr "uint32_array")) (.ary [.int 0, .int 4294967295])
          UA_TYPES_UINT32).calls
        = [StackCall.writeValueAttribute
            (UA_NODEID_STRING (wrapSigned 16 5) (cstr "uint32_array")) (.array a)] ∧
      a.typeIndex = UA_TYPES_UINT32 ∧
      a.length = ([.int 0, .int 4294967295] : List RValue).length ∧
      ((goodClient (.array (.uint32 [0, 4294967295]))).readValueAttribute
          (UA_NODEID_STRING (wrapSigned 16 5) (cstr "uint32_array"))
          = (UA_STATUSCODE_GOOD, .array a) →
        (rb_readUaArrayValue sampleExternal (goodClient (.array (.uint32 [0, 4294967295])))
          (.int 5) (.str (cstr "uint32_array")) UA_TYPES_UINT32).outcome
          = .ok (.ary [.int 0, .int 4294967295]))) ∧
    (rb_readUaArrayValue sampleExternal (goodClient (.array (.uint32 [0, 4294967295])))
        (.int 5) (.str (cstr "uint32_array")) UA_TYPES_UINT32).outcome
      = .ok (.ary [.int 0, .int 4294967295]) :=
  ⟨C8_array_write_then_read sampleExternal _ 5 (cstr "int32_array_empty") UA_TYPES_INT32 []
      (by norm_num) (by decide) (Or.inl ⟨by decide, fun h hh => absurd hh (List.not_mem_nil h)⟩),
   by decide, by decide,
   C8_array_write_then_read sampleExternal _ 5 (cstr "uint32_array") UA_TYPES_UINT32
      [.int 0, .int 4294967295] (by norm_num) (by decide)
      (Or.inl ⟨by decide, by
        intro h hh
        simp only [List.mem_cons, List.mem_singleton, List.not_mem_nil, or_false] at hh
        rcases hh with rfl | rfl
        · exact ⟨0, rfl, by decide, by decide⟩
        · exact ⟨4294967295, rfl, by decide, by decide⟩⟩),
   by decide⟩
/-! ### C9: a String is read with its exact bytes -/

/-- C9: when the read of the node returns, with a good status, a String scalar
Variant whose payload is the byte sequence `b` (of any length, NUL bytes
included), the typed String read returns the host string made of exactly the
bytes of `b`. -/
theorem C9_string_read_keeps_all_bytes (ext : External) (client : UA_Client)
    (n : Int) (name : List Nat) (b : List Nat)
    (hn : -(2 ^ 31) ≤ n ∧ n ≤ 2 ^ 31 - 1) (hname : 0 ∉ name)
    (hread : client.readValueAttribute (UA_NODEID_STRING n name)
      = (UA_STATUSCODE_GOOD, UA_Variant.scalar (.string b))) :
    (rb_readUaValue ext client (.int n) (.str name) UA_TYPES_STRING).outcome
      = .ok (.str b) := by
  rw [rb_readUaValue_run ext client n name _ hn hname, hread]
  rfl

/-- C9, a concrete run: the five bytes `a`, NUL, `b`, NUL, NUL are read as a
host string of five bytes. -/
theorem C9_string_read_keeps_all_bytes_witness :
    (rb_readUaValue sampleExternal (goodClient (.scalar (.string [97, 0, 98, 0, 0]))) (.int 5)
        (.str (cstr "string_test")) UA_TYPES_STRING).outcome
      = .ok (.str [97, 0, 98, 0, 0]) :=
  C9_string_read_keeps_all_bytes sampleExternal _ 5 (cstr "string_test") [97, 0, 98, 0, 0]
    (by norm_num) (by decide) rfl
/-! ### C10: a data change of a UInt32 node -/

/-- C10 (counterexample to the claim as stated): the reference server defines
(ns=5, "uint32b") as a UInt32 variable; a data-change notification carrying
the new value 4242 of such a node, handled with an observer registered, calls
the observer once with subscription 3 and monitored item 9, but the decoded
value it passes is `nil`, not 4242. -/
theorem C10_uint32_change_decoded_as_nil :
    addVariableV2 5 UA_TYPES_UINT32 "uint32b" 1000 ∈ addVariables ∧
    addVariableV2 5 UA_TYPES_UINT32 "uint32b" 1000
      = .ok (some ⟨⟨5, cstr "uint32b"⟩, .scalar (.uint32 1000)⟩) ∧
    handler_dataChanged sampleExternal ⟨none, some 1⟩ 3 9 (dataValue (.scalar (.uint32 4242)) 0)
      = [⟨1, [.int 3, .int 9, .nil, .nil, .nil]⟩] ∧
    RValue.nil ≠ RValue.int 4242 := by
  refine ⟨by decide, by decide, by decide, by decide⟩

/-- C10 (amended): when a data-change notification carrying a UInt32 scalar
`v` (the type of node (ns=5, "uint32b") of the reference server) is dispatched
by `handler_dataChanged` with an observer registered, the observer is called
exactly once, with the subscription id, the monitored item id, the two
timestamps (`nil` when absent) and, as decoded value, `nil`: UInt32 is not one
of the kinds the data-change path decodes. -/
theorem C10_uint32_change_calls_observer_once_with_nil (ext : External) (self : RubyClient)
    (callback subId monId v : Nat) (value : UA_DataValue)
    (hobs : self.callback_after_data_changed = some callback)
    (hval : value.value = .scalar (.uint32 v)) :
    handler_dataChanged ext self subId monId value =
      [⟨callback,
        [.int subId, .int monId,
         if value.hasServerTimestamp then toRubyTime ext value.serverTimestamp else .nil,
         if value.hasSourceTimestamp then toRubyTime ext value.sourceTimestamp else .nil,
         .nil]⟩] := by
  unfold handler_dataChanged
  rw [hobs, hval]
  simp [hasScalarType_scalar, UA_Scalar.typeIndex, INT2NUM, UA_TYPES_DATETIME, UA_TYPES_INT32,
    UA_TYPES_INT16, UA_TYPES_BOOLEAN, UA_TYPES_FLOAT, UA_TYPES_UINT32]

/-- C10 (amended), a concrete run on the value 4242. -/
theorem C10_uint32_change_calls_observer_once_with_nil_witness :
    handler_dataChanged sampleExternal ⟨none, some 1⟩ 3 9 (dataValue (.scalar (.uint32 4242)) 0)
      = [⟨1, [.int 3, .int 9, .nil, .nil, .nil]⟩] :=
  C10_uint32_change_calls_observer_once_with_nil sampleExternal ⟨none, some 1⟩ 1 3 9 4242
    (dataValue (.scalar (.uint32 4242)) 0) rfl rfl

/-! ### Auxiliary facts: the run of the data-change handler -/

/-- The call that `handler_dataChanged` makes when an observer is registered:
for every Variant the observer is called once, and the value passed last is
the `Time` of `toRubyTime` for a DateTime scalar, the Integer for an Int32 or
Int16 scalar, `true` or `false` for a Boolean scalar, the Float for a Float
scalar, and `nil` for every other Variant. -/
theorem handler_dataChanged_run (ext : External) (self : RubyClient)
    (callback subId monId : Nat) (value : UA_DataValue)
    (hobs : self.callback_after_data_changed = some callback) :
    handler_dataChanged ext self subId monId value =
      [⟨callback,
        [.int subId, .int monId,
         if value.hasServerTimestamp then toRubyTime ext value.serverTimestamp else .nil,
         if value.hasSourceTimestamp then toRubyTime ext value.sourceTimestamp else .nil,
         match value.value with
         | .scalar (.dateTime t) => toRubyTime ext t
         | .scalar (.int32 i) => .int i
         | .scalar (.int16 i) => .int i
         | .scalar (.boolean b) => if b then .true else .false
         | .scalar (.float f) => .float (ext.floatToDouble f)
         | _ => .nil]⟩] := by
  unfold handler_dataChanged
  rw [hobs]
  cases hv : value.value with
  | scalar s =>
    cases s <;>
      simp [hasScalarType_scalar, UA_Scalar.typeIndex, INT2NUM, DBL2NUM, UA_TYPES_DATETIME,
        UA_TYPES_INT32, UA_TYPES_INT16, UA_TYPES_BOOLEAN, UA_TYPES_FLOAT, UA_TYPES_UINT32,
        UA_TYPES_SBYTE, UA_TYPES_BYTE, UA_TYPES_UINT16, UA_TYPES_INT64, UA_TYPES_UINT64,
        UA_TYPES_DOUBLE, UA_TYPES_STRING]
  | empty => simp [UA_Variant_hasScalarType, UA_Variant_isScalar, INT2NUM]
  | array a => simp [UA_Variant_hasScalarType, UA_Variant_isScalar, INT2NUM]
  | nullArray t => simp [UA_Variant_hasScalarType, UA_Variant_isScalar, INT2NUM]

/-! ### C11: the untyped decode of the data-change path -/

/-- C11 (evaluation of the code at the failing input): a data change carrying
the DateTime scalar 5000000, whose decomposition is 1601-01-01 00:00:00 and
500 ms, is handled with an observer registered.  The observer is called once,
and the decoded value it receives is the `Time` 1601-01-01 00:00:00.000500,
not the host value of that timestamp, 1601-01-01 00:00:00.500000: the decode
goes through `toRubyTime`, which gives the milliseconds to `Time.gm` as
microseconds. -/
theorem C11_datetime_change_decoded_with_wrong_subsecond :
    handler_dataChanged halfSecondExternal ⟨none, some 1⟩ 3 9
        (dataValue (.scalar (.dateTime 5000000)) 0)
      = [⟨1, [.int 3, .int 9, .nil, .nil, .time 1601 1 1 0 0 0 500]⟩] ∧
    instantOfDecomposition (halfSecondExternal.UA_DateTime_toStruct 5000000)
      = .time 1601 1 1 0 0 0 500000 ∧
    RValue.time 1601 1 1 0 0 0 500 ≠ RValue.time 1601 1 1 0 0 0 500000 := by
  refine ⟨by decide, by decide, by decide⟩

/-! ### C12: the array read rejects a scalar -/

/-- C12: for every kind `K` and every scalar Variant (whatever its tag, the tag
`K` included), the array read for `K`, called with a valid namespace index and
name on a node whose read returns that scalar with a good status, ends with
the error "Expected array but got scalar value" and returns no sequence. -/
theorem C12_array_read_rejects_scalar (ext : External) (client : UA_Client)
    (n : Int) (name : List Nat) (K : Nat) (s : UA_Scalar)
    (hn : -(2 ^ 31) ≤ n ∧ n ≤ 2 ^ 31 - 1) (hname : 0 ∉ name)
    (hread : client.readValueAttribute (UA_NODEID_STRING (wrapSigned 16 n) name)
      = (UA_STATUSCODE_GOOD, UA_Variant.scalar s)) :
    (rb_readUaArrayValue ext client (.int n) (.str name) K).outcome
      = .raise (.cError "Expected array but got scalar value") := by
  rw [rb_readUaArrayValue_run ext client n name K hn hname, hread]
  simp only [ne_eq, not_true_eq_false, if_false]
  rfl

/-- C12, a concrete run: the Int32 array read of a node holding the Int32
scalar 7 fails with the shape error. -/
theorem C12_array_read_rejects_scalar_witness :
    (rb_readUaArrayValue sampleExternal (goodClient (.scalar (.int32 7))) (.int 5)
        (.str (cstr "int32a")) UA_TYPES_INT32).outcome
      = .raise (.cError "Expected array but got scalar value") :=
  C12_array_read_rejects_scalar sampleExternal (goodClient (.scalar (.int32 7))) 5
    (cstr "int32a") UA_TYPES_INT32 (.int32 7) (by norm_num) (by decide) rfl

/-! ### C13: the scalar read rejects an array -/

/-- The scalar decode of a Variant that is not a scalar is a type mismatch. -/
theorem decode_not_scalar_mismatch (ext : External) (K : Nat) (value : UA_Variant)
    (h : UA_Variant_isScalar value = false) :
    rb_readUaValue.decode ext K value = .raise (.cError "UA type mismatch") := by
  unfold rb_readUaValue.decode
  simp [UA_Variant_hasScalarType, h]

/-- C13: for every kind `K` and every array Variant (an empty array and an
array whose elements are of kind `K` included), the scalar read for `K`,
called with a valid namespace index and name on a node whose read returns that
array with a good status, ends with the error "UA type mismatch": it returns no
value, neither the first element nor anything else made from the array. -/
theorem C13_scalar_read_rejects_array (ext : External) (client : UA_Client)
    (n : Int) (name : List Nat) (K : Nat) (a : UA_Array)
    (hn : -(2 ^ 31) ≤ n ∧ n ≤ 2 ^ 31 - 1) (hname : 0 ∉ name)
    (hread : client.readValueAttribute (UA_NODEID_STRING n name)
      = (UA_STATUSCODE_GOOD, UA_Variant.array a)) :
    (rb_readUaValue ext client (.int n) (.str name) K).outcome
      = .raise (.cError "UA type mismatch") := by
  rw [rb_readUaValue_run ext client n name K hn hname, hread]
  simp only [if_true]
  exact decode_not_scalar_mismatch ext K (.array a) rfl

/-- C13, concrete runs: the Int32 scalar read of a node holding the Int32 array
`[1, 2, 3]`, and of a node holding an empty Int32 array, fail with "UA type
mismatch". -/
theorem C13_scalar_read_rejects_array_witness :
    (rb_readUaValue sampleExternal (goodClient (.array (.int32 [1, 2, 3]))) (.int 5)
        (.str (cstr "int32_array")) UA_TYPES_INT32).outcome
      = .raise (.cError "UA type mismatch") ∧
    (rb_readUaValue sampleExternal (goodClient (.array (.int32 []))) (.int 5)
        (.str (cstr "int32_array_empty")) UA_TYPES_INT32).outcome
      = .raise (.cError "UA type mismatch") :=
  ⟨C13_scalar_read_rejects_array sampleExternal (goodClient (.array (.int32 [1, 2, 3]))) 5
      (cstr "int32_array") UA_TYPES_INT32 (.int32 [1, 2, 3]) (by norm_num) (by decide) rfl,
   C13_scalar_read_rejects_array sampleExternal (goodClient (.array (.int32 []))) 5
      (cstr "int32_array_empty") UA_TYPES_INT32 (.int32 []) (by norm_num) (by decide) rfl⟩

/-! ### C14: the values returned by the batched read -/

theorem rb_readUaValues_nodes_of_strings (nsIndex : Int) (names : List (List Nat))
    (hnames : ∀ nm ∈ names, 0 ∉ nm) :
    rb_readUaValues.nodes nsIndex (names.map RValue.str)
      = .ok (names.map (UA_NODEID_STRING nsIndex)) := by
  induction names with
  | nil => rfl
  | cons nm rest ih =>
    have h1 : 0 ∉ nm := hnames nm (List.mem_cons_self nm rest)
    have h2 := ih (fun x hx => hnames x (List.mem_cons_of_mem nm hx))
    simp only [List.map_cons]
    unfold rb_readUaValues.nodes
    rw [if_neg (by simp [RB_TYPE_P, rb_type]), StringValueCStr_str nm h1, h2]
    rfl

/-- A batched read with a valid namespace index and valid names sends one read
request for the nodes of the names, in the order of the names, and continues
with the status and the values of `multiRead`. -/
theorem rb_readUaValues_run_of_strings (ext : External) (client : UA_Client) (n : Int)
    (names : List (List Nat)) (hn : -(2 ^ 31) ≤ n ∧ n ≤ 2 ^ 31 - 1)
    (hnames : ∀ nm ∈ names, 0 ∉ nm) :
    rb_readUaValues ext client (.int n) (.ary (names.map RValue.str)) =
      { calls := [StackCall.Service_read (names.map (UA_NODEID_STRING n))]
        outcome :=
          (multiRead client (names.map (UA_NODEID_STRING n))).outcome.bind
            fun (status, readValues) =>
              if status = UA_STATUSCODE_GOOD then
                .ok (.ary (readValues.map (rb_readUaValues.decode ext)))
              else raise_ua_status_error ext status } := by
  have hfix : rb_type (.int n) = .T_FIXNUM := rb_type_fixnum n (by constructor <;> omega)
  unfold rb_readUaValues
  rw [if_neg (by simp [RB_TYPE_P, hfix])]
  simp only [FIX2INT, NUM2INT_int ext n hn, rb_readUaValues_nodes_of_strings n names hnames]
  rfl

/-- The batched read of a non-empty list of names whose response is fully good
returns the decoded values of the items, in the order of the names. -/
theorem multi_read_returns_decoded_values (ext : External) (client : UA_Client) (n : Int)
    (names : List (List Nat)) (hn : -(2 ^ 31) ≤ n ∧ n ≤ 2 ^ 31 - 1)
    (hnames : ∀ nm ∈ names, 0 ∉ nm) (hne : names ≠ [])
    (hservice : (client.Service_read (names.map (UA_NODEID_STRING n))).serviceResult
      = UA_STATUSCODE_GOOD)
    (hcount : (client.Service_read (names.map (UA_NODEID_STRING n))).results.length
      = names.length)
    (hitems : ∀ r ∈ (client.Service_read (names.map (UA_NODEID_STRING n))).results,
      r.status = UA_STATUSCODE_GOOD ∧ r.hasValue = true) :
    (rb_readUaValues ext client (.int n) (.ary (names.map RValue.str))).outcome =
      .ok (.ary ((client.Service_read (names.map (UA_NODEID_STRING n))).results.map
        fun r => rb_readUaValues.decode ext r.value)) := by
  rw [rb_readUaValues_run_of_strings ext client n names hn hnames]
  simp only []
  rw [multiRead_outcome]
  have hcount2 : (client.Service_read (names.map (UA_NODEID_STRING n))).results.length
      = (names.map (UA_NODEID_STRING n)).length := by simpa using hcount
  rw [if_neg (by simp [hservice]), if_neg (by simp [hcount2])]
  cases hres : (client.Service_read (names.map (UA_NODEID_STRING n))).results with
  | nil =>
    rw [hres] at hcount
    cases names with
    | nil => exact absurd rfl hne
    | cons a b => simp at hcount
  | cons r rest =>
    rw [hres] at hitems
    have hr := (hitems r (List.mem_cons_self r rest)).1
    have hany : (r :: rest).any
        (fun r => (r.hasStatus && r.status != UA_STATUSCODE_GOOD) || !r.hasValue) = false := by
      rw [List.any_eq_false]
      intro x hx
      have := hitems x hx
      simp [this.1, this.2]
    simp only [hr, ne_eq, not_true_eq_false, if_false, hany, Bool.false_eq_true, Outcome.bind,
      if_true, List.map_map]
    rfl

/-- The decode of the batched read on the six kinds it supports. -/
theorem rb_readUaValues_decode_supported (ext : External) :
    (∀ i, rb_readUaValues.decode ext (.scalar (.int16 i)) = .int i) ∧
    (∀ k : Nat, rb_readUaValues.decode ext (.scalar (.uint16 k)) = .int k) ∧
    (∀ i, rb_readUaValues.decode ext (.scalar (.int32 i)) = .int i) ∧
    (∀ k : Nat, rb_readUaValues.decode ext (.scalar (.uint32 k)) = .int k) ∧
    (∀ b, rb_readUaValues.decode ext (.scalar (.boolean b)) = if b then .true else .false) ∧
    (∀ f, rb_readUaValues.decode ext (.scalar (.float f)) = .float (ext.floatToDouble f)) :=
  ⟨fun _ => rfl, fun _ => rfl, fun _ => rfl, fun _ => rfl, fun _ => rfl, fun _ => rfl⟩

/-- C14 (evaluation of the code at the failing input, and at the example of the
claim): for the empty list of names and a fully good response (good service
result, no result for no name), `multi_read` does not return the empty array:
`multiRead` reads the status of `results[0]`, which does not exist, and the
outcome is undefined.  For the names `["uint32b", "uint16a"]` holding 4242 and 0
it returns `[4242, 0]`. -/
theorem C14_multi_read_of_no_name_is_undefined :
    (rb_readUaValues sampleExternal (constantClient (0, .empty) 0 ⟨0, []⟩ ⟨0, []⟩)
        (.int 5) (.ary [])).outcome = .undefined ∧
    (rb_readUaValues sampleExternal
        (constantClient (0, .empty) 0
          ⟨0, [dataValue (.scalar (.uint32 4242)) 0, dataValue (.scalar (.uint16 0)) 0]⟩ ⟨0, []⟩)
        (.int 5) (.ary [.str (cstr "uint32b"), .str (cstr "uint16a")])).outcome
      = .ok (.ary [.int 4242, .int 0]) := by
  constructor <;> decide

/-! ### C15: names and values of different lengths -/

/-- C15: every `multi_write` call whose list of names and list of new values
have different lengths ends with the error "Invalid arguments", and no request
is sent to the stack. -/
theorem C15_multi_write_length_mismatch (ext : External) (client : UA_Client)
    (v_nsIndex : RValue) (names newValues : List RValue) (uaType : Nat)
    (hlen : names.length ≠ newValues.length) :
    rb_writeUaValues ext client v_nsIndex (.ary names) (.ary newValues) uaType
      = ⟨[], .raise (.cError "Invalid arguments")⟩ := by
  unfold rb_writeUaValues
  split
  · rfl
  · simp only [if_pos hlen]
    rfl

/-- C15, a concrete run: two names and one value. -/
theorem C15_multi_write_length_mismatch_witness :
    rb_writeUaValues sampleExternal (goodClient .empty) (.int 5)
        (.ary [.str (cstr "uint16a"), .str (cstr "uint16b")]) (.ary [.int 1]) UA_TYPES_UINT16
      = ⟨[], .raise (.cError "Invalid arguments")⟩ :=
  C15_multi_write_length_mismatch sampleExternal (goodClient .empty) (.int 5)
    [.str (cstr "uint16a"), .str (cstr "uint16b")] [.int 1] UA_TYPES_UINT16 (by decide)

/-! ### C16: the status of a batched write -/

/-- The loop of `multiWrite` returns `retval` when every result is good, and
otherwise the first result that is not good. -/
theorem multiWrite_scan_cases (retval : Nat) (results : List Nat) :
    (multiWrite.scan retval results = retval ∧ ∀ r ∈ results, r = UA_STATUSCODE_GOOD) ∨
    (∃ pre post, results = pre ++ multiWrite.scan retval results :: post ∧
      multiWrite.scan retval results ≠ UA_STATUSCODE_GOOD ∧
      ∀ r ∈ pre, r = UA_STATUSCODE_GOOD) := by
  induction results with
  | nil => exact Or.inl ⟨rfl, fun r hr => absurd hr (List.not_mem_nil r)⟩
  | cons x rest ih =>
    unfold multiWrite.scan
    by_cases hx : x = UA_STATUSCODE_GOOD
    · rw [if_neg (by simpa using hx)]
      rcases ih with ⟨h1, h2⟩ | ⟨pre, post, h1, h2, h3⟩
      · refine Or.inl ⟨h1, ?_⟩
        intro r hr
        rcases List.mem_cons.mp hr with rfl | hr'
        · exact hx
        · exact h2 r hr'
      · refine Or.inr ⟨x :: pre, post, ?_, h2, ?_⟩
        · rw [List.cons_append, ← h1]
        · intro r hr
          rcases List.mem_cons.mp hr with rfl | hr'
          · exact hx
          · exact h3 r hr'
    · rw [if_pos hx]
      exact Or.inr ⟨[], rest, rfl, hx, fun r hr => absurd hr (List.not_mem_nil r)⟩

theorem multiWrite_calls (client : UA_Client) (items : List (UA_NodeId × UA_Variant)) :
    (multiWrite client items).calls = [StackCall.Service_write items] := rfl

/-- A call of `rb_writeUaValues` either raises before any request is sent, or
sends one batched write request and continues with the status of
`multiWrite`. -/
theorem rb_writeUaValues_run (ext : External) (client : UA_Client)
    (v_nsIndex v_aryNames v_aryNewValues : RValue) (uaType : Nat) :
    (∃ e, rb_writeUaValues ext client v_nsIndex v_aryNames v_aryNewValues uaType
      = ⟨[], .raise e⟩) ∨
    (∃ items,
      rb_writeUaValues ext client v_nsIndex v_aryNames v_aryNewValues uaType =
        { calls := [StackCall.Service_write items]
          outcome := (multiWrite client items).outcome.bind fun status =>
            if status = UA_STATUSCODE_GOOD then .ok .nil
            else raise_ua_status_error ext status }) := by
  unfold rb_writeUaValues
  split
  · exact Or.inl ⟨_, rfl⟩
  · split
    · split
      · exact Or.inl ⟨_, rfl⟩
      · rename_i names newValues _
        cases h1 : FIX2INT ext v_nsIndex with
        | ok nsIndex =>
          simp only []
          cases h2 : rb_writeUaValues.items ext nsIndex uaType names newValues with
          | ok items => exact Or.inr ⟨items, rfl⟩
          | raise e => exact Or.inl ⟨e, rfl⟩
          | undefined =>
            exact absurd h2 (rb_writeUaValues_items_ne_undefined ext nsIndex uaType names newValues)
        | raise e => exact Or.inl ⟨e, rfl⟩
        | undefined => exact absurd h1 (NUM2INT_ne_undefined ext v_nsIndex)
    · exact Or.inl ⟨_, rfl⟩

/-- C16: for every batched write of at least one item whose response has a good
service result and as many results as items, `multiWrite` returns a status that
is Good if and only if every per-item result is Good, and that is otherwise the
per-item result of smallest index that is not Good (every result before it is
Good); and a `multi_write` call that has sent this request returns `nil` when
that status is Good and raises the status error of that status otherwise. -/
theorem C16_multi_write_first_bad_status (ext : External) (client : UA_Client)
    (items : List (UA_NodeId × UA_Variant)) (hne : items ≠ [])
    (hservice : (client.Service_write items).serviceResult = UA_STATUSCODE_GOOD)
    (hcount : (client.Service_write items).results.length = items.length) :
    ∃ status, (multiWrite client items).outcome = .ok status ∧
      (status = UA_STATUSCODE_GOOD ↔
        ∀ r ∈ (client.Service_write items).results, r = UA_STATUSCODE_GOOD) ∧
      (status ≠ UA_STATUSCODE_GOOD →
        ∃ pre post, (client.Service_write items).results = pre ++ status :: post ∧
          ∀ r ∈ pre, r = UA_STATUSCODE_GOOD) ∧
      (∀ v_nsIndex v_aryNames v_aryNewValues uaType,
        (rb_writeUaValues ext client v_nsIndex v_aryNames v_aryNewValues uaType).calls
          = [StackCall.Service_write items] →
        (rb_writeUaValues ext client v_nsIndex v_aryNames v_aryNewValues uaType).outcome =
          if status = UA_STATUSCODE_GOOD then .ok .nil
          else .raise (.cErrorStatus status (ext.UA_StatusCode_name status))) := by
  cases hres : (client.Service_write items).results with
  | nil =>
    rw [hres] at hcount
    cases items with
    | nil => exact absurd rfl hne
    | cons a b => simp at hcount
  | cons r rest =>
    have hout : (multiWrite client items).outcome
        = .ok (multiWrite.scan r (r :: rest)) := by
      have hc2 : (r :: rest).length = items.length := by rw [← hres]; exact hcount
      unfold multiWrite
      simp only [hservice, if_true, hres, hc2]
    refine ⟨multiWrite.scan r (r :: rest), hout, ?_, ?_, ?_⟩
    · rcases multiWrite_scan_cases r (r :: rest) with ⟨h1, h2⟩ | ⟨pre, post, h1, h2, h3⟩
      · constructor
        · intro _; exact h2
        · intro _; rw [h1]; exact h2 r (List.mem_cons_self r rest)
      · constructor
        · intro h; exact absurd h h2
        · intro hall
          generalize multiWrite.scan r (r :: rest) = s at h1 h2 ⊢
          have hmem : s ∈ r :: rest := by rw [h1]; simp
          exact absurd (hall s hmem) h2
    · intro hbad
      rcases multiWrite_scan_cases r (r :: rest) with ⟨h1, h2⟩ | ⟨pre, post, h1, h2, h3⟩
      · exact absurd (by rw [h1]; exact h2 r (List.mem_cons_self r rest)) hbad
      · exact ⟨pre, post, h1, h3⟩
    · intro v_nsIndex v_aryNames v_aryNewValues uaType hcalls
      rcases rb_writeUaValues_run ext client v_nsIndex v_aryNames v_aryNewValues uaType with
        ⟨e, he⟩ | ⟨items', hrun⟩
      · rw [he] at hcalls
        cases hcalls
      · rw [hrun] at hcalls ⊢
        simp only [List.cons.injEq, StackCall.Service_write.injEq, and_true] at hcalls
        subst hcalls
        simp only [hout, Outcome.bind, raise_ua_status_error]

/-- C16, a concrete run: `multi_write_uint16` of three values whose per-item
results are Good, BadNodeIdUnknown and BadNotWritable; the status of
`multiWrite` is BadNodeIdUnknown, the first that is not Good, and the call
raises the status error of BadNodeIdUnknown. -/
theorem C16_multi_write_first_bad_status_witness :
    (∃ status,
      (multiWrite (constantClient (0, .empty) 0 ⟨0, []⟩ ⟨0, [0, 0x80340000, 0x803B0000]⟩)
        [(⟨5, cstr "uint16a"⟩, .scalar (.uint16 1)), (⟨5, cstr "uint16b"⟩, .scalar (.uint16 2)),
         (⟨5, cstr "uint16c"⟩, .scalar (.uint16 3))]).outcome = .ok status ∧
      (status = UA_STATUSCODE_GOOD ↔
        ∀ r ∈ ((constantClient (0, .empty) 0 ⟨0, []⟩
            ⟨0, [0, 0x80340000, 0x803B0000]⟩).Service_write
          [(⟨5, cstr "uint16a"⟩, .scalar (.uint16 1)), (⟨5, cstr "uint16b"⟩, .scalar (.uint16 2)),
           (⟨5, cstr "uint16c"⟩, .scalar (.uint16 3))]).results, r = UA_STATUSCODE_GOOD) ∧
      (status ≠ UA_STATUSCODE_GOOD →
        ∃ pre post, ((constantClient (0, .empty) 0 ⟨0, []⟩
            ⟨0, [0, 0x80340000, 0x803B0000]⟩).Service_write
          [(⟨5, cstr "uint16a"⟩, .scalar (.uint16 1)), (⟨5, cstr "uint16b"⟩, .scalar (.uint16 2)),
           (⟨5, cstr "uint16c"⟩, .scalar (.uint16 3))]).results = pre ++ status :: post ∧
          ∀ r ∈ pre, r = UA_STATUSCODE_GOOD)) ∧
    rb_writeUaValues sampleExternal
        (constantClient (0, .empty) 0 ⟨0, []⟩ ⟨0, [0, 0x80340000, 0x803B0000]⟩) (.int 5)
        (.ary [.str (cstr "uint16a"), .str (cstr "uint16b"), .str (cstr "uint16c")])
        (.ary [.int 1, .int 2, .int 3]) UA_TYPES_UINT16
      = ⟨[StackCall.Service_write
            [(⟨5, cstr "uint16a"⟩, .scalar (.uint16 1)),
             (⟨5, cstr "uint16b"⟩, .scalar (.uint16 2)),
             (⟨5, cstr "uint16c"⟩, .scalar (.uint16 3))]],
          .raise (.cErrorStatus 0x80340000 "BadNodeIdUnknown")⟩ :=
  ⟨(C16_multi_write_first_bad_status sampleExternal
      (constantClient (0, .empty) 0 ⟨0, []⟩ ⟨0, [0, 0x80340000, 0x803B0000]⟩)
      [(⟨5, cstr "uint16a"⟩, .scalar (.uint16 1)), (⟨5, cstr "uint16b"⟩, .scalar (.uint16 2)),
       (⟨5, cstr "uint16c"⟩, .scalar (.uint16 3))] (by decide) rfl rfl).imp
      (fun _ h => ⟨h.1, h.2.1, h.2.2.1⟩),
   by decide⟩

/-! ### C17: the arguments passed to the data-change observer -/

/-- C17: for every data-change notification handled while an observer is
registered, the observer is called exactly once, with five arguments in this
order: the subscription id and the monitored item id of the notification, the
server time, the source time and the decoded value.  The server time is `nil`
when the notification has no server timestamp and otherwise the `Time` that
`Time.gm` builds from the calendar decomposition of its server timestamp (the
milliseconds being the seventh argument), so it is `nil` exactly when there is
no server timestamp; the same holds of the source time and the source
timestamp; the decoded value is the decode of the value of the
notification. -/
theorem C17_observer_called_once_with_five_arguments (ext : External) (self : RubyClient)
    (callback subId monId : Nat) (value : UA_DataValue)
    (hobs : self.callback_after_data_changed = some callback) :
    ∃ serverTime sourceTime decodedValue,
      handler_dataChanged ext self subId monId value
        = [⟨callback, [.int subId, .int monId, serverTime, sourceTime, decodedValue]⟩] ∧
      serverTime =
        (if value.hasServerTimestamp then
          .time (wrapUnsigned 32 (ext.UA_DateTime_toStruct value.serverTimestamp).year)
            (ext.UA_DateTime_toStruct value.serverTimestamp).month
            (ext.UA_DateTime_toStruct value.serverTimestamp).day
            (ext.UA_DateTime_toStruct value.serverTimestamp).hour
            (ext.UA_DateTime_toStruct value.serverTimestamp).min
            (ext.UA_DateTime_toStruct value.serverTimestamp).sec
            (ext.UA_DateTime_toStruct value.serverTimestamp).milliSec
         else .nil) ∧
      sourceTime =
        (if value.hasSourceTimestamp then
          .time (wrapUnsigned 32 (ext.UA_DateTime_toStruct value.sourceTimestamp).year)
            (ext.UA_DateTime_toStruct value.sourceTimestamp).month
            (ext.UA_DateTime_toStruct value.sourceTimestamp).day
            (ext.UA_DateTime_toStruct value.sourceTimestamp).hour
            (ext.UA_DateTime_toStruct value.sourceTimestamp).min
            (ext.UA_DateTime_toStruct value.sourceTimestamp).sec
            (ext.UA_DateTime_toStruct value.sourceTimestamp).milliSec
         else .nil) ∧
      decodedValue =
        (match value.value with
         | .scalar (.dateTime t) =>
            .time (wrapUnsigned 32 (ext.UA_DateTime_toStruct t).year)
              (ext.UA_DateTime_toStruct t).month (ext.UA_DateTime_toStruct t).day
              (ext.UA_DateTime_toStruct t).hour (ext.UA_DateTime_toStruct t).min
              (ext.UA_DateTime_toStruct t).sec (ext.UA_DateTime_toStruct t).milliSec
         | .scalar (.int32 i) => .int i
         | .scalar (.int16 i) => .int i
         | .scalar (.boolean b) => if b then .true else .false
         | .scalar (.float f) => .float (ext.floatToDouble f)
         | _ => .nil) ∧
      (serverTime = .nil ↔ value.hasServerTimestamp = false) ∧
      (sourceTime = .nil ↔ value.hasSourceTimestamp = false) := by
  refine ⟨_, _, _, handler_dataChanged_run ext self callback subId monId value hobs, rfl, rfl,
    rfl, ?_, ?_⟩
  · cases value.hasServerTimestamp <;> simp [toRubyTime]
  · cases value.hasSourceTimestamp <;> simp [toRubyTime]

/-- C17, a concrete run: a notification of the Int32 value 7 with the source
timestamp 5000000 and no server timestamp; the observer gets the subscription
id 3, the monitored item id 9, `nil`, the `Time` built from the decomposition
of the source timestamp, and 7. -/
theorem C17_observer_called_once_with_five_arguments_witness :
    ∃ serverTime sourceTime decodedValue,
      handler_dataChanged halfSecondExternal ⟨none, some 1⟩ 3 9
          { dataValue (.scalar (.int32 7)) 0 with
            hasSourceTimestamp := true, sourceTimestamp := 5000000 }
        = [⟨1, [.int 3, .int 9, serverTime, sourceTime, decodedValue]⟩] ∧
      serverTime = .nil ∧
      sourceTime = .time 1601 1 1 0 0 0 500 ∧
      decodedValue = .int 7 ∧
      (serverTime = .nil ↔ false = false) ∧
      (sourceTime = .nil ↔ true = false) :=
  C17_observer_called_once_with_five_arguments halfSecondExternal ⟨none, some 1⟩ 1 3 9
    { dataValue (.scalar (.int32 7)) 0 with
      hasSourceTimestamp := true, sourceTimestamp := 5000000 } rfl

/-! ### C18: a notification without observer is dropped -/

/-- C18: a data-change notification handled while no observer is registered
calls no callback, and nothing of it is kept: whatever notifications are
delivered afterwards (with an observer registered by then or not), the procs
called are those called had the dropped notification never been delivered. -/
theorem C18_notification_without_observer_is_dropped (ext : External) (self : RubyClient)
    (subId monId : Nat) (value : UA_DataValue)
    (hobs : self.callback_after_data_changed = none) :
    handler_dataChanged ext self subId monId value = [] ∧
    ∀ later : List DataChange,
      deliverDataChanges ext (⟨self, subId, monId, value⟩ :: later)
        = deliverDataChanges ext later := by
  have h : handler_dataChanged ext self subId monId value = [] := by
    unfold handler_dataChanged
    rw [hobs]
  refine ⟨h, ?_⟩
  intro later
  simp only [deliverDataChanges, h, List.nil_append]

/-- C18, a concrete run: a change of value 7 is delivered with no observer,
then a change of value 8 with an observer registered; the observer is called
once, for the value 8. -/
theorem C18_notification_without_observer_is_dropped_witness :
    handler_dataChanged sampleExternal ⟨none, none⟩ 3 9 (dataValue (.scalar (.int32 7)) 0) = [] ∧
    deliverDataChanges sampleExternal
        [⟨⟨none, none⟩, 3, 9, dataValue (.scalar (.int32 7)) 0⟩,
         ⟨⟨none, some 1⟩, 3, 9, dataValue (.scalar (.int32 8)) 0⟩]
      = [⟨1, [.int 3, .int 9, .nil, .nil, .int 8]⟩] :=
  ⟨(C18_notification_without_observer_is_dropped sampleExternal ⟨none, none⟩ 3 9
      (dataValue (.scalar (.int32 7)) 0) rfl).1,
   ((C18_notification_without_observer_is_dropped sampleExternal ⟨none, none⟩ 3 9
      (dataValue (.scalar (.int32 7)) 0) rfl).2
      [⟨⟨none, some 1⟩, 3, 9, dataValue (.scalar (.int32 8)) 0⟩]).trans (by decide)⟩

/-! ### C19: the status error of the stack -/

/-- The scalar read, the scalar write, the array write and the connection
raise, for a status of the stack that is not good, the error that carries the
status and its name. -/
theorem status_error_carried_except_by_array_read (ext : External) (client : UA_Client)
    (n : Int) (name : List Nat) (hn : -(2 ^ 31) ≤ n ∧ n ≤ 2 ^ 31 - 1) (hname : 0 ∉ name) :
    (∀ type, (client.readValueAttribute (UA_NODEID_STRING n name)).1 ≠ UA_STATUSCODE_GOOD →
      (rb_readUaValue ext client (.int n) (.str name) type).outcome =
        .raise (.cErrorStatus (client.readValueAttribute (UA_NODEID_STRING n name)).1
          (ext.UA_StatusCode_name (client.readValueAttribute (UA_NODEID_STRING n name)).1))) ∧
    (∀ uaType v_newValue value, (uaType = UA_TYPES_INT16 → rb_type v_newValue = .T_FIXNUM) →
      rb_writeUaValue.value ext uaType v_newValue = .ok value →
      client.writeValueAttribute (UA_NODEID_STRING n name) value ≠ UA_STATUSCODE_GOOD →
      (rb_writeUaValue ext client (.int n) (.str name) v_newValue uaType).outcome =
        .raise (.cErrorStatus (client.writeValueAttribute (UA_NODEID_STRING n name) value)
          (ext.UA_StatusCode_name
            (client.writeValueAttribute (UA_NODEID_STRING n name) value)))) ∧
    (∀ uaType elems value, rb_writeUaArrayValue.value ext uaType elems = .ok value →
      client.writeValueAttribute (UA_NODEID_STRING (wrapSigned 16 n) name) value
        ≠ UA_STATUSCODE_GOOD →
      (rb_writeUaArrayValue ext client (.int n) (.str name) (.ary elems) uaType).outcome =
        .raise (.cErrorStatus
          (client.writeValueAttribute (UA_NODEID_STRING (wrapSigned 16 n) name) value)
          (ext.UA_StatusCode_name
            (client.writeValueAttribute (UA_NODEID_STRING (wrapSigned 16 n) name) value)))) ∧
    (∀ UA_Client_connect : List Nat → Nat, UA_Client_connect name ≠ UA_STATUSCODE_GOOD →
      (rb_connect ext UA_Client_connect (.str name)).outcome =
        .raise (.cErrorStatus (UA_Client_connect name)
          (ext.UA_StatusCode_name (UA_Client_connect name)))) := by
  refine ⟨?_, ?_, ?_, ?_⟩
  · intro type hs
    rw [rb_readUaValue_run ext client n name type hn hname]
    simp only [if_neg hs]
    rfl
  · intro uaType v_newValue value hfix hvalue hs
    rw [rb_writeUaValue_run ext client n name v_newValue uaType value hn hname hfix hvalue]
    simp only [if_neg hs]
    rfl
  · intro uaType elems value hvalue hs
    rw [rb_writeUaArrayValue_run ext client n name elems uaType value hn hname hvalue]
    simp only [if_pos hs]
    rfl
  · intro UA_Client_connect hs
    unfold rb_connect
    rw [if_neg (by simp [RB_TYPE_P, rb_type])]
    simp only [StringValueCStr_str name hname, if_neg hs]
    rfl

/-- C19 (evaluation of the code at the failing input): when the stack answers
the read of a node with the status BadNodeIdUnknown (0x80340000), the array
read `read_int32_array` fails with the fixed message "Could not read node",
which carries neither the numeric code nor the name of the status, whereas the
scalar read `read_int32` of the same node fails with the status error
"2150891520: BadNodeIdUnknown". -/
theorem C19_array_read_drops_the_status :
    rb_readUaArrayValue sampleExternal (constantClient (0x80340000, .empty) 0 ⟨0, []⟩ ⟨0, []⟩)
        (.int 5) (.str (cstr "int32_array")) UA_TYPES_INT32
      = ⟨[StackCall.readValueAttribute ⟨5, cstr "int32_array"⟩],
          .raise (.cError "Could not read node")⟩ ∧
    rb_readUaValue sampleExternal (constantClient (0x80340000, .empty) 0 ⟨0, []⟩ ⟨0, []⟩)
        (.int 5) (.str (cstr "int32_array")) UA_TYPES_INT32
      = ⟨[StackCall.readValueAttribute ⟨5, cstr "int32_array"⟩],
          .raise (.cErrorStatus 2150891520 "BadNodeIdUnknown")⟩ := by
  constructor <;> decide

/-! ### C20: arguments of the wrong type -/

/-- The scalar read and write reject a name that is not a String and a
namespace index that is not a Fixnum, and the batched read and write reject a
namespace index that is not a Fixnum, with "Invalid arguments" and before any
request. -/
theorem invalid_arguments_of_scalar_and_batched_paths (ext : External) (client : UA_Client)
    (v_nsIndex v_name : RValue)
    (hbad : RB_TYPE_P v_name .T_STRING = false ∨ RB_TYPE_P v_nsIndex .T_FIXNUM = false) :
    (∀ type, rb_readUaValue ext client v_nsIndex v_name type
      = ⟨[], .raise (.cError "Invalid arguments")⟩) ∧
    (∀ v_newValue uaType, rb_writeUaValue ext client v_nsIndex v_name v_newValue uaType
      = ⟨[], .raise (.cError "Invalid arguments")⟩) ∧
    (RB_TYPE_P v_nsIndex .T_FIXNUM = false →
      (∀ v_aryNames, rb_readUaValues ext client v_nsIndex v_aryNames
        = ⟨[], .raise (.cError "Invalid arguments")⟩) ∧
      (∀ v_aryNames v_aryNewValues uaType,
        rb_writeUaValues ext client v_nsIndex v_aryNames v_aryNewValues uaType
          = ⟨[], .raise (.cError "Invalid arguments")⟩)) := by
  refine ⟨?_, ?_, ?_⟩
  · intro type
    unfold rb_readUaValue
    rcases hbad with h | h
    · rw [if_pos (by simp [h])]; rfl
    · by_cases h' : (RB_TYPE_P v_name .T_STRING != true) = true
      · rw [if_pos h']; rfl
      · rw [if_neg h', if_pos (by simp [h])]; rfl
  · intro v_newValue uaType
    unfold rb_writeUaValue
    rcases hbad with h | h
    · rw [if_pos (by simp [h])]; rfl
    · by_cases h' : (RB_TYPE_P v_name .T_STRING != true) = true
      · rw [if_pos h']; rfl
      · rw [if_neg h', if_pos (by simp [h])]; rfl
  · intro h
    constructor
    · intro v_aryNames
      unfold rb_readUaValues
      rw [if_pos (by simp [h])]; rfl
    · intro v_aryNames v_aryNewValues uaType
      unfold rb_writeUaValues
      rw [if_pos (by simp [h])]; rfl

/-- C20 (evaluation of the code at failing inputs): the array read and the
array write check neither argument.  Called with the Float 5.0 as namespace
index, `read_int32_array` and `write_int32_array` truncate it with `NUM2INT` and
send their request to the stack.  Called with the Integer 42 as node name, they
fail in `StringValueCStr` with a `TypeError`, not with "Invalid arguments".
The scalar read rejects both calls with "Invalid arguments". -/
theorem C20_array_paths_do_not_check_arguments :
    rb_readUaArrayValue fiveExternal (goodClient (.array (.int32 [1, 2, 3])))
        (.float ⟨0x4014000000000000⟩) (.str (cstr "int32_array")) UA_TYPES_INT32
      = ⟨[StackCall.readValueAttribute ⟨5, cstr "int32_array"⟩],
          .ok (.ary [.int 1, .int 2, .int 3])⟩ ∧
    rb_writeUaArrayValue fiveExternal (goodClient .empty)
        (.float ⟨0x4014000000000000⟩) (.str (cstr "int32_array")) (.ary [.int 1])
        UA_TYPES_INT32
      = ⟨[StackCall.writeValueAttribute ⟨5, cstr "int32_array"⟩ (.array (.int32 [1]))],
          .ok .nil⟩ ∧
    rb_readUaArrayValue sampleExternal (goodClient (.array (.int32 [1, 2, 3])))
        (.int 5) (.int 42) UA_TYPES_INT32 = ⟨[], .raise .typeError⟩ ∧
    rb_writeUaArrayValue sampleExternal (goodClient .empty)
        (.int 5) (.int 42) (.ary [.int 1]) UA_TYPES_INT32 = ⟨[], .raise .typeError⟩ ∧
    rb_readUaValue fiveExternal (goodClient (.scalar (.int32 1)))
        (.float ⟨0x4014000000000000⟩) (.str (cstr "int32a")) UA_TYPES_INT32
      = ⟨[], .raise (.cError "Invalid arguments")⟩ ∧
    rb_readUaValue sampleExternal (goodClient (.scalar (.int32 1)))
        (.int 5) (.int 42) UA_TYPES_INT32 = ⟨[], .raise (.cError "Invalid arguments")⟩ := by
  refine ⟨by decide, by decide, by decide, by decide, by decide, by decide⟩

/-! ### C21: native memory on the exit paths of the batched operations -/

/-- C21 (evaluation of the code at the failing inputs): `multi_read(5, ["a", 42])`
raises "Invalid arguments" in the first loop, after `nodes` and `readValues`
were allocated and with neither released; `multi_write_int16(5, ["a", "b"],
[1, "x"])` raises at the second value, with `nodes`, `values` and the payload
of the first value still allocated.  On the path of a status that is not good
(here BadNodeIdUnknown for `multi_read(5, ["a"])`) everything allocated has
been released. -/
theorem C21_early_failure_leaves_blocks_allocated :
    (rb_readUaValues sampleExternal (goodClient .empty) (.int 5)
        (.ary [.str (cstr "a"), .int 42])
      = ⟨[], .raise (.cError "Invalid arguments")⟩ ∧
     rb_readUaValues.memory sampleExternal (.int 5) (.ary [.str (cstr "a"), .int 42])
      = [.alloc .nodes, .alloc .variants] ∧
     leaked (rb_readUaValues.memory sampleExternal (.int 5)
        (.ary [.str (cstr "a"), .int 42])) = [.nodes, .variants]) ∧
    (rb_writeUaValues sampleExternal (goodClient .empty) (.int 5)
        (.ary [.str (cstr "a"), .str (cstr "b")]) (.ary [.int 1, .str (cstr "x")])
        UA_TYPES_INT16
      = ⟨[], .raise .typeError⟩ ∧
     rb_writeUaValues.memory sampleExternal (.int 5)
        (.ary [.str (cstr "a"), .str (cstr "b")]) (.ary [.int 1, .str (cstr "x")])
        UA_TYPES_INT16
      = [.alloc .nodes, .alloc .variants, .alloc (.payload 0)] ∧
     leaked (rb_writeUaValues.memory sampleExternal (.int 5)
        (.ary [.str (cstr "a"), .str (cstr "b")]) (.ary [.int 1, .str (cstr "x")])
        UA_TYPES_INT16) = [.nodes, .variants, .payload 0]) ∧
    ((rb_readUaValues sampleExternal
        (constantClient (0, .empty) 0 ⟨0x80340000, []⟩ ⟨0, []⟩) (.int 5)
        (.ary [.str (cstr "a")])).outcome
      = .raise (.cErrorStatus 0x80340000 "BadNodeIdUnknown") ∧
     leaked (rb_readUaValues.memory sampleExternal (.int 5) (.ary [.str (cstr "a")])) = []) := by
  refine ⟨⟨by decide, by decide, by decide⟩, ⟨by decide, by decide, by decide⟩,
    by decide, by decide⟩

/-! ### C22: the order of the releases of `UA_Client_free` -/

/-- C22 (evaluation of the code at the failing input): for an initialized handle
`UA_Client_free` releases the callback context first, the connection object
second and the handle last: the context is released while the connection
object is still alive. -/
theorem C22_context_released_before_connection :
    UA_Client_free true = [Released.context, Released.connection, Released.handle] ∧
    UA_Client_free false = [Released.handle] := by
  constructor <;> rfl

/-! ### C23: one observer call per Activated notification -/

/-- C23: for every sequence of state notifications delivered to `stateCallback`,
the number of calls of the "session ready" observer is the number of
notifications of the sequence whose session state is Activated when an
observer is registered, and zero when none is; and for a given session state
the procs called by `stateCallback` are the same whatever the channel state and
the connect status. -/
theorem C23_observer_calls_count_activated_notifications (self : RubyClient)
    (notifications : List StateNotification) :
    (deliverStates self notifications).length =
      (if self.callback_after_session_created.isSome then
        (notifications.filter
          (fun n => decide (n.sessionState = UA_SessionState.ACTIVATED))).length
       else 0) ∧
    ∀ (sessionState : UA_SessionState) (channelState channelState' : UA_SecureChannelState)
      (connectStatus connectStatus' : Nat),
      stateCallback self channelState sessionState connectStatus
        = stateCallback self channelState' sessionState connectStatus' := by
  constructor
  · induction notifications with
    | nil => cases self.callback_after_session_created <;> rfl
    | cons n rest ih =>
      simp only [deliverStates, List.length_append, ih]
      cases hcb : self.callback_after_session_created with
      | none =>
        cases hch : n.channelState <;> simp [stateCallback, hcb]
      | some cb =>
        by_cases hs : n.sessionState = UA_SessionState.ACTIVATED
        · cases hch : n.channelState <;>
            simp [stateCallback, hcb, hs, List.filter_cons, Nat.add_comm]
        · cases hch : n.channelState <;> simp [stateCallback, hcb, hs, List.filter_cons]
  · intro sessionState channelState channelState' connectStatus connectStatus'
    cases channelState <;> cases channelState' <;> rfl

/-! ### C24: values that the batched read does not decode -/

/-- The batched decoder gives `nil` for every Variant that is not a scalar of one
of its six kinds. -/
theorem rb_readUaValues_decode_unsupported (ext : External) (value : UA_Variant)
    (h : ∀ s, value = .scalar s →
      s.typeIndex ∉ [UA_TYPES_INT16, UA_TYPES_UINT16, UA_TYPES_INT32, UA_TYPES_UINT32,
        UA_TYPES_BOOLEAN, UA_TYPES_FLOAT]) :
    rb_readUaValues.decode ext value = .nil := by
  cases value with
  | scalar s =>
    have hs := h s rfl
    simp only [List.mem_cons, List.mem_singleton, List.not_mem_nil, or_false, not_or] at hs
    obtain ⟨h1, h2, h3, h4, h5, h6⟩ := hs
    unfold rb_readUaValues.decode
    simp only [hasScalarType_scalar]
    rw [if_neg (by simpa using h1), if_neg (by simpa using h2), if_neg (by simpa using h3),
      if_neg (by simpa using h4), if_neg (by simpa using h5), if_neg (by simpa using h6)]
  | empty => rfl
  | array a => rfl
  | nullArray t => rfl

/-- C24: for every batched read with a good service result, as many results as
names, and every result of good status with a value, in which result `i` holds
a value that is not a scalar of kind Int16, UInt16, Int32, UInt32, Boolean or
Float, `multi_read` returns an array with one value per name, `nil` at
position `i`, and at every position the decoded value of the result there. -/
theorem C24_multi_read_gives_nil_for_undecoded_item (ext : External) (client : UA_Client)
    (n : Int) (names : List (List Nat)) (i : Nat) (item : UA_DataValue)
    (hn : -(2 ^ 31) ≤ n ∧ n ≤ 2 ^ 31 - 1) (hnames : ∀ nm ∈ names, 0 ∉ nm)
    (hservice : (client.Service_read (names.map (UA_NODEID_STRING n))).serviceResult
      = UA_STATUSCODE_GOOD)
    (hcount : (client.Service_read (names.map (UA_NODEID_STRING n))).results.length
      = names.length)
    (hitems : ∀ r ∈ (client.Service_read (names.map (UA_NODEID_STRING n))).results,
      r.status = UA_STATUSCODE_GOOD ∧ r.hasValue = true)
    (hi : (client.Service_read (names.map (UA_NODEID_STRING n))).results[i]? = some item)
    (hkind : ∀ s, item.value = .scalar s →
      s.typeIndex ∉ [UA_TYPES_INT16, UA_TYPES_UINT16, UA_TYPES_INT32, UA_TYPES_UINT32,
        UA_TYPES_BOOLEAN, UA_TYPES_FLOAT]) :
    ∃ values : List RValue,
      (rb_readUaValues ext client (.int n) (.ary (names.map RValue.str))).outcome
        = .ok (.ary values) ∧
      values.length = names.length ∧
      values[i]? = some .nil ∧
      ∀ (j : Nat) (r : UA_DataValue),
        (client.Service_read (names.map (UA_NODEID_STRING n))).results[j]? = some r →
        values[j]? = some (rb_readUaValues.decode ext r.value) := by
  have hne : names ≠ [] := by
    intro h
    subst h
    have h0 := List.length_eq_zero.mp hcount
    rw [h0] at hi
    simp at hi
  refine ⟨_, multi_read_returns_decoded_values ext client n names hn hnames hne hservice hcount
    hitems, ?_, ?_, ?_⟩
  · rw [List.length_map, hcount]
  · rw [List.getElem?_map, hi]
    simp only [Option.map_some']
    rw [rb_readUaValues_decode_unsupported ext item.value hkind]
  · intro j r hj
    rw [List.getElem?_map, hj]
    rfl

/-- C24 at a concrete input: for the names `["a", "b", "c"]` and a good response
holding an Int32 scalar, a Double scalar and an array of Int32, the call
returns an array of three values with `nil` at position 1. -/
theorem C24_multi_read_gives_nil_for_undecoded_item_witness :
    ∃ values : List RValue,
      (rb_readUaValues sampleExternal
        (constantClient (0, .empty) 0
          ⟨0, [dataValue (.scalar (.int32 7)) 0, dataValue (.scalar (.double ⟨0⟩)) 0,
               dataValue (.array (.int32 [1, 2])) 0]⟩ ⟨0, []⟩)
        (.int 5) (.ary ([cstr "a", cstr "b", cstr "c"].map RValue.str))).outcome
        = .ok (.ary values) ∧
      values.length = [cstr "a", cstr "b", cstr "c"].length ∧
      values[1]? = some .nil ∧
      ∀ (j : Nat) (r : UA_DataValue),
        ((constantClient (0, .empty) 0
          ⟨0, [dataValue (.scalar (.int32 7)) 0, dataValue (.scalar (.double ⟨0⟩)) 0,
               dataValue (.array (.int32 [1, 2])) 0]⟩ ⟨0, []⟩).Service_read
          ([cstr "a", cstr "b", cstr "c"].map (UA_NODEID_STRING 5))).results[j]? = some r →
        values[j]? = some (rb_readUaValues.decode sampleExternal r.value) :=
  C24_multi_read_gives_nil_for_undecoded_item sampleExternal _ 5
    [cstr "a", cstr "b", cstr "c"] 1 (dataValue (.scalar (.double ⟨0⟩)) 0)
    (by decide) (by decide) (by decide) (by decide) (by decide) (by decide)
    (fun s hs => by cases hs; decide)

/-! ### C25: the index read in the results of a batched response -/

/-- With at least one node, `multiRead` and `multiWrite` never have an undefined
outcome: `results[0]` exists whenever it is read. -/
theorem multiRead_multiWrite_defined_of_nonempty (client : UA_Client) :
    (∀ nodes : List UA_NodeId, nodes ≠ [] → (multiRead client nodes).outcome ≠ .undefined) ∧
    (∀ items : List (UA_NodeId × UA_Variant), items ≠ [] →
      (multiWrite client items).outcome ≠ .undefined) := by
  constructor
  · intro nodes hne
    rw [multiRead_outcome]
    apply Outcome.ite_ne_undefined
    · simp
    · by_cases hl : (client.Service_read nodes).results.length = nodes.length
      · rw [if_neg (by simpa using hl)]
        cases hres : (client.Service_read nodes).results with
        | nil =>
          rw [hres] at hl
          cases nodes with
          | nil => exact absurd rfl hne
          | cons a b => simp at hl
        | cons r rest =>
          simp only []
          apply Outcome.ite_ne_undefined
          · simp
          · apply Outcome.ite_ne_undefined <;> simp
      · rw [if_pos (by simpa using hl)]
        simp
  · intro items hne
    unfold multiWrite
    simp only []
    apply Outcome.ite_ne_undefined
    · by_cases hl : (client.Service_write items).results.length = items.length
      · rw [if_pos hl]
        cases hres : (client.Service_write items).results with
        | nil =>
          rw [hres] at hl
          cases items with
          | nil => exact absurd rfl hne
          | cons a b => simp at hl
        | cons r rest => simp
      · rw [if_neg hl]
        simp
    · simp

/-- C25 (evaluation of the code at the failing input): for an empty request and
a response with a good service result and no result (the result count, 0,
equals the request count), `multiRead` and `multiWrite` read `results[0]`, an
index equal to the result count: the outcome is undefined.  It is what
`multi_read` and `multi_write_uint16` of empty lists run into. -/
theorem C25_empty_batch_reads_results_out_of_bounds :
    (multiRead (constantClient (0, .empty) 0 ⟨0, []⟩ ⟨0, []⟩) []).outcome = .undefined ∧
    (multiWrite (constantClient (0, .empty) 0 ⟨0, []⟩ ⟨0, []⟩) []).outcome = .undefined ∧
    (rb_readUaValues sampleExternal (constantClient (0, .empty) 0 ⟨0, []⟩ ⟨0, []⟩)
        (.int 5) (.ary [])).outcome = .undefined ∧
    (rb_writeUaValues sampleExternal (constantClient (0, .empty) 0 ⟨0, []⟩ ⟨0, []⟩)
        (.int 5) (.ary []) (.ary []) UA_TYPES_UINT16).outcome = .undefined := by
  refine ⟨by decide, by decide, by decide, by decide⟩

/-! ### C26: the namespace index of the NodeId sent -/

/-- The conversion of a namespace index to the `UA_UInt16` of the NodeId: the
index modulo 2^16, also after it went through a `UA_Int16` or through
`NUM2USHORT`. -/
theorem UA_NODEID_STRING_namespace (n : Int) (name : List Nat) :
    UA_NODEID_STRING n name = ⟨(n % 2 ^ 16).toNat, name⟩ ∧
    UA_NODEID_STRING (wrapSigned 16 n) name = ⟨(n % 2 ^ 16).toNat, name⟩ ∧
    UA_NODEID_STRING (wrapUnsigned 16 n : Nat) name = ⟨(n % 2 ^ 16).toNat, name⟩ := by
  refine ⟨rfl, ?_, ?_⟩
  · unfold UA_NODEID_STRING wrapUnsigned wrapSigned
    congr 1
    omega
  · unfold UA_NODEID_STRING wrapUnsigned
    congr 1
    omega

/-- The loop of `rb_writeUaValues` on names without NUL and values that the
chain on `uaType` converts. -/
theorem rb_writeUaValues_items_of_values (ext : External) (n : Int) (K : Nat)
    (names : List (List Nat)) (newValues : List RValue) (variants : List UA_Variant)
    (hnames : ∀ nm ∈ names, 0 ∉ nm) (hlen : names.length = newValues.length)
    (hvalues : List.Forall₂ (fun v value => rb_writeUaValues.value ext K v = .ok value)
      newValues variants) :
    rb_writeUaValues.items ext n K (names.map RValue.str) newValues
      = .ok ((names.map (UA_NODEID_STRING n)).zip variants) := by
  induction names generalizing newValues variants with
  | nil =>
    cases newValues with
    | nil => rfl
    | cons y ys => simp at hlen
  | cons nm rest ih =>
    cases hvalues with
    | nil => simp at hlen
    | @cons v value vs values hv hrest =>
      have h1 : 0 ∉ nm := hnames nm (List.mem_cons_self nm rest)
      have h2 := ih vs values (fun x hx => hnames x (List.mem_cons_of_mem nm hx))
        (by simpa using hlen) hrest
      simp only [List.map_cons]
      unfold rb_writeUaValues.items
      rw [if_neg (by simp [RB_TYPE_P, rb_type]), StringValueCStr_str nm h1, hv, h2]
      rfl

/-- C26: for every namespace index `n` in the range of a C `int` and every name
without NUL, each operation that accepts `n` sends a NodeId whose namespace
index is `n mod 2^16`, which is `n` exactly when `0 ≤ n ≤ 65535`.  The scalar
and array reads always send their request; the scalar, array and batched
writes send it whenever the new values are converted (whatever `n`); the
batched read sends it for every list of names; `add_monitored_item` sends it
when `-32768 ≤ n ≤ 65535` and raises `RangeError` without a request
otherwise. -/
theorem C26_namespace_index_sent_modulo_65536 (ext : External) (client : UA_Client)
    (n : Int) (name : List Nat) (hn : -(2 ^ 31) ≤ n ∧ n ≤ 2 ^ 31 - 1) (hname : 0 ∉ name) :
    (∀ K, (rb_readUaValue ext client (.int n) (.str name) K).calls
      = [StackCall.readValueAttribute ⟨(n % 2 ^ 16).toNat, name⟩]) ∧
    (∀ K, (rb_readUaArrayValue ext client (.int n) (.str name) K).calls
      = [StackCall.readValueAttribute ⟨(n % 2 ^ 16).toNat, name⟩]) ∧
    (∀ K v value, (K = UA_TYPES_INT16 → rb_type v = .T_FIXNUM) →
      rb_writeUaValue.value ext K v = .ok value →
      (rb_writeUaValue ext client (.int n) (.str name) v K).calls
        = [StackCall.writeValueAttribute ⟨(n % 2 ^ 16).toNat, name⟩ value]) ∧
    (∀ K elems value, rb_writeUaArrayValue.value ext K elems = .ok value →
      (rb_writeUaArrayValue ext client (.int n) (.str name) (.ary elems) K).calls
        = [StackCall.writeValueAttribute ⟨(n % 2 ^ 16).toNat, name⟩ value]) ∧
    (∀ names : List (List Nat), (∀ nm ∈ names, 0 ∉ nm) →
      (rb_readUaValues ext client (.int n) (.ary (names.map RValue.str))).calls
        = [StackCall.Service_read (names.map fun nm => ⟨(n % 2 ^ 16).toNat, nm⟩)]) ∧
    (∀ K (names : List (List Nat)) (newValues : List RValue) (variants : List UA_Variant),
      (∀ nm ∈ names, 0 ∉ nm) → names.length = newValues.length →
      List.Forall₂ (fun v value => rb_writeUaValues.value ext K v = .ok value)
        newValues variants →
      (rb_writeUaValues ext client (.int n) (.ary (names.map RValue.str)) (.ary newValues)
          K).calls
        = [StackCall.Service_write
            ((names.map fun nm => (⟨(n % 2 ^ 16).toNat, nm⟩ : UA_NodeId)).zip variants)]) ∧
    (∀ (createDataChange : Nat → UA_NodeId → Nat × Nat) (sub : Int),
      -(2 ^ 31) ≤ sub ∧ sub ≤ 2 ^ 32 - 1 →
      (rb_addMonitoredItem ext createDataChange (.int sub) (.int n) (.str name)).calls
        = (if -(2 ^ 15) ≤ n ∧ n ≤ 2 ^ 16 - 1 then
            [StackCall.MonitoredItems_createDataChange (wrapUnsigned 32 sub)
              ⟨(n % 2 ^ 16).toNat, name⟩]
          else []) ∧
      (¬ (-(2 ^ 15) ≤ n ∧ n ≤ 2 ^ 16 - 1) →
        (rb_addMonitoredItem ext createDataChange (.int sub) (.int n) (.str name)).outcome
          = .raise .rangeError)) ∧
    ((((n % 2 ^ 16).toNat : Nat) : Int) = n ↔ 0 ≤ n ∧ n ≤ 65535) := by
  obtain ⟨hns, hns16, hnsu⟩ := UA_NODEID_STRING_namespace n name
  refine ⟨?_, ?_, ?_, ?_, ?_, ?_, ?_, ?_⟩
  · intro K
    rw [rb_readUaValue_run ext client n name K hn hname, hns]
  · intro K
    rw [rb_readUaArrayValue_run ext client n name K hn hname, hns16]
  · intro K v value hfix hvalue
    rw [rb_writeUaValue_run ext client n name v K value hn hname hfix hvalue, hns]
  · intro K elems value hvalue
    rw [rb_writeUaArrayValue_run ext client n name elems K value hn hname hvalue, hns16]
  · intro names hnames
    rw [rb_readUaValues_run_of_strings ext client n names hn hnames]
    rfl
  · intro K names newValues variants hnames hlen hvalues
    have hfixn : rb_type (.int n) = .T_FIXNUM := rb_type_fixnum n (by constructor <;> omega)
    have hitems := rb_writeUaValues_items_of_values ext n K names newValues variants hnames
      hlen hvalues
    have hlen2 : ¬ (names.map RValue.str).length ≠ newValues.length := by
      rw [List.length_map]
      exact fun h => h hlen
    unfold rb_writeUaValues
    rw [if_neg (by simp [RB_TYPE_P, hfixn])]
    simp only []
    rw [if_neg hlen2]
    simp only [FIX2INT, NUM2INT_int ext n hn, hitems, multiWrite]
    rfl
  · intro createDataChange sub hsub
    unfold rb_addMonitoredItem
    rw [NUM2UINT_int_eq, if_pos hsub, NUM2USHORT_int_eq]
    by_cases hr : -(2 ^ 15) ≤ n ∧ n ≤ 2 ^ 16 - 1
    · rw [if_pos hr, if_pos hr]
      simp only [StringValueCStr_str name hname, Outcome.bind, hnsu]
      exact ⟨trivial, fun h => absurd hr h⟩
    · rw [if_neg hr, if_neg hr]
      simp only [Outcome.bind]
      exact ⟨trivial, fun _ => trivial⟩
  · omega

/-- C26 at a concrete input: with the namespace index -1, `read_uint16` and
`add_monitored_item` both send a NodeId of namespace index 65535. -/
theorem C26_namespace_index_sent_modulo_65536_witness :
    (rb_readUaValue sampleExternal (goodClient .empty) (.int (-1)) (.str (cstr "uint16a"))
        UA_TYPES_UINT16).calls
      = [StackCall.readValueAttribute ⟨65535, cstr "uint16a"⟩] ∧
    (rb_addMonitoredItem sampleExternal (fun _ _ => (0, 7)) (.int 1) (.int (-1))
        (.str (cstr "uint16a"))).calls
      = [StackCall.MonitoredItems_createDataChange 1 ⟨65535, cstr "uint16a"⟩] :=
  ⟨(C26_namespace_index_sent_modulo_65536 sampleExternal (goodClient .empty) (-1)
      (cstr "uint16a") (by decide) (by decide)).1 UA_TYPES_UINT16,
   ((C26_namespace_index_sent_modulo_65536 sampleExternal (goodClient .empty) (-1)
      (cstr "uint16a") (by decide) (by decide)).2.2.2.2.2.2.1 (fun _ _ => (0, 7)) 1
      (by decide)).1⟩

/-! ### C27: the sub-second part of a converted timestamp -/

/-- C27 (evaluation of the code at the failing input): for the timestamp 5000000,
whose decomposition is 1601-01-01 00:00:00 and 500 ms, `toRubyTime` calls
`Time.gm` with 500 as its seventh argument, a number of microseconds: the
host time is 1601-01-01 00:00:00.000500, not the instant of the decomposition,
1601-01-01 00:00:00.500000. -/
theorem C27_milliseconds_passed_as_microseconds :
    halfSecondExternal.UA_DateTime_toStruct 5000000 = ⟨0, 0, 500, 0, 0, 0, 1, 1, 1601⟩ ∧
    toRubyTime halfSecondExternal 5000000 = .time 1601 1 1 0 0 0 500 ∧
    instantOfDecomposition (halfSecondExternal.UA_DateTime_toStruct 5000000)
      = .time 1601 1 1 0 0 0 500000 ∧
    toRubyTime halfSecondExternal 5000000
      ≠ instantOfDecomposition (halfSecondExternal.UA_DateTime_toStruct 5000000) := by
  refine ⟨by decide, by decide, by decide, by decide⟩

/-! ### C28: truncation of a written string -/

/-- The copy made by `UA_STRING_ALLOC` of a string without NUL holds all its
bytes. -/
theorem UA_STRING_ALLOC_of_no_nul (s : List Nat) (h : 0 ∉ s) : UA_STRING_ALLOC s = s := by
  unfold UA_STRING_ALLOC
  rw [List.takeWhile_eq_self_iff]
  intro x hx
  have : x ≠ 0 := fun h0 => h (h0 ▸ hx)
  simpa using this

/-- The loop of the String branch of `rb_writeUaArrayValue` on Ruby strings in
encodings of one-byte characters: it raises `ArgumentError` when one of them
holds a NUL byte, and otherwise gives the strings themselves. -/
theorem rb_writeUaArrayValue_loop_strings (ss : List (List Nat)) :
    rb_writeUaArrayValue.loop
        (fun elem => (StringValueCStr elem).bind fun str => .ok (UA_STRING_ALLOC str))
        (ss.map RValue.str)
      = if ∃ s ∈ ss, 0 ∈ s then .raise .argumentError else .ok ss := by
  induction ss with
  | nil => rfl
  | cons s rest ih =>
    simp only [List.map_cons, rb_writeUaArrayValue.loop, ih]
    by_cases h0 : 0 ∈ s
    · rw [if_pos (show ∃ t ∈ s :: rest, 0 ∈ t from ⟨s, List.mem_cons_self s rest, h0⟩)]
      simp [StringValueCStr, h0, Outcome.bind]
    · simp only [StringValueCStr_str s h0, Outcome.bind, UA_STRING_ALLOC_of_no_nul s h0]
      by_cases hr : ∃ t ∈ rest, 0 ∈ t
      · obtain ⟨t, ht, ht0⟩ := hr
        rw [if_pos (show ∃ t ∈ rest, 0 ∈ t from ⟨t, ht, ht0⟩),
          if_pos (show ∃ t ∈ s :: rest, 0 ∈ t from ⟨t, List.mem_cons_of_mem s ht, ht0⟩)]
      · have hall : ¬ ∃ t ∈ s :: rest, 0 ∈ t := by
          rintro ⟨t, ht, ht0⟩
          rcases List.mem_cons.mp ht with rfl | ht'
          · exact h0 ht0
          · exact hr ⟨t, ht', ht0⟩
        rw [if_neg hr, if_neg hall]

/-- What the String write paths do with a String in an encoding of one-byte
characters (UTF-8, US-ASCII, ASCII-8BIT), for a namespace index in the range of
`int` and a name without NUL: they either fail without sending a request or
send the whole string.  Scalar: `write_string` raises `ArgumentError` and sends
nothing when `s` holds a NUL byte; otherwise it sends one write whose Variant
is the String scalar with exactly the bytes of `s`, and `read_string` of a node
whose read returns that Variant gives `s`.  Array: `write_string_array` raises
`ArgumentError` and sends nothing when one of the strings holds a NUL byte;
otherwise it sends one write whose Variant is the String array `ss`, and
`read_string_array` of a node whose read returns that Variant gives the
strings of `ss`. -/
theorem narrow_string_write_is_whole_or_fails (ext : External) (client : UA_Client) (n : Int)
    (name : List Nat) (hn : -(2 ^ 31) ≤ n ∧ n ≤ 2 ^ 31 - 1) (hname : 0 ∉ name) :
    (∀ s : List Nat,
      (0 ∈ s →
        rb_writeUaValue ext client (.int n) (.str name) (.str s) UA_TYPES_STRING
          = ⟨[], .raise .argumentError⟩) ∧
      (0 ∉ s →
        (rb_writeUaValue ext client (.int n) (.str name) (.str s) UA_TYPES_STRING).calls
          = [StackCall.writeValueAttribute (UA_NODEID_STRING n name) (.scalar (.string s))] ∧
        (client.readValueAttribute (UA_NODEID_STRING n name)
            = (UA_STATUSCODE_GOOD, .scalar (.string s)) →
          (rb_readUaValue ext client (.int n) (.str name) UA_TYPES_STRING).outcome
            = .ok (.str s)))) ∧
    (∀ ss : List (List Nat),
      ((∃ s ∈ ss, 0 ∈ s) →
        rb_writeUaArrayValue ext client (.int n) (.str name) (.ary (ss.map RValue.str))
            UA_TYPES_STRING
          = ⟨[], .raise .argumentError⟩) ∧
      ((∀ s ∈ ss, 0 ∉ s) →
        (rb_writeUaArrayValue ext client (.int n) (.str name) (.ary (ss.map RValue.str))
            UA_TYPES_STRING).calls
          = [StackCall.writeValueAttribute (UA_NODEID_STRING (wrapSigned 16 n) name)
              (.array (.string ss))] ∧
        (UA_Array.string ss).length = ss.length ∧
        (client.readValueAttribute (UA_NODEID_STRING (wrapSigned 16 n) name)
            = (UA_STATUSCODE_GOOD, .array (.string ss)) →
          (rb_readUaArrayValue ext client (.int n) (.str name) UA_TYPES_STRING).outcome
            = .ok (.ary (ss.map RValue.str))))) := by
  have hfixn : rb_type (.int n) = .T_FIXNUM := rb_type_fixnum n (by constructor <;> omega)
  have hchain : ∀ v, rb_writeUaValue.value ext UA_TYPES_STRING v
      = (StringValueCStr v).bind fun str => .ok (.scalar (.string (UA_STRING_ALLOC str))) :=
    fun _ => rfl
  have hachain : ∀ elems, rb_writeUaArrayValue.value ext UA_TYPES_STRING elems
      = (rb_writeUaArrayValue.loop
          (fun elem => (StringValueCStr elem).bind fun str => .ok (UA_STRING_ALLOC str))
          elems).bind fun array => .ok (.array (.string array)) :=
    fun _ => rfl
  constructor
  · intro s
    constructor
    · intro h0
      have hv : rb_writeUaValue.value ext UA_TYPES_STRING (.str s) = .raise .argumentError := by
        rw [hchain]
        simp [StringValueCStr, h0, Outcome.bind]
      unfold rb_writeUaValue
      rw [if_neg (by simp [RB_TYPE_P, rb_type]), if_neg (by simp [RB_TYPE_P, hfixn]),
        if_neg (fun h => absurd h.1 (by decide))]
      simp only [StringValueCStr_str name hname, FIX2INT, NUM2INT_int ext n hn, hv, Outcome.bind]
    · intro h0
      have hv : rb_writeUaValue.value ext UA_TYPES_STRING (.str s)
          = .ok (.scalar (.string s)) := by
        rw [hchain, StringValueCStr_str s h0]
        simp only [Outcome.bind, UA_STRING_ALLOC_of_no_nul s h0]
      constructor
      · rw [rb_writeUaValue_run ext client n name (.str s) UA_TYPES_STRING _ hn hname
          (fun h => absurd h (by decide)) hv]
      · intro hread
        rw [rb_readUaValue_run ext client n name UA_TYPES_STRING hn hname]
        simp only [hread]
        rfl
  · intro ss
    constructor
    · intro h0
      have hv : rb_writeUaArrayValue.value ext UA_TYPES_STRING (ss.map RValue.str)
          = .raise .argumentError := by
        rw [hachain, rb_writeUaArrayValue_loop_strings, if_pos h0]
        rfl
      unfold rb_writeUaArrayValue
      have hct : Check_Type (.ary (ss.map RValue.str)) .T_ARRAY = .ok () := rfl
      simp only [NUM2INT_int ext n hn, StringValueCStr_str name hname, hct, hv, Outcome.bind]
    · intro h0
      have hv : rb_writeUaArrayValue.value ext UA_TYPES_STRING (ss.map RValue.str)
          = .ok (.array (.string ss)) := by
        rw [hachain, rb_writeUaArrayValue_loop_strings,
          if_neg (by rintro ⟨s, hs, hs0⟩; exact h0 s hs hs0)]
        rfl
      refine ⟨?_, rfl, ?_⟩
      · rw [rb_writeUaArrayValue_run ext client n name _ UA_TYPES_STRING _ hn hname hv]
      · intro hread
        rw [rb_readUaArrayValue_run ext client n name UA_TYPES_STRING hn hname, hread]
        rfl

/-- C28 (evaluation of the code at the failing input): the String "A" in
UTF-16LE has the two bytes 41 00 and no wide NUL, so `StringValueCStr` accepts
it.  `write_string(5, "s", ...)` of it does not fail: it sends a write whose
String Variant holds the single byte 41, one byte less than the host string,
and returns; `write_string_array` of the array holding that string sends the
same truncated string.  A String with the same two bytes in an encoding of
one-byte characters is refused with `ArgumentError` and nothing is sent, and
the typed String read builds the host string from all the bytes of the Variant
it gets, zero bytes included. -/
theorem C28_utf16_string_is_written_truncated :
    rb_writeUaValue sampleExternal (goodClient .empty) (.int 5) (.str (cstr "s"))
        (.wideStr 2 [0x41, 0]) UA_TYPES_STRING
      = ⟨[StackCall.writeValueAttribute ⟨5, cstr "s"⟩ (.scalar (.string [0x41]))],
          .ok .nil⟩ ∧
    rb_writeUaArrayValue sampleExternal (goodClient .empty) (.int 5) (.str (cstr "s"))
        (.ary [.wideStr 2 [0x41, 0]]) UA_TYPES_STRING
      = ⟨[StackCall.writeValueAttribute ⟨5, cstr "s"⟩ (.array (.string [[0x41]]))],
          .ok .nil⟩ ∧
    [0x41] ≠ [0x41, 0] ∧
    rb_writeUaValue sampleExternal (goodClient .empty) (.int 5) (.str (cstr "s"))
        (.str [0x41, 0]) UA_TYPES_STRING = ⟨[], .raise .argumentError⟩ ∧
    (rb_readUaValue sampleExternal (goodClient (.scalar (.string [0x41, 0]))) (.int 5)
        (.str (cstr "s")) UA_TYPES_STRING).outcome = .ok (.str [0x41, 0]) := by
  refine ⟨by decide, by decide, by decide, by decide, by decide⟩

/-! ### C29: the three scalar decoders agree -/

/-- C29: for a data-change notification delivered to a client with an observer,
whose value is a scalar Variant of kind Int16, Int32 or Boolean, the last
parameter given to the observer by `handler_dataChanged` is the value that the
batched decode of `rb_readUaValues` gives for that Variant, and the typed read
of that kind (`rb_readUaValue`) decodes the Variant to the same value; for a
scalar Variant of kind UInt16 or UInt32 the typed read of that kind decodes it
to the value of the batched decode. -/
theorem C29_scalar_decoders_agree (ext : External) (self : RubyClient)
    (callback subId monId : Nat) (item : UA_DataValue) (s : UA_Scalar)
    (hobs : self.callback_after_data_changed = some callback)
    (hvalue : item.value = .scalar s) :
    (((∃ v, s = .int16 v) ∨ (∃ v, s = .int32 v) ∨ (∃ b, s = .boolean b)) →
      handler_dataChanged ext self subId monId item =
        [⟨callback,
          [.int subId, .int monId,
           if item.hasServerTimestamp then toRubyTime ext item.serverTimestamp else .nil,
           if item.hasSourceTimestamp then toRubyTime ext item.sourceTimestamp else .nil,
           rb_readUaValues.decode ext (.scalar s)]⟩] ∧
      rb_readUaValue.decode ext s.typeIndex (.scalar s)
        = .ok (rb_readUaValues.decode ext (.scalar s))) ∧
    (((∃ v, s = .uint16 v) ∨ (∃ v, s = .uint32 v)) →
      rb_readUaValue.decode ext s.typeIndex (.scalar s)
        = .ok (rb_readUaValues.decode ext (.scalar s))) := by
  have hd := rb_readUaValues_decode_supported ext
  constructor
  · intro h
    rw [handler_dataChanged_run ext self callback subId monId item hobs, hvalue]
    rcases h with ⟨v, rfl⟩ | ⟨v, rfl⟩ | ⟨b, rfl⟩
    · rw [hd.1 v]
      exact ⟨rfl, rfl⟩
    · rw [hd.2.2.1 v]
      exact ⟨rfl, rfl⟩
    · rw [hd.2.2.2.2.1 b]
      exact ⟨rfl, rfl⟩
  · intro h
    rcases h with ⟨v, rfl⟩ | ⟨v, rfl⟩
    · rw [hd.2.1 v]
      rfl
    · rw [hd.2.2.2.1 v]
      rfl

/-- C29 at a concrete input: an Int32 scalar 7 is given to the observer as 7,
which is also what the batched decode and `read_int32` make of it. -/
theorem C29_scalar_decoders_agree_witness :
    handler_dataChanged sampleExternal ⟨none, some 1⟩ 1 2 (dataValue (.scalar (.int32 7)) 0)
        = [⟨1, [.int 1, .int 2, .nil, .nil, .int 7]⟩] ∧
    rb_readUaValues.decode sampleExternal (.scalar (.int32 7)) = .int 7 ∧
    rb_readUaValue.decode sampleExternal UA_TYPES_INT32 (.scalar (.int32 7)) = .ok (.int 7) :=
  ⟨((C29_scalar_decoders_agree sampleExternal ⟨none, some 1⟩ 1 1 2
      (dataValue (.scalar (.int32 7)) 0) (.int32 7) rfl rfl).1
      (Or.inr (Or.inl ⟨7, rfl⟩))).1,
   by decide,
   ((C29_scalar_decoders_agree sampleExternal ⟨none, some 1⟩ 1 1 2
      (dataValue (.scalar (.int32 7)) 0) (.int32 7) rfl rfl).1
      (Or.inr (Or.inl ⟨7, rfl⟩))).2⟩

/-! ### C30: batched write of one pair and scalar write -/

theorem Check_Type_bind_ok {β : Type} (v : RValue) (t : RubyType) (x : Outcome β) (a : β)
    (h : (Check_Type v t).bind (fun _ => x) = .ok a) : rb_type v = t ∧ x = .ok a := by
  unfold Check_Type at h
  by_cases ht : rb_type v = t
  · rw [if_pos ht] at h
    exact ⟨ht, h⟩
  · rw [if_neg ht] at h
    cases h

theorem Outcome.bind_ok {α β : Type} (x : Outcome α) (f : α → Outcome β) (b : β)
    (h : x.bind f = .ok b) : ∃ a, x = .ok a ∧ f a = .ok b := by
  cases x with
  | ok a => exact ⟨a, rfl, h⟩
  | raise e => cases h
  | undefined => cases h

/-- A value that the chain of `rb_writeUaValues` converts is converted to the
same Variant by the chain of `rb_writeUaValue`, for the eleven kinds that both
have; the Variant is a scalar of that kind, and for Int16 the value is a
Fixnum. -/
theorem rb_writeUaValues_value_agrees (ext : External) (K : Nat) (v : RValue)
    (value : UA_Variant)
    (hK : K ∈ integerKinds ∨ K = UA_TYPES_FLOAT ∨ K = UA_TYPES_DOUBLE ∨ K = UA_TYPES_BOOLEAN)
    (h : rb_writeUaValues.value ext K v = .ok value) :
    rb_writeUaValue.value ext K v = .ok value ∧
      (K = UA_TYPES_INT16 → rb_type v = .T_FIXNUM) ∧
      UA_Variant_hasScalarType value K = true := by
  simp only [integerKinds, List.mem_cons, List.mem_singleton, List.not_mem_nil, or_false,
    or_assoc] at hK
  rcases hK with rfl | rfl | rfl | rfl | rfl | rfl | rfl | rfl | rfl | rfl | rfl
  · have h1 : (NUM2CHR ext v).bind (fun nv => Outcome.ok (UA_Variant.scalar (.byte nv))) = .ok value :=
      (Check_Type_bind_ok v .T_FIXNUM _ value h).2
    obtain ⟨nv, _, hv⟩ := Outcome.bind_ok _ _ _ h1
    cases hv
    exact ⟨h1, fun h => absurd h (by decide), rfl⟩
  · have h1 : (NUM2INT ext v).bind (fun nv => Outcome.ok (UA_Variant.scalar (.sbyte (wrapSigned 8 nv)))) = .ok value :=
      (Check_Type_bind_ok v .T_FIXNUM _ value h).2
    obtain ⟨nv, _, hv⟩ := Outcome.bind_ok _ _ _ h1
    cases hv
    exact ⟨h1, fun h => absurd h (by decide), rfl⟩
  · have h1 : (NUM2SHORT ext v).bind (fun nv => Outcome.ok (UA_Variant.scalar (.int16 nv))) = .ok value :=
      (Check_Type_bind_ok v .T_FIXNUM _ value h).2
    obtain ⟨nv, _, hv⟩ := Outcome.bind_ok _ _ _ h1
    cases hv
    exact ⟨h1, fun _ => (Check_Type_bind_ok v .T_FIXNUM _ _ h).1, rfl⟩
  · have h1 : (NUM2USHORT ext v).bind (fun nv => Outcome.ok (UA_Variant.scalar (.uint16 nv))) = .ok value :=
      (Check_Type_bind_ok v .T_FIXNUM _ value h).2
    obtain ⟨nv, _, hv⟩ := Outcome.bind_ok _ _ _ h1
    cases hv
    exact ⟨h1, fun h => absurd h (by decide), rfl⟩
  · have h1 : (NUM2INT ext v).bind (fun nv => Outcome.ok (UA_Variant.scalar (.int32 nv))) = .ok value :=
      (Check_Type_bind_ok v .T_FIXNUM _ value h).2
    obtain ⟨nv, _, hv⟩ := Outcome.bind_ok _ _ _ h1
    cases hv
    exact ⟨h1, fun h => absurd h (by decide), rfl⟩
  · have h1 : (NUM2UINT ext v).bind (fun nv => Outcome.ok (UA_Variant.scalar (.uint32 nv))) = .ok value :=
      (Check_Type_bind_ok v .T_FIXNUM _ value h).2
    obtain ⟨nv, _, hv⟩ := Outcome.bind_ok _ _ _ h1
    cases hv
    exact ⟨h1, fun h => absurd h (by decide), rfl⟩
  · have h1 : (NUM2LL ext v).bind (fun nv => Outcome.ok (UA_Variant.scalar (.int64 nv))) = .ok value :=
      (Check_Type_bind_ok v .T_FIXNUM _ value h).2
    obtain ⟨nv, _, hv⟩ := Outcome.bind_ok _ _ _ h1
    cases hv
    exact ⟨h1, fun h => absurd h (by decide), rfl⟩
  · have h1 : (NUM2ULL ext v).bind (fun nv => Outcome.ok (UA_Variant.scalar (.uint64 nv))) = .ok value :=
      (Check_Type_bind_ok v .T_FIXNUM _ value h).2
    obtain ⟨nv, _, hv⟩ := Outcome.bind_ok _ _ _ h1
    cases hv
    exact ⟨h1, fun h => absurd h (by decide), rfl⟩
  · have h1 : (NUM2DBL ext v).bind (fun nv => Outcome.ok (UA_Variant.scalar (.float (ext.doubleToFloat nv)))) = .ok value :=
      (Check_Type_bind_ok v .T_FLOAT _ value h).2
    obtain ⟨nv, _, hv⟩ := Outcome.bind_ok _ _ _ h1
    cases hv
    exact ⟨h1, fun h => absurd h (by decide), rfl⟩
  · have h1 : (NUM2DBL ext v).bind (fun nv => Outcome.ok (UA_Variant.scalar (.double nv))) = .ok value :=
      (Check_Type_bind_ok v .T_FLOAT _ value h).2
    obtain ⟨nv, _, hv⟩ := Outcome.bind_ok _ _ _ h1
    cases hv
    exact ⟨h1, fun h => absurd h (by decide), rfl⟩
  · have h2 : (if (RB_TYPE_P v .T_TRUE != true && RB_TYPE_P v .T_FALSE != true) = true then
        (raise_invalid_arguments_error : Outcome UA_Variant)
        else .ok (.scalar (.boolean (RTEST v)))) = .ok value := h
    by_cases hb : (RB_TYPE_P v .T_TRUE != true && RB_TYPE_P v .T_FALSE != true) = true
    · rw [if_pos hb] at h2
      cases h2
    · rw [if_neg hb] at h2
      cases h2
      exact ⟨rfl, fun h => absurd h (by decide), rfl⟩

/-- The run of `rb_writeUaValues` on one pair, for a namespace index in the
range of `int` and a name without NUL. -/
theorem rb_writeUaValues_run_single (ext : External) (client : UA_Client) (n : Int)
    (name : List Nat) (v : RValue) (K : Nat)
    (hn : -(2 ^ 31) ≤ n ∧ n ≤ 2 ^ 31 - 1) (hname : 0 ∉ name) :
    rb_writeUaValues ext client (.int n) (.ary [.str name]) (.ary [v]) K =
      match rb_writeUaValues.value ext K v with
      | .ok value =>
        { calls := [StackCall.Service_write [(UA_NODEID_STRING n name, value)]]
          outcome := (multiWrite client [(UA_NODEID_STRING n name, value)]).outcome.bind
            fun status =>
              if status = UA_STATUSCODE_GOOD then .ok .nil
              else raise_ua_status_error ext status }
      | .raise e => ⟨[], .raise e⟩
      | .undefined => ⟨[], .undefined⟩ := by
  have hfixn : rb_type (.int n) = .T_FIXNUM := rb_type_fixnum n (by constructor <;> omega)
  unfold rb_writeUaValues
  rw [if_neg (by simp [RB_TYPE_P, hfixn])]
  simp only [List.length_singleton, ne_eq, not_true_eq_false, if_false, FIX2INT,
    NUM2INT_int ext n hn]
  have hitems : rb_writeUaValues.items ext n K [.str name] [v] =
      (rb_writeUaValues.value ext K v).bind fun value =>
        .ok [(UA_NODEID_STRING n name, value)] := by
    unfold rb_writeUaValues.items
    rw [if_neg (by simp [RB_TYPE_P, rb_type])]
    simp only [StringValueCStr_str name hname, Outcome.bind]
    cases rb_writeUaValues.value ext K v <;> rfl
  rw [hitems]
  cases rb_writeUaValues.value ext K v <;> rfl

/-- C30: for each of the eleven kinds `K` that scalar write and batched write
both offer (the eight integer kinds, Float, Double, Boolean), a namespace index
in the range of `int`, a name without NUL and every host value `v`: when
`multi_write` of the single pair `([name], [v])` gets as far as sending its
request, the request holds one item, the scalar write of `(name, v)` sends its
request too, for the same node and with the same Variant, and that Variant is
a scalar tagged `K`. -/
theorem C30_single_pair_batched_write_builds_scalar_write_variant (ext : External)
    (client : UA_Client) (n : Int) (name : List Nat) (v : RValue) (K : Nat)
    (items : List (UA_NodeId × UA_Variant))
    (hn : -(2 ^ 31) ≤ n ∧ n ≤ 2 ^ 31 - 1) (hname : 0 ∉ name)
    (hK : K ∈ integerKinds ∨ K = UA_TYPES_FLOAT ∨ K = UA_TYPES_DOUBLE ∨ K = UA_TYPES_BOOLEAN)
    (hbatched : (rb_writeUaValues ext client (.int n) (.ary [.str name]) (.ary [v]) K).calls
      = [StackCall.Service_write items]) :
    ∃ value : UA_Variant,
      items = [(UA_NODEID_STRING n name, value)] ∧
      (rb_writeUaValue ext client (.int n) (.str name) v K).calls
        = [StackCall.writeValueAttribute (UA_NODEID_STRING n name) value] ∧
      UA_Variant_hasScalarType value K = true := by
  rw [rb_writeUaValues_run_single ext client n name v K hn hname] at hbatched
  cases hv : rb_writeUaValues.value ext K v with
  | ok value =>
    rw [hv] at hbatched
    simp only [List.cons.injEq, StackCall.Service_write.injEq, and_true] at hbatched
    obtain ⟨h1, h2, h3⟩ := rb_writeUaValues_value_agrees ext K v value hK hv
    refine ⟨value, hbatched.symm, ?_, h3⟩
    rw [rb_writeUaValue_run ext client n name v K value hn hname h2 h1]
  | raise e =>
    rw [hv] at hbatched
    cases hbatched
  | undefined =>
    rw [hv] at hbatched
    cases hbatched

/-- C30 at a concrete input: `multi_write_uint16(5, ["uint16a"], [-1])` and
`write_uint16(5, "uint16a", -1)` both send the UInt16 scalar 65535. -/
theorem C30_single_pair_batched_write_builds_scalar_write_variant_witness :
    ∃ value : UA_Variant,
      [(UA_NODEID_STRING 5 (cstr "uint16a"), UA_Variant.scalar (.uint16 65535))]
        = [(UA_NODEID_STRING 5 (cstr "uint16a"), value)] ∧
      (rb_writeUaValue sampleExternal (goodClient .empty) (.int 5) (.str (cstr "uint16a"))
          (.int (-1)) UA_TYPES_UINT16).calls
        = [StackCall.writeValueAttribute (UA_NODEID_STRING 5 (cstr "uint16a")) value] ∧
      UA_Variant_hasScalarType value UA_TYPES_UINT16 = true :=
  C30_single_pair_batched_write_builds_scalar_write_variant sampleExternal (goodClient .empty)
    5 (cstr "uint16a") (.int (-1)) UA_TYPES_UINT16
    [(UA_NODEID_STRING 5 (cstr "uint16a"), UA_Variant.scalar (.uint16 65535))]
    (by decide) (by decide) (Or.inl (by decide)) (by decide)

end OpcuaClient
